import Mathlib

/-!
# Model evaluation and differentiation dispatch layer of `stan::model`

A shallow embedding of `src/stan/model/{log_prob, log_prob_grad, log_prob_propto,
gradient, model_functional, model_base_interface}.hpp` and of the test models
`mock_model` and `rosenbrock_model`.

Conventions of the embedding.

* `double` is `ℚ`: the arithmetic of the programs is read over the rationals.
* `std::vector<double>` and `Eigen::VectorXd` are `List ℚ`; the two overloads of a
  C++ function get two Lean names (suffix `_eigen` for the dense one, `_i` for the
  overload that also takes `params_i`, `_var` for the `math::var` overloads).
* A C++ call is a function `World → Res α`: it returns a value, propagates a thrown
  object, or has undefined behaviour (out-of-range subscript, null dereference).
  The world survives a throw, so text written and arena nodes pushed before a
  throw are still there when the error reaches the caller.
* A by-reference output buffer (`gradient`) is returned next to the value.  The
  parameter vectors are taken by non-const reference in the source but are inputs
  only (`model_functional.hpp`: "requires non-const but doesn't modify its
  argument").
-/

namespace stan

/-! ## Thrown objects -/

/-- A thrown C++ object.  The first three constructors are classes derived from
`std::exception` (carrying `what()`); `foreign` is a thrown object of any other
type, which a handler `catch (std::exception&)` does not match. -/
inductive exception where
  | runtime_error (what : String)
  | domain_error (what : String)
  | std_exception (what : String)
  | foreign (tag : Nat)
deriving DecidableEq, Repr

/-- Whether a handler `catch (const std::exception&)` matches the thrown object. -/
def exception.is_std_exception : exception → Bool
  | .runtime_error _ => true
  | .domain_error _ => true
  | .std_exception _ => true
  | .foreign _ => false

/-! ## The world: arena, streams, instrumentation -/

/-- Modelled from the spec: `stan::math::vari` of the AD backend (not part of this
repository), a node of the arena: its value and what one reverse sweep seeded at
it yields, namely an error or the adjoint of each independent variable in order. -/
structure vari where
  val : ℚ
  sweep : Except exception (List ℚ)

/-- Modelled from the spec: `stan::math::var` of the AD backend, a handle to a
node, null when default constructed. -/
structure var where
  vi : Option vari

/-- A `std::ostream*`: null, or the address of a stream. -/
abbrev ostream_ptr := Option Nat

/-- The levels of `stan::callbacks::logger`. -/
inductive log_level where
  | debug
  | info
  | warn
  | error
  | fatal
deriving DecidableEq, Repr

/-- The mutable state a call can reach.  `arena` is the stack of AD nodes,
`streams` gives the text held by the stream at each address, `recover_calls`
counts the invocations of `stan::math::recover_memory` (instrumentation),
`logger_calls` lists the calls made on the logger, oldest first, and
`next_stream` is the address the next stream object is constructed at. -/
structure World where
  arena : List vari
  streams : Nat → String
  recover_calls : Nat
  logger_calls : List (log_level × String)
  next_stream : Nat

/-- The world with an empty arena, empty streams and no recorded invocation. -/
def World.empty : World :=
  { arena := [], streams := fun _ => "", recover_calls := 0, logger_calls := [],
    next_stream := 0 }

/-- Outcome of a call. -/
inductive Res (α : Type) where
  | ret (a : α) (w : World)
  | thrown (e : exception) (w : World)
  | undefined

/-- A C++ call with side effects. -/
def Eff (α : Type) : Type := World → Res α

namespace Eff

/-- Normal return. -/
def ret {α : Type} (a : α) : Eff α := fun w => Res.ret a w

/-- The statement `throw e;`. -/
def raise {α : Type} (e : exception) : Eff α := fun w => Res.thrown e w

/-- Undefined behaviour. -/
def undef {α : Type} : Eff α := fun _ => Res.undefined

/-- Sequencing: a throw or undefined behaviour of the first part ends the call. -/
def seq {α β : Type} (x : Eff α) (f : α → Eff β) : Eff β := fun w =>
  match x w with
  | Res.ret a w1 => f a w1
  | Res.thrown e w1 => Res.thrown e w1
  | Res.undefined => Res.undefined

/-- The block `try { body } catch (const std::exception& ex) { handler }`: the
handler runs only for objects derived from `std::exception`; any other thrown
object passes through. -/
def try_catch_std {α : Type} (body : Eff α) (handler : exception → Eff α) : Eff α :=
  fun w =>
    match body w with
    | Res.ret a w1 => Res.ret a w1
    | Res.thrown e w1 => if e.is_std_exception then handler e w1 else Res.thrown e w1
    | Res.undefined => Res.undefined

end Eff

instance : Monad Eff where
  pure := Eff.ret
  bind := Eff.seq

/-! ## The Virtual-Interface model: `model_base_interface` -/

/-- Modelled from the spec: `stan::io::var_context` (not under `src/`), the
"key-to-value(s) store used to seed initial unconstrained parameter values", reduced
to its member `vals_r(name)`. -/
abbrev var_context := String → List ℚ

/-- The state of the random number engine `boost::ecuyer1988`. -/
abbrev ecuyer1988 := Nat

/-- Modelled from the spec: the base class `prob_grad` of `model_base` (not under
`src/`), which holds `num_params_r`, "count of continuous unconstrained parameters,
fixed at construction", and `num_params_i`, "count of discrete parameters". -/
structure prob_grad where
  num_params_r : Nat
  num_params_i : Nat

/-- Modelled from the spec: the constructor `model_base(size_t num_params_r)`, which
forwards to `prob_grad(num_params_r)`: the given number of real parameters and no
discrete parameter. -/
def model_base.ctor (num_params_r : Nat) : prob_grad :=
  { num_params_r := num_params_r, num_params_i := 0 }

/-- A class derived from `stan::model::model_base_interface`, given by its
constructor argument and its virtual-method table.  The pure virtual methods are
plain fields; a method that has a default body in `model_base_interface` is an
optional override. -/
structure model_base_interface where
  /-- Constructor argument `num_params_r`. -/
  num_params_r : Nat
  /-- The string `typeid(model).name()` of the dynamic type. -/
  type_name : String
  /-- Pure virtual `log_prob(std::vector<double>&, std::ostream*)`. -/
  impl_log_prob : List ℚ → ostream_ptr → Eff ℚ
  /-- Pure virtual `log_prob(Eigen::VectorXd&, std::ostream*)`. -/
  impl_log_prob_eigen : List ℚ → ostream_ptr → Eff ℚ
  /-- Pure virtual `log_prob_grad(std::vector<double>&, std::vector<double>&, bool,
  bool, std::ostream*)`; the second component of the result is `gradient` after the
  call. -/
  impl_log_prob_grad : List ℚ → List ℚ → Bool → Bool → ostream_ptr → Eff (ℚ × List ℚ)
  /-- Pure virtual `log_prob_grad(Eigen::VectorXd&, Eigen::VectorXd&, bool, bool,
  std::ostream*)`. -/
  impl_log_prob_grad_eigen :
    List ℚ → List ℚ → Bool → Bool → ostream_ptr → Eff (ℚ × List ℚ)
  /-- Override of `log_prob_jacobian(std::vector<double>&, std::ostream*)`, if any. -/
  override_log_prob_jacobian : Option (List ℚ → ostream_ptr → Eff ℚ)
  /-- Override of `log_prob_jacobian(Eigen::VectorXd&, std::ostream*)`, if any. -/
  override_log_prob_jacobian_eigen : Option (List ℚ → ostream_ptr → Eff ℚ)
  /-- Override of `log_prob_propto(std::vector<double>&, std::ostream*)`, if any. -/
  override_log_prob_propto : Option (List ℚ → ostream_ptr → Eff ℚ)
  /-- Override of `log_prob_propto(Eigen::VectorXd&, std::ostream*)`, if any. -/
  override_log_prob_propto_eigen : Option (List ℚ → ostream_ptr → Eff ℚ)
  /-- Override of `log_prob_propto_jacobian(std::vector<double>&, std::ostream*)`. -/
  override_log_prob_propto_jacobian : Option (List ℚ → ostream_ptr → Eff ℚ)
  /-- Override of `log_prob_propto_jacobian(Eigen::VectorXd&, std::ostream*)`. -/
  override_log_prob_propto_jacobian_eigen : Option (List ℚ → ostream_ptr → Eff ℚ)
  /-- Pure virtual `transform_inits(const io::var_context&, std::vector<double>&,
  std::ostream*)`; the result is `params_r` after the call. -/
  impl_transform_inits : var_context → List ℚ → ostream_ptr → Eff (List ℚ)
  /-- Pure virtual `transform_inits(const io::var_context&, Eigen::VectorXd&,
  std::ostream*)`. -/
  impl_transform_inits_eigen : var_context → List ℚ → ostream_ptr → Eff (List ℚ)
  /-- Pure virtual `write_array(rng, params_r, params_r_constrained, include_tparams,
  include_gqs, msgs)` on `std::vector<double>`; the result is the state of `rng` and
  `params_r_constrained` after the call. -/
  impl_write_array :
    ecuyer1988 → List ℚ → List ℚ → Bool → Bool → ostream_ptr → Eff (ecuyer1988 × List ℚ)
  /-- Pure virtual `write_array` on `Eigen::VectorXd`. -/
  impl_write_array_eigen :
    ecuyer1988 → List ℚ → List ℚ → Bool → Bool → ostream_ptr → Eff (ecuyer1988 × List ℚ)

namespace model_base_interface

/-- Constructor `explicit model_base_interface(size_t num_params_r) :
model_base(num_params_r) {}`. -/
def ctor (num_params_r : Nat) : prob_grad :=
  model_base.ctor num_params_r

/-- The base-class part of a model, as its constructor built it. -/
def base (model : model_base_interface) : prob_grad :=
  ctor model.num_params_r

/-- Virtual call `log_prob(std::vector<double>& params_r, std::ostream* msgs)`. -/
def log_prob (model : model_base_interface) (params_r : List ℚ) (msgs : ostream_ptr) :
    Eff ℚ :=
  model.impl_log_prob params_r msgs

/-- Virtual call `log_prob(Eigen::VectorXd& params_r, std::ostream* msgs)`. -/
def log_prob_eigen (model : model_base_interface) (params_r : List ℚ)
    (msgs : ostream_ptr) : Eff ℚ :=
  model.impl_log_prob_eigen params_r msgs

/-- Virtual call `log_prob_grad` on `std::vector<double>`. -/
def log_prob_grad (model : model_base_interface) (params_r gradient : List ℚ)
    (propto jacobian_adjust_transform : Bool) (msgs : ostream_ptr) : Eff (ℚ × List ℚ) :=
  model.impl_log_prob_grad params_r gradient propto jacobian_adjust_transform msgs

/-- Virtual call `log_prob_grad` on `Eigen::VectorXd`. -/
def log_prob_grad_eigen (model : model_base_interface) (params_r gradient : List ℚ)
    (propto jacobian_adjust_transform : Bool) (msgs : ostream_ptr) : Eff (ℚ × List ℚ) :=
  model.impl_log_prob_grad_eigen params_r gradient propto jacobian_adjust_transform msgs

/-- Virtual call `log_prob_jacobian(std::vector<double>&, std::ostream*)`; the
default body is `return log_prob(params_r, msgs);`. -/
def log_prob_jacobian (model : model_base_interface) (params_r : List ℚ)
    (msgs : ostream_ptr) : Eff ℚ :=
  match model.override_log_prob_jacobian with
  | some f => f params_r msgs
  | none => model.log_prob params_r msgs

/-- Virtual call `log_prob_jacobian(Eigen::VectorXd&, std::ostream*)`; the default
body is `return log_prob(params_r, msgs);`. -/
def log_prob_jacobian_eigen (model : model_base_interface) (params_r : List ℚ)
    (msgs : ostream_ptr) : Eff ℚ :=
  match model.override_log_prob_jacobian_eigen with
  | some f => f params_r msgs
  | none => model.log_prob_eigen params_r msgs

/-- Virtual call `log_prob_propto(std::vector<double>&, std::ostream*)`; the default
body is `return log_prob(params_r, msgs);`. -/
def log_prob_propto (model : model_base_interface) (params_r : List ℚ)
    (msgs : ostream_ptr) : Eff ℚ :=
  match model.override_log_prob_propto with
  | some f => f params_r msgs
  | none => model.log_prob params_r msgs

/-- Virtual call `log_prob_propto(Eigen::VectorXd&, std::ostream*)`; the default
body is `return log_prob(params_r, msgs);`. -/
def log_prob_propto_eigen (model : model_base_interface) (params_r : List ℚ)
    (msgs : ostream_ptr) : Eff ℚ :=
  match model.override_log_prob_propto_eigen with
  | some f => f params_r msgs
  | none => model.log_prob_eigen params_r msgs

/-- Virtual call `log_prob_propto_jacobian(std::vector<double>&, std::ostream*)`;
the default body is `return log_prob_jacobian(params_r, msgs);`. -/
def log_prob_propto_jacobian (model : model_base_interface) (params_r : List ℚ)
    (msgs : ostream_ptr) : Eff ℚ :=
  match model.override_log_prob_propto_jacobian with
  | some f => f params_r msgs
  | none => model.log_prob_jacobian params_r msgs

/-- Virtual call `log_prob_propto_jacobian(Eigen::VectorXd&, std::ostream*)`; the
default body is `return log_prob_jacobian(params_r, msgs);`. -/
def log_prob_propto_jacobian_eigen (model : model_base_interface) (params_r : List ℚ)
    (msgs : ostream_ptr) : Eff ℚ :=
  match model.override_log_prob_propto_jacobian_eigen with
  | some f => f params_r msgs
  | none => model.log_prob_jacobian_eigen params_r msgs

/-- The overload `log_prob(params_r, params_i, msgs)`:
`(void)params_i; return log_prob(params_r, msgs);`. -/
def log_prob_i (model : model_base_interface) (params_r : List ℚ) (_params_i : List Int)
    (msgs : ostream_ptr) : Eff ℚ :=
  model.log_prob params_r msgs

/-- The overload `log_prob_jacobian(params_r, params_i, msgs)`. -/
def log_prob_jacobian_i (model : model_base_interface) (params_r : List ℚ)
    (_params_i : List Int) (msgs : ostream_ptr) : Eff ℚ :=
  model.log_prob_jacobian params_r msgs

/-- The overload `log_prob_propto(params_r, params_i, msgs)`. -/
def log_prob_propto_i (model : model_base_interface) (params_r : List ℚ)
    (_params_i : List Int) (msgs : ostream_ptr) : Eff ℚ :=
  model.log_prob_propto params_r msgs

/-- The overload `log_prob_propto_jacobian(params_r, params_i, msgs)`. -/
def log_prob_propto_jacobian_i (model : model_base_interface) (params_r : List ℚ)
    (_params_i : List Int) (msgs : ostream_ptr) : Eff ℚ :=
  model.log_prob_propto_jacobian params_r msgs

/-- Virtual call `transform_inits(context, params_r, msgs)` on `std::vector<double>`. -/
def transform_inits (model : model_base_interface) (context : var_context)
    (params_r : List ℚ) (msgs : ostream_ptr) : Eff (List ℚ) :=
  model.impl_transform_inits context params_r msgs

/-- Virtual call `transform_inits(context, params_r, msgs)` on `Eigen::VectorXd`. -/
def transform_inits_eigen (model : model_base_interface) (context : var_context)
    (params_r : List ℚ) (msgs : ostream_ptr) : Eff (List ℚ) :=
  model.impl_transform_inits_eigen context params_r msgs

/-- The overload `transform_inits(context, params_i, params_r, msgs)`:
`(void)params_i; return transform_inits(context, params_r, msgs);`. -/
def transform_inits_i (model : model_base_interface) (context : var_context)
    (_params_i : List Int) (params_r : List ℚ) (msgs : ostream_ptr) : Eff (List ℚ) :=
  model.transform_inits context params_r msgs

/-- Virtual call `write_array(rng, params_r, params_r_constrained, include_tparams,
include_gqs, msgs)` on `std::vector<double>`. -/
def write_array (model : model_base_interface) (rng : ecuyer1988) (params_r : List ℚ)
    (params_r_constrained : List ℚ) (include_tparams include_gqs : Bool)
    (msgs : ostream_ptr) : Eff (ecuyer1988 × List ℚ) :=
  model.impl_write_array rng params_r params_r_constrained include_tparams include_gqs msgs

/-- Virtual call `write_array` on `Eigen::VectorXd`. -/
def write_array_eigen (model : model_base_interface) (rng : ecuyer1988)
    (params_r : List ℚ) (params_r_constrained : List ℚ)
    (include_tparams include_gqs : Bool) (msgs : ostream_ptr) :
    Eff (ecuyer1988 × List ℚ) :=
  model.impl_write_array_eigen rng params_r params_r_constrained include_tparams
    include_gqs msgs

/-- The overload `write_array(rng, params_r, params_i, params_r_constrained,
include_tparams, include_gqs, msgs)`: `(void)params_i; return write_array(rng,
params_r, params_r_constrained, include_tparams, include_gqs, msgs);`. -/
def write_array_i (model : model_base_interface) (rng : ecuyer1988) (params_r : List ℚ)
    (_params_i : List Int) (params_r_constrained : List ℚ)
    (include_tparams include_gqs : Bool) (msgs : ostream_ptr) :
    Eff (ecuyer1988 × List ℚ) :=
  model.write_array rng params_r params_r_constrained include_tparams include_gqs msgs

end model_base_interface

/-! ## The Templated-Density model -/

/-- What one evaluation of a templated density does: the nodes it pushes on the
arena, the text it writes to `msgs` when `msgs` is not null, and the value it
returns or the object it throws. -/
structure density_run (α : Type) where
  nodes : List vari
  text : String
  result : Except exception α

/-- A Strategy-T model: a class with a member template
`log_prob<propto, jacobian_adjust_transform, T>`, given by `num_params_r()` and by
the instantiations of the template this layer uses.  The last `Bool` argument of
each tells whether `msgs` is non-null. -/
structure templated_model where
  /-- Result of `num_params_r()`. -/
  num_params_r : Nat
  /-- Instantiation `log_prob<propto, jacobian, double>(std::vector<double>&,
  std::vector<int>&, std::ostream*)`. -/
  density_double : Bool → Bool → List ℚ → List Int → Bool → density_run ℚ
  /-- Instantiation `log_prob<propto, jacobian, var>(std::vector<var>&,
  std::vector<int>&, std::ostream*)`. -/
  density_var : Bool → Bool → List var → List Int → Bool → density_run vari
  /-- Instantiation `log_prob<propto, jacobian, double>(Eigen::VectorXd&,
  std::ostream*)`. -/
  density_double_eigen : Bool → Bool → List ℚ → Bool → density_run ℚ
  /-- Instantiation `log_prob<propto, jacobian, var>(Eigen::Matrix<var, -1, 1>&,
  std::ostream*)`. -/
  density_var_eigen : Bool → Bool → List var → Bool → density_run vari

/-- Appending `text` to the stream `msgs` points to; nothing when `msgs` is null. -/
def World.write (w : World) (msgs : ostream_ptr) (text : String) : World :=
  match msgs with
  | none => w
  | some p => { w with streams := Function.update w.streams p (w.streams p ++ text) }

/-- The effect of one density evaluation on the world. -/
def density_run.exec {α : Type} (r : density_run α) (msgs : ostream_ptr) : Eff α :=
  fun w =>
    let w1 := { w.write msgs r.text with arena := w.arena ++ r.nodes }
    match r.result with
    | Except.ok a => Res.ret a w1
    | Except.error e => Res.thrown e w1

namespace templated_model

/-- Call `model.template log_prob<propto, jacobian>(params_r, params_i, msgs)` at
`double`. -/
def log_prob_double (model : templated_model) (propto jacobian_adjust_transform : Bool)
    (params_r : List ℚ) (params_i : List Int) (msgs : ostream_ptr) : Eff ℚ :=
  (model.density_double propto jacobian_adjust_transform params_r params_i
    msgs.isSome).exec msgs

/-- Call `model.template log_prob<propto, jacobian>(ad_params_r, params_i, msgs)`
at `var`; the returned `var` points to the node the evaluation produced. -/
def log_prob_var (model : templated_model) (propto jacobian_adjust_transform : Bool)
    (ad_params_r : List var) (params_i : List Int) (msgs : ostream_ptr) : Eff var :=
  do
    let n ← (model.density_var propto jacobian_adjust_transform ad_params_r params_i
      msgs.isSome).exec msgs
    pure (var.mk (some n))

/-- Call `model.template log_prob<propto, jacobian>(ad_params_r, msgs)` at `var` on
an Eigen vector. -/
def log_prob_var_eigen (model : templated_model)
    (propto jacobian_adjust_transform : Bool) (ad_params_r : List var)
    (msgs : ostream_ptr) : Eff var :=
  do
    let n ← (model.density_var_eigen propto jacobian_adjust_transform ad_params_r
      msgs.isSome).exec msgs
    pure (var.mk (some n))

end templated_model

/-- The scalar types the density template is instantiated at. -/
inductive scalar_type where
  | double
  | var

/-- The C++ type a scalar type stands for. -/
def scalar_type.carrier : scalar_type → Type
  | scalar_type.double => ℚ
  | scalar_type.var => stan.var

/-- Call `model.template log_prob<propto, jacobian, T>(x, msgs)` on an Eigen vector
of scalar type `T`. -/
def templated_model.log_prob_eigen (m : templated_model) (propto jacobian : Bool)
    (T : scalar_type) (x : List T.carrier) (msgs : ostream_ptr) : Eff T.carrier :=
  match T with
  | scalar_type.double => (m.density_double_eigen propto jacobian x msgs.isSome).exec msgs
  | scalar_type.var => m.log_prob_var_eigen propto jacobian x msgs

/-- A concrete model type: either it derives from `model_base_interface`
(`enable_if_derived_interface_t<M>` holds) or it is a templated-density class. -/
inductive Model where
  | templated (m : templated_model)
  | derived_interface (m : model_base_interface)

/-! ## `log_prob.hpp` -/

namespace model
namespace internal

/-- Function `log_prob_impl` of `log_prob.hpp`. -/
def log_prob_impl (propto jacobian_adjust_transform : Bool) (model : templated_model)
    (params_r : List ℚ) (params_i : List Int) (msgs : ostream_ptr) : Eff ℚ :=
  model.log_prob_double propto jacobian_adjust_transform params_r params_i msgs

/-- The general template `LogProbHelper<propto, jacobian_adjust_transform, M>` of
`log_prob.hpp`. -/
def LogProbHelper.log_prob (propto jacobian_adjust_transform : Bool)
    (model : templated_model) (params_r : List ℚ) (params_i : List Int)
    (msgs : ostream_ptr) : Eff ℚ :=
  log_prob_impl propto jacobian_adjust_transform model params_r params_i msgs

/-- The partial specialization of `LogProbHelper` for classes derived from
`model_base_interface` (`log_prob.hpp`). -/
def LogProbHelper_interface.log_prob (propto jacobian_adjust_transform : Bool)
    (model : model_base_interface) (params_r : List ℚ) (params_i : List Int)
    (msgs : ostream_ptr) : Eff ℚ :=
  if propto && jacobian_adjust_transform then
    model.log_prob_propto_jacobian_i params_r params_i msgs
  else if propto && !jacobian_adjust_transform then
    model.log_prob_propto_i params_r params_i msgs
  else if !propto && jacobian_adjust_transform then
    model.log_prob_jacobian_i params_r params_i msgs
  else
    model.log_prob_i params_r params_i msgs

end internal

/-- Function `stan::model::log_prob<propto, jacobian_adjust_transform, M>`. -/
def log_prob (propto jacobian_adjust_transform : Bool) (model : Model)
    (params_r : List ℚ) (params_i : List Int) (msgs : ostream_ptr) : Eff ℚ :=
  match model with
  | Model.templated m =>
      internal.LogProbHelper.log_prob propto jacobian_adjust_transform m params_r
        params_i msgs
  | Model.derived_interface m =>
      internal.LogProbHelper_interface.log_prob propto jacobian_adjust_transform m
        params_r params_i msgs

end model

/-! ## The AD backend used by the gradient evaluator -/

/-- The node of an independent variable with value `x`. -/
def vari.leaf (x : ℚ) : vari :=
  { val := x, sweep := Except.ok [] }

/-- Modelled from the spec: the constructor `stan::math::var(double)` of the AD
backend: it pushes the node of a new independent variable on the arena ("linking
it into the Arena") and returns the handle to it. -/
def var.ctor (x : ℚ) : Eff var :=
  fun w => Res.ret (var.mk (some (vari.leaf x))) { w with arena := w.arena ++ [vari.leaf x] }

/-- Modelled from the spec: `var::val()` of the AD backend, the primal component;
a null handle is dereferenced, which is undefined. -/
def var.val (v : var) : Eff ℚ :=
  match v.vi with
  | none => Eff.undef
  | some n => pure n.val

/-- Modelled from the spec: the reverse sweep `adLogProb.grad(x, g)` (and
`stan::math::grad(adLogProb, x, g)`) of the AD backend: one sweep seeded at the
value, which may raise, then `g` is resized to `x.size()` and entry `i` receives the
adjoint of `x[i]`; reading the adjoint through a null handle is undefined. -/
def var.grad (adLogProb : var) (x : List var) (_g : List ℚ) : Eff (List ℚ) :=
  match adLogProb.vi with
  | none => Eff.undef
  | some n =>
    match n.sweep with
    | Except.error e => Eff.raise e
    | Except.ok adj =>
      if x.all (fun v => v.vi.isSome) then
        pure ((List.range x.length).map (fun i => adj.getD i 0))
      else Eff.undef

/-- Modelled from the spec: `stan::math::recover_memory()` of the AD backend, the
explicit recovery operation: the arena is emptied.  The invocation is counted. -/
def recover_memory : Eff Unit :=
  fun w => Res.ret () { w with arena := [], recover_calls := w.recover_calls + 1 }

/-- The subscript `v[i]` on a vector of doubles; out of range is undefined. -/
def subscript (v : List ℚ) (i : Nat) : Eff ℚ :=
  match v.get? i with
  | some x => pure x
  | none => Eff.undef

/-- The assignment `v[i] = x`; out of range is undefined. -/
def assign {α : Type} (v : List α) (i : Nat) (x : α) : Eff (List α) :=
  if i < v.length then pure (v.set i x) else Eff.undef

/-! ## `log_prob_grad.hpp` -/

namespace model
namespace internal

/-- The loop of `log_prob_grad_impl`
`for (size_t i = 0; i < model.num_params_r(); ++i) { var var_i(params_r[i]);
ad_params_r[i] = var_i; }`; the first argument is the number of iterations left,
`num_params_r() - i`. -/
def ad_params_loop (params_r : List ℚ) : Nat → Nat → List var → Eff (List var)
  | 0, _, ad_params_r => pure ad_params_r
  | k + 1, i, ad_params_r => do
      let x ← subscript params_r i
      let var_i ← var.ctor x
      let ad_params_r ← assign ad_params_r i var_i
      ad_params_loop params_r k (i + 1) ad_params_r

/-- Function `log_prob_grad_impl` on `std::vector<double>`. -/
def log_prob_grad_impl (propto jacobian_adjust_transform : Bool) (model : templated_model)
    (params_r : List ℚ) (params_i : List Int) (gradient : List ℚ) (msgs : ostream_ptr) :
    Eff (ℚ × List ℚ) :=
  Eff.try_catch_std
    (do
      let ad_params_r ← ad_params_loop params_r model.num_params_r 0
        (List.replicate params_r.length (var.mk none))
      let adLogProb ← model.log_prob_var propto jacobian_adjust_transform ad_params_r
        params_i msgs
      let lp ← adLogProb.val
      let gradient ← adLogProb.grad ad_params_r gradient
      recover_memory
      pure (lp, gradient))
    (fun ex => do
      recover_memory
      Eff.raise ex)

/-- Function `log_prob_grad_impl` on `Eigen::VectorXd`. -/
def log_prob_grad_impl_eigen (propto jacobian_adjust_transform : Bool)
    (model : templated_model) (params_r : List ℚ) (gradient : List ℚ)
    (msgs : ostream_ptr) : Eff (ℚ × List ℚ) :=
  Eff.try_catch_std
    (do
      let ad_params_r ← ad_params_loop params_r model.num_params_r 0
        (List.replicate params_r.length (var.mk none))
      let adLogProb ← model.log_prob_var_eigen propto jacobian_adjust_transform
        ad_params_r msgs
      let val ← adLogProb.val
      let gradient ← adLogProb.grad ad_params_r gradient
      recover_memory
      pure (val, gradient))
    (fun ex => do
      recover_memory
      Eff.raise ex)

/-- Function `log_prob_grad_interface_impl` on `std::vector<double>`:
`(void)params_i; return model.log_prob_grad(params_r, gradient, propto,
jacobian_adjust_transform, msgs);`. -/
def log_prob_grad_interface_impl (propto jacobian_adjust_transform : Bool)
    (model : model_base_interface) (params_r : List ℚ) (_params_i : List Int)
    (gradient : List ℚ) (msgs : ostream_ptr) : Eff (ℚ × List ℚ) :=
  model.log_prob_grad params_r gradient propto jacobian_adjust_transform msgs

/-- Function `log_prob_grad_interface_impl` on `Eigen::VectorXd`. -/
def log_prob_grad_interface_impl_eigen (propto jacobian_adjust_transform : Bool)
    (model : model_base_interface) (params_r : List ℚ) (gradient : List ℚ)
    (msgs : ostream_ptr) : Eff (ℚ × List ℚ) :=
  model.log_prob_grad_eigen params_r gradient propto jacobian_adjust_transform msgs

/-- The general template `Helper<propto, jacobian_adjust_transform, M>`, flat
overload. -/
def Helper.log_prob_grad (propto jacobian_adjust_transform : Bool)
    (model : templated_model) (params_r : List ℚ) (params_i : List Int)
    (gradient : List ℚ) (msgs : ostream_ptr) : Eff (ℚ × List ℚ) :=
  log_prob_grad_impl propto jacobian_adjust_transform model params_r params_i gradient
    msgs

/-- The general template `Helper<propto, jacobian_adjust_transform, M>`, Eigen
overload. -/
def Helper.log_prob_grad_eigen (propto jacobian_adjust_transform : Bool)
    (model : templated_model) (params_r : List ℚ) (gradient : List ℚ)
    (msgs : ostream_ptr) : Eff (ℚ × List ℚ) :=
  log_prob_grad_impl_eigen propto jacobian_adjust_transform model params_r gradient msgs

/-- The specialization of `Helper` for classes derived from `model_base_interface`,
flat overload. -/
def Helper_interface.log_prob_grad (propto jacobian_adjust_transform : Bool)
    (model : model_base_interface) (params_r : List ℚ) (params_i : List Int)
    (gradient : List ℚ) (msgs : ostream_ptr) : Eff (ℚ × List ℚ) :=
  log_prob_grad_interface_impl propto jacobian_adjust_transform model params_r params_i
    gradient msgs

/-- The specialization of `Helper` for classes derived from `model_base_interface`,
Eigen overload. -/
def Helper_interface.log_prob_grad_eigen (propto jacobian_adjust_transform : Bool)
    (model : model_base_interface) (params_r : List ℚ) (gradient : List ℚ)
    (msgs : ostream_ptr) : Eff (ℚ × List ℚ) :=
  log_prob_grad_interface_impl_eigen propto jacobian_adjust_transform model params_r
    gradient msgs

end internal

/-- Function `stan::model::log_prob_grad<propto, jacobian_adjust_transform, M>` on
`std::vector<double>`. -/
def log_prob_grad (propto jacobian_adjust_transform : Bool) (model : Model)
    (params_r : List ℚ) (params_i : List Int) (gradient : List ℚ) (msgs : ostream_ptr) :
    Eff (ℚ × List ℚ) :=
  match model with
  | Model.templated m =>
      internal.Helper.log_prob_grad propto jacobian_adjust_transform m params_r params_i
        gradient msgs
  | Model.derived_interface m =>
      internal.Helper_interface.log_prob_grad propto jacobian_adjust_transform m
        params_r params_i gradient msgs

/-- Function `stan::model::log_prob_grad<propto, jacobian_adjust_transform, M>` on
`Eigen::VectorXd`. -/
def log_prob_grad_eigen (propto jacobian_adjust_transform : Bool) (model : Model)
    (params_r : List ℚ) (gradient : List ℚ) (msgs : ostream_ptr) : Eff (ℚ × List ℚ) :=
  match model with
  | Model.templated m =>
      internal.Helper.log_prob_grad_eigen propto jacobian_adjust_transform m params_r
        gradient msgs
  | Model.derived_interface m =>
      internal.Helper_interface.log_prob_grad_eigen propto jacobian_adjust_transform m
        params_r gradient msgs

end model

/-! ## `log_prob_propto.hpp` -/

namespace model
namespace internal

/-- The loop of `log_prob_propto_impl`
`for (size_t i = 0; i < model.num_params_r(); ++i)
ad_params_r.push_back(params_r[i]);`; the first argument is the number of
iterations left.  The conversion of `params_r[i]` to `var` constructs a node. -/
def push_back_loop (params_r : List ℚ) : Nat → Nat → List var → Eff (List var)
  | 0, _, ad_params_r => pure ad_params_r
  | k + 1, i, ad_params_r => do
      let x ← subscript params_r i
      let v ← var.ctor x
      push_back_loop params_r k (i + 1) (ad_params_r ++ [v])

/-- Function `log_prob_propto_impl` on `std::vector<double>`. -/
def log_prob_propto_impl (jacobian_adjust_transform : Bool) (model : templated_model)
    (params_r : List ℚ) (params_i : List Int) (msgs : ostream_ptr) : Eff ℚ :=
  Eff.try_catch_std
    (do
      let ad_params_r ← push_back_loop params_r model.num_params_r 0 []
      let lp ← (← model.log_prob_var true jacobian_adjust_transform ad_params_r params_i
        msgs).val
      recover_memory
      pure lp)
    (fun ex => do
      recover_memory
      Eff.raise ex)

/-- Function `log_prob_propto_impl` on `Eigen::VectorXd`: the local `params_i` is
empty and the flat `var` overload of the density is called. -/
def log_prob_propto_impl_eigen (jacobian_adjust_transform : Bool)
    (model : templated_model) (params_r : List ℚ) (msgs : ostream_ptr) : Eff ℚ :=
  let params_i : List Int := []
  Eff.try_catch_std
    (do
      let ad_params_r ← push_back_loop params_r model.num_params_r 0 []
      let lp ← (← model.log_prob_var true jacobian_adjust_transform ad_params_r params_i
        msgs).val
      recover_memory
      pure lp)
    (fun ex => do
      recover_memory
      Eff.raise ex)

/-- The general template `LogProbHelper<jacobian_adjust_transform, M>` of
`log_prob_propto.hpp`, flat overload. -/
def LogProbHelper.log_prob_propto (jacobian_adjust_transform : Bool)
    (model : templated_model) (params_r : List ℚ) (params_i : List Int)
    (msgs : ostream_ptr) : Eff ℚ :=
  log_prob_propto_impl jacobian_adjust_transform model params_r params_i msgs

/-- The general template `LogProbHelper<jacobian_adjust_transform, M>` of
`log_prob_propto.hpp`, Eigen overload. -/
def LogProbHelper.log_prob_propto_eigen (jacobian_adjust_transform : Bool)
    (model : templated_model) (params_r : List ℚ) (msgs : ostream_ptr) : Eff ℚ :=
  log_prob_propto_impl_eigen jacobian_adjust_transform model params_r msgs

/-- The specialization of `LogProbHelper` (`log_prob_propto.hpp`) for classes
derived from `model_base_interface`, flat overload. -/
def LogProbHelper_interface.log_prob_propto (jacobian_adjust_transform : Bool)
    (model : model_base_interface) (params_r : List ℚ) (params_i : List Int)
    (msgs : ostream_ptr) : Eff ℚ :=
  if jacobian_adjust_transform then
    model.log_prob_propto_jacobian_i params_r params_i msgs
  else
    model.log_prob_propto_i params_r params_i msgs

/-- The specialization of `LogProbHelper` (`log_prob_propto.hpp`) for classes
derived from `model_base_interface`, Eigen overload. -/
def LogProbHelper_interface.log_prob_propto_eigen (jacobian_adjust_transform : Bool)
    (model : model_base_interface) (params_r : List ℚ) (msgs : ostream_ptr) : Eff ℚ :=
  if jacobian_adjust_transform then
    model.log_prob_propto_jacobian_eigen params_r msgs
  else
    model.log_prob_propto_eigen params_r msgs

end internal

/-- Function `stan::model::log_prob_propto<jacobian_adjust_transform, M>` on
`std::vector<double>`. -/
def log_prob_propto (jacobian_adjust_transform : Bool) (model : Model)
    (params_r : List ℚ) (params_i : List Int) (msgs : ostream_ptr) : Eff ℚ :=
  match model with
  | Model.templated m =>
      internal.LogProbHelper.log_prob_propto jacobian_adjust_transform m params_r
        params_i msgs
  | Model.derived_interface m =>
      internal.LogProbHelper_interface.log_prob_propto jacobian_adjust_transform m
        params_r params_i msgs

/-- Function `stan::model::log_prob_propto<jacobian_adjust_transform, M>` on
`Eigen::VectorXd`. -/
def log_prob_propto_eigen (jacobian_adjust_transform : Bool) (model : Model)
    (params_r : List ℚ) (msgs : ostream_ptr) : Eff ℚ :=
  match model with
  | Model.templated m =>
      internal.LogProbHelper.log_prob_propto_eigen jacobian_adjust_transform m params_r
        msgs
  | Model.derived_interface m =>
      internal.LogProbHelper_interface.log_prob_propto_eigen jacobian_adjust_transform m
        params_r msgs

/-! ## `model_functional.hpp` -/

/-- The struct `model_functional<M>`: a reference to the model and the stream. -/
structure model_functional (M : Type) where
  model : M
  o : ostream_ptr

/-- Constructor of the general template `model_functional<M>`:
`model_functional(const M& m, std::ostream* out) : model(m), o(out) {}`. -/
def model_functional.ctor (m : templated_model) (out : ostream_ptr) :
    Eff (model_functional templated_model) :=
  pure { model := m, o := out }

/-- Constructor of the specialization of `model_functional` for classes derived
from `model_base_interface`: after the member initialisers it builds the message
and throws `std::runtime_error`. -/
def model_functional.ctor_interface (m : model_base_interface) (_out : ostream_ptr) :
    Eff (model_functional model_base_interface) :=
  let error_msg : String :=
    "model_functional is not supported to work with '" ++ m.type_name ++ "'"
  Eff.raise (exception.runtime_error error_msg)

/-- Member `template <typename T> T operator()(const Eigen::Matrix<T, -1, 1>& x)` of
`model_functional<M>`: `return model.template log_prob<true, true, T>(x, o);`. -/
def model_functional.apply (self : model_functional templated_model) (T : scalar_type)
    (x : List T.carrier) : Eff T.carrier :=
  self.model.log_prob_eigen true true T x self.o

end model

/-! ## `gradient.hpp` -/

/-- Modelled from the spec: the message-capture stream, a local `std::stringstream`;
its constructor gives a new, empty stream at a fresh address. -/
def stringstream.ctor : Eff Nat :=
  fun w => Res.ret w.next_stream
    { w with streams := Function.update w.streams w.next_stream "",
             next_stream := w.next_stream + 1 }

/-- Modelled from the spec: `ss.str()` on the message-capture stream, the text the
stream at address `ss` holds. -/
def stringstream.str (ss : Nat) : Eff String :=
  fun w => Res.ret (w.streams ss) w

/-- Modelled from the spec: `logger.info(ss)` of `stan::callbacks::logger` (not under
`src/`), the info-level message of the leveled text sink: the call is recorded with
the text of the stream. -/
def logger.info (ss : Nat) : Eff Unit :=
  fun w => Res.ret () { w with logger_calls := w.logger_calls ++ [(log_level.info, w.streams ss)] }

/-- The declaration `Eigen::Matrix<var, -1, 1> x_var(x)`: one fresh independent
variable per entry, in order. -/
def var.ctor_all : List ℚ → Eff (List var)
  | [] => pure []
  | x :: xs => do
      let v ← var.ctor x
      let vs ← var.ctor_all xs
      pure (v :: vs)

/-- Modelled from the spec: the functional `stan::math::gradient(f, x, fx, grad_fx)` of
the AD backend: it builds the dual copy of `x`, applies `f`, reads the primal
value, fills `grad_fx` by one reverse sweep, and gives the arena back its pre-call
contents on every exit. -/
def math.gradient (f : List var → Eff var) (x : List ℚ) (grad_fx : List ℚ) :
    Eff (ℚ × List ℚ) :=
  fun w =>
    match (do
        let x_var ← var.ctor_all x
        let fx_var ← f x_var
        let fx ← fx_var.val
        let grad_fx ← fx_var.grad x_var grad_fx
        pure (fx, grad_fx) : Eff (ℚ × List ℚ)) w with
    | Res.ret a w1 => Res.ret a { w1 with arena := w.arena }
    | Res.thrown e w1 => Res.thrown e { w1 with arena := w.arena }
    | Res.undefined => Res.undefined

namespace model
namespace internal

/-- Function `gradient_impl` with a message stream:
`stan::math::gradient(model_functional<M>(model, msgs), x, f, grad_f);`.  The result
is the pair of `f` and `grad_f` after the call. -/
def gradient_impl (model : templated_model) (x : List ℚ) (grad_f : List ℚ)
    (msgs : ostream_ptr) : Eff (ℚ × List ℚ) := do
  let functional ← model_functional.ctor model msgs
  math.gradient (fun x_var => functional.apply scalar_type.var x_var) x grad_f

/-- Function `gradient_impl` with a logger. -/
def gradient_impl_logger (model : templated_model) (x : List ℚ) (grad_f : List ℚ) :
    Eff (ℚ × List ℚ) := do
  let ss ← stringstream.ctor
  let r ← Eff.try_catch_std
    (do
      let functional ← model_functional.ctor model (some ss)
      math.gradient (fun x_var => functional.apply scalar_type.var x_var) x grad_f)
    (fun e => do
      if (← stringstream.str ss).length > 0 then
        logger.info ss
      Eff.raise e)
  if (← stringstream.str ss).length > 0 then
    logger.info ss
  pure r

/-- The general template `GradientHelper<M>`, overload with a message stream. -/
def GradientHelper.gradient (model : templated_model) (x : List ℚ) (grad_f : List ℚ)
    (msgs : ostream_ptr) : Eff (ℚ × List ℚ) :=
  gradient_impl model x grad_f msgs

/-- The general template `GradientHelper<M>`, overload with a logger. -/
def GradientHelper.gradient_logger (model : templated_model) (x : List ℚ)
    (grad_f : List ℚ) : Eff (ℚ × List ℚ) :=
  gradient_impl_logger model x grad_f

/-- The specialization of `GradientHelper` for classes derived from
`model_base_interface`, overload with a message stream:
`f = stan::model::log_prob_grad<true, true>(model, x, grad_f, msgs);`. -/
def GradientHelper_interface.gradient (model : model_base_interface) (x : List ℚ)
    (grad_f : List ℚ) (msgs : ostream_ptr) : Eff (ℚ × List ℚ) :=
  stan.model.log_prob_grad_eigen true true (Model.derived_interface model) x grad_f msgs

/-- The specialization of `GradientHelper` for classes derived from
`model_base_interface`, overload with a logger. -/
def GradientHelper_interface.gradient_logger (model : model_base_interface)
    (x : List ℚ) (grad_f : List ℚ) : Eff (ℚ × List ℚ) := do
  let ss ← stringstream.ctor
  let r ← Eff.try_catch_std
    (stan.model.log_prob_grad_eigen true true (Model.derived_interface model) x grad_f
      (some ss))
    (fun e => do
      if (← stringstream.str ss).length > 0 then
        logger.info ss
      Eff.raise e)
  if (← stringstream.str ss).length > 0 then
    logger.info ss
  pure r

end internal

/-- Function `stan::model::gradient(model, x, f, grad_f, msgs)`. -/
def gradient (M : Model) (x : List ℚ) (grad_f : List ℚ) (msgs : ostream_ptr) :
    Eff (ℚ × List ℚ) :=
  match M with
  | Model.templated m => internal.GradientHelper.gradient m x grad_f msgs
  | Model.derived_interface m => internal.GradientHelper_interface.gradient m x grad_f msgs

/-- Function `stan::model::gradient(model, x, f, grad_f, logger)`. -/
def gradient_logger (M : Model) (x : List ℚ) (grad_f : List ℚ) : Eff (ℚ × List ℚ) :=
  match M with
  | Model.templated m => internal.GradientHelper.gradient_logger m x grad_f
  | Model.derived_interface m => internal.GradientHelper_interface.gradient_logger m x grad_f

end model

/-! ## The `math::var` overloads of `model_base_interface` -/

namespace model_base_interface

/-- The overload `math::var log_prob(std::vector<math::var>&, std::vector<int>&,
std::ostream*)`. -/
def log_prob_var (_model : model_base_interface) (_theta : List var)
    (_theta_i : List Int) (_msgs : ostream_ptr) : Eff var :=
  Eff.raise (exception.runtime_error
    "math::var log_prob(std::vector<math::var>& theta, std::vector<int>& theta_i, std::ostream* msgs) is not implemented!")

/-- The overload `math::var log_prob_jacobian(std::vector<math::var>&,
std::vector<int>&, std::ostream*)`. -/
def log_prob_jacobian_var (_model : model_base_interface) (_theta : List var)
    (_theta_i : List Int) (_msgs : ostream_ptr) : Eff var :=
  Eff.raise (exception.runtime_error
    "math::var log_prob_jacobian(std::vector<math::var>& theta, std::vector<int>& theta_i, std::ostream* msgs) is not implemented!")

/-- The overload `math::var log_prob_propto(std::vector<math::var>&,
std::vector<int>&, std::ostream*)`. -/
def log_prob_propto_var (_model : model_base_interface) (_theta : List var)
    (_theta_i : List Int) (_msgs : ostream_ptr) : Eff var :=
  Eff.raise (exception.runtime_error
    "math::var log_prob_propto(std::vector<math::var>& theta, std::vector<int>& theta_i, std::ostream* msgs) is not implemented!")

/-- The overload `math::var log_prob_propto_jacobian(std::vector<math::var>&,
std::vector<int>&, std::ostream*)`. -/
def log_prob_propto_jacobian_var (_model : model_base_interface) (_theta : List var)
    (_theta_i : List Int) (_msgs : ostream_ptr) : Eff var :=
  Eff.raise (exception.runtime_error
    "math::var log_prob_propto_jacobian(std::vector<math::var>& theta, std::vector<int>& theta_i, std::ostream* msgs) is not implemented!")

/-- The overload `math::var log_prob(Eigen::Matrix<math::var, -1, 1>&,
std::ostream*)`. -/
def log_prob_var_eigen (_model : model_base_interface) (_theta : List var)
    (_msgs : ostream_ptr) : Eff var :=
  Eff.raise (exception.runtime_error
    "math::var log_prob(Eigen::Matrix<math::var, -1, 1>& theta, std::ostream* msgs) is not implemented!")

/-- The overload `math::var log_prob_jacobian(Eigen::Matrix<math::var, -1, 1>&,
std::ostream*)`. -/
def log_prob_jacobian_var_eigen (_model : model_base_interface) (_theta : List var)
    (_msgs : ostream_ptr) : Eff var :=
  Eff.raise (exception.runtime_error
    "math::var log_prob_jacobian(Eigen::Matrix<math::var, -1, 1>& theta, std::ostream* msgs) is not implemented!")

/-- The overload `math::var log_prob_propto(Eigen::Matrix<math::var, -1, 1>&,
std::ostream*)`. -/
def log_prob_propto_var_eigen (_model : model_base_interface) (_theta : List var)
    (_msgs : ostream_ptr) : Eff var :=
  Eff.raise (exception.runtime_error
    "math::var log_prob_propto(Eigen::Matrix<math::var, -1, 1>& theta, std::ostream* msgs) is not implemented!")

/-- The overload `math::var log_prob_propto_jacobian(Eigen::Matrix<math::var, -1,
1>&, std::ostream*)`. -/
def log_prob_propto_jacobian_var_eigen (_model : model_base_interface)
    (_theta : List var) (_msgs : ostream_ptr) : Eff var :=
  Eff.raise (exception.runtime_error
    "math::var log_prob_propto_jacobian(Eigen::Matrix<math::var, -1, 1>& theta, std::ostream* msgs) is not implemented!")

end model_base_interface

/-! ## Test models -/

/-- The struct `mock_model` of `model_base_interface_test.cpp`: every density entry
point is overridden and returns a constant; `log_prob_grad` returns 0 and leaves
`gradient` as it is.  The mock gives the transform and the array-write operation
empty bodies (under the names `convert_to_unconstrained` and
`convert_to_constrained`): they leave their output argument as it is. -/
def mock_model (n : Nat) : model_base_interface :=
  { num_params_r := n
    type_name := "mock_model"
    impl_log_prob := fun _ _ => pure 1
    impl_log_prob_eigen := fun _ _ => pure 10
    impl_log_prob_grad := fun _ gradient _ _ _ => pure (0, gradient)
    impl_log_prob_grad_eigen := fun _ gradient _ _ _ => pure (0, gradient)
    override_log_prob_jacobian := some (fun _ _ => pure 2)
    override_log_prob_jacobian_eigen := some (fun _ _ => pure 20)
    override_log_prob_propto := some (fun _ _ => pure 3)
    override_log_prob_propto_eigen := some (fun _ _ => pure 30)
    override_log_prob_propto_jacobian := some (fun _ _ => pure 4)
    override_log_prob_propto_jacobian_eigen := some (fun _ _ => pure 40)
    impl_transform_inits := fun _ params_r _ => pure params_r
    impl_transform_inits_eigen := fun _ params_r _ => pure params_r
    impl_write_array := fun rng _ params_constrained_r _ _ _ => pure (rng, params_constrained_r)
    impl_write_array_eigen := fun rng _ params_constrained_r _ _ _ =>
      pure (rng, params_constrained_r) }

namespace rosenbrock_model

/-- Method `rosenbrock_model::log_prob(std::vector<double>&, std::ostream*)`. -/
def log_prob (params_r : List ℚ) (_msgs : ostream_ptr) : Eff ℚ := do
  let x := params_r
  let nn : Nat := 1
  let mut f : ℚ := 0
  let alpha : ℚ := 100
  for i in List.range nn do
    let t1 := (← subscript x (2 * i + 1)) - (← subscript x (2 * i)) * (← subscript x (2 * i))
    let t2 := 1 - (← subscript x (2 * i))
    f := f + (alpha * t1 * t1 + t2 * t2)
  return -f

/-- Method `rosenbrock_model::log_prob(Eigen::VectorXd&, std::ostream*)`. -/
def log_prob_eigen (params_r : List ℚ) (_msgs : ostream_ptr) : Eff ℚ := do
  let x := params_r
  let nn : Nat := 1
  let mut f : ℚ := 0
  let alpha : ℚ := 100
  for i in List.range nn do
    let t1 := (← subscript x (2 * i + 1)) - (← subscript x (2 * i)) * (← subscript x (2 * i))
    let t2 := 1 - (← subscript x (2 * i))
    f := f + (alpha * t1 * t1 + t2 * t2)
  return -f

/-- Method `rosenbrock_model::log_prob_grad` on `std::vector<double>`;
`gradient.clear(); gradient.resize(num_params_r());` leaves `num_params_r()`
zeros. -/
def log_prob_grad (num_params_r : Nat) (params_r _gradient : List ℚ)
    (_propto _jacobian_adjust_transform : Bool) (_msgs : ostream_ptr) :
    Eff (ℚ × List ℚ) := do
  let mut g : List ℚ := List.replicate num_params_r 0
  let x := params_r
  let nn : Nat := 1
  let mut f : ℚ := 0
  let alpha : ℚ := 100
  for i in List.range nn do
    let t1 := (← subscript x (2 * i + 1)) - (← subscript x (2 * i)) * (← subscript x (2 * i))
    let t2 := 1 - (← subscript x (2 * i))
    f := f + (alpha * t1 * t1 + t2 * t2)
    g ← assign g (2 * i) (-(-4 * alpha * t1 * (← subscript x (2 * i)) - 2 * t2))
    g ← assign g (2 * i + 1) (-(2 * alpha * t1))
  return (-f, g)

/-- The call `gradient.resize(n)` on an `Eigen::VectorXd`: nothing happens when the
size is already `n`; otherwise the storage is reallocated and holds unspecified
values, given by `uninit`. -/
def eigen_resize (gradient : List ℚ) (n : Nat) (uninit : Nat → ℚ) : List ℚ :=
  if gradient.length = n then gradient else (List.range n).map uninit

/-- Method `rosenbrock_model::log_prob_grad` on `Eigen::VectorXd`. -/
def log_prob_grad_eigen (num_params_r : Nat) (uninit : Nat → ℚ)
    (params_r gradient : List ℚ) (_propto _jacobian_adjust_transform : Bool)
    (_msgs : ostream_ptr) : Eff (ℚ × List ℚ) := do
  let mut g : List ℚ := eigen_resize gradient num_params_r uninit
  let x := params_r
  let nn : Nat := 1
  let mut f : ℚ := 0
  let alpha : ℚ := 100
  for i in List.range nn do
    let t1 := (← subscript x (2 * i + 1)) - (← subscript x (2 * i)) * (← subscript x (2 * i))
    let t2 := 1 - (← subscript x (2 * i))
    f := f + (alpha * t1 * t1 + t2 * t2)
    g ← assign g (2 * i) (-(-4 * alpha * t1 * (← subscript x (2 * i)) - 2 * t2))
    g ← assign g (2 * i + 1) (-(2 * alpha * t1))
  return (-f, g)

/-- The loop `for (int i = 0; i < num_params_r(); i++) dst[i] = src[i];` of
`transform_inits` and `write_array`; the first argument is the number of
iterations left. -/
def copy_loop (src : List ℚ) : Nat → Nat → List ℚ → Eff (List ℚ)
  | 0, _, dst => pure dst
  | k + 1, i, dst => do
      let x ← subscript src i
      let dst ← assign dst i x
      copy_loop src k (i + 1) dst

/-- Method `rosenbrock_model::transform_inits` on `std::vector<double>`. -/
def transform_inits (num_params_r : Nat) (context : var_context) (_params_r : List ℚ)
    (_msgs : ostream_ptr) : Eff (List ℚ) := do
  let params_r : List ℚ := List.replicate num_params_r 0
  let xy_vector := context "xy"
  copy_loop xy_vector num_params_r 0 params_r

/-- Method `rosenbrock_model::transform_inits` on `Eigen::VectorXd`. -/
def transform_inits_eigen (num_params_r : Nat) (context : var_context)
    (params_r : List ℚ) (_msgs : ostream_ptr) : Eff (List ℚ) := do
  let xy_vector := context "xy"
  copy_loop xy_vector num_params_r 0 params_r

/-- Method `rosenbrock_model::write_array` on `std::vector<double>`. -/
def write_array (num_params_r : Nat) (base_rng : ecuyer1988) (params_r : List ℚ)
    (_params_constrained_r : List ℚ) (_include_tparams _include_gqs : Bool)
    (_msgs : ostream_ptr) : Eff (ecuyer1988 × List ℚ) := do
  let params_constrained_r : List ℚ := List.replicate num_params_r 0
  let params_constrained_r ← copy_loop params_r num_params_r 0 params_constrained_r
  pure (base_rng, params_constrained_r)

/-- Method `rosenbrock_model::write_array` on `Eigen::VectorXd`:
`params_constrained_r = params_r;`. -/
def write_array_eigen (base_rng : ecuyer1988) (params_r : List ℚ)
    (_params_constrained_r : List ℚ) (_include_tparams _include_gqs : Bool)
    (_msgs : ostream_ptr) : Eff (ecuyer1988 × List ℚ) :=
  pure (base_rng, params_r)

end rosenbrock_model

/-- The class `rosenbrock_model` of `test_model_interface_rosenbrock.hpp`,
constructed with `n` parameters: it overrides the pure virtual entry points only.
`uninit` gives the contents of freshly allocated Eigen storage. -/
def rosenbrock_model.mk (n : Nat) (uninit : Nat → ℚ) : model_base_interface :=
  { num_params_r := n
    type_name := "rosenbrock_model"
    impl_log_prob := rosenbrock_model.log_prob
    impl_log_prob_eigen := rosenbrock_model.log_prob_eigen
    impl_log_prob_grad := rosenbrock_model.log_prob_grad n
    impl_log_prob_grad_eigen := rosenbrock_model.log_prob_grad_eigen n uninit
    override_log_prob_jacobian := none
    override_log_prob_jacobian_eigen := none
    override_log_prob_propto := none
    override_log_prob_propto_eigen := none
    override_log_prob_propto_jacobian := none
    override_log_prob_propto_jacobian_eigen := none
    impl_transform_inits := rosenbrock_model.transform_inits n
    impl_transform_inits_eigen := rosenbrock_model.transform_inits_eigen n
    impl_write_array := rosenbrock_model.write_array n
    impl_write_array_eigen := rosenbrock_model.write_array_eigen }

/-- The value a call returns, if it returns. -/
def Res.returned {α : Type} : Res α → Option α
  | Res.ret a _ => some a
  | Res.thrown _ _ => none
  | Res.undefined => none

/-- The object a call throws, if it throws. -/
def Res.raised {α : Type} : Res α → Option exception
  | Res.ret _ _ => none
  | Res.thrown e _ => some e
  | Res.undefined => none

/-- The world a call leaves, when its behaviour is defined. -/
def Res.world {α : Type} : Res α → Option World
  | Res.ret _ w => some w
  | Res.thrown _ w => some w
  | Res.undefined => none

/-- The message of the `math::var` overloads of `model_base_interface`, split into
the name of the method and its parameter list. -/
def not_implemented_message (method args : String) : String :=
  "math::var " ++ method ++ "(" ++ args ++ ") is not implemented!"

/-- Parameter list of the flat `math::var` overloads, as written in their message. -/
def flat_var_args : String :=
  "std::vector<math::var>& theta, std::vector<int>& theta_i, std::ostream* msgs"

/-- Parameter list of the Eigen `math::var` overloads, as written in their message. -/
def eigen_var_args : String :=
  "Eigen::Matrix<math::var, -1, 1>& theta, std::ostream* msgs"

/-- The entry point of a Virtual-Interface model that corresponds to a mode, flat
representation with `params_i`. -/
def model_base_interface.entry_point (m : model_base_interface)
    (propto jacobian : Bool) : List ℚ → List Int → ostream_ptr → Eff ℚ :=
  match propto, jacobian with
  | false, false => m.log_prob_i
  | false, true => m.log_prob_jacobian_i
  | true, false => m.log_prob_propto_i
  | true, true => m.log_prob_propto_jacobian_i

/-! ## Description of one gradient evaluation on a Templated-Density model -/

/-- The handle of a fresh independent variable with value `x`. -/
def leaf_var (x : ℚ) : var :=
  var.mk (some (vari.leaf x))

/-- The world of a gradient evaluation after the dual copy of `params_r` was built
and the density `run` was evaluated, before the recovery. -/
def world_after_density (w : World) (params_r : List ℚ) (run : density_run vari)
    (msgs : ostream_ptr) : World :=
  { ({ w with arena := w.arena ++ params_r.map vari.leaf } : World).write msgs run.text with
    arena := (w.arena ++ params_r.map vari.leaf) ++ run.nodes }

/-- The world after one invocation of the recovery operation. -/
def recovered (w : World) : World :=
  { w with arena := [], recover_calls := w.recover_calls + 1 }

/-- The outcome of a gradient evaluation whose density evaluation was `run`, on
`len` parameters, from the world `w2` reached after the density. -/
def grad_outcome (run : density_run vari) (len : Nat) (w2 : World) : Res (ℚ × List ℚ) :=
  match run.result with
  | Except.error e => if e.is_std_exception then Res.thrown e (recovered w2) else Res.thrown e w2
  | Except.ok n =>
    match n.sweep with
    | Except.error e =>
        if e.is_std_exception then Res.thrown e (recovered w2) else Res.thrown e w2
    | Except.ok adj =>
        Res.ret (n.val, (List.range len).map (fun i => adj.getD i 0)) (recovered w2)

/-- The world after `n` sequential calls, call number `k` being `call k`; a call
that throws is followed by the next one (the caller handles the error). -/
def after_calls {α : Type} (call : Nat → Eff α) : Nat → World → Option World
  | 0, w => some w
  | k + 1, w =>
    match after_calls call k w with
    | none => none
    | some w1 => (call k w1).world

/-- A Templated-Density model with one parameter `x`, used as a concrete instance:
its density is `-x² / 2`, it pushes one node, its adjoint is `-x`, and it throws
`e` when `x` is negative.  The flat and the Eigen instantiation agree. -/
def threshold_model (e : exception) : templated_model :=
  let at_double : List ℚ → density_run ℚ := fun theta =>
    match theta with
    | [x] =>
      if x < 0 then { nodes := [], text := "", result := Except.error e }
      else { nodes := [], text := "", result := Except.ok (-(x * x) / 2) }
    | _ => { nodes := [], text := "", result := Except.error e }
  let at_var : List var → density_run vari := fun theta =>
    match theta with
    | [v] =>
      match v.vi with
      | some n =>
        if n.val < 0 then { nodes := [], text := "", result := Except.error e }
        else
          let lp : vari := { val := -(n.val * n.val) / 2, sweep := Except.ok [-n.val] }
          { nodes := [lp], text := "", result := Except.ok lp }
      | none => { nodes := [], text := "", result := Except.error e }
    | _ => { nodes := [], text := "", result := Except.error e }
  { num_params_r := 1
    density_double := fun _ _ theta _ _ => at_double theta
    density_var := fun _ _ theta _ _ => at_var theta
    density_double_eigen := fun _ _ theta _ => at_double theta
    density_var_eigen := fun _ _ theta _ => at_var theta }

/-- Either overload of `stan::model::log_prob_grad<propto, jacobian>`: the one on
`Eigen::VectorXd` (which takes no `params_i`) when `dense`, the one on
`std::vector<double>` otherwise. -/
def model.log_prob_grad_overload (dense propto jacobian_adjust_transform : Bool)
    (M : Model) (params_r : List ℚ) (params_i : List Int) (gradient : List ℚ)
    (msgs : ostream_ptr) : Eff (ℚ × List ℚ) :=
  if dense then model.log_prob_grad_eigen propto jacobian_adjust_transform M params_r
    gradient msgs
  else model.log_prob_grad propto jacobian_adjust_transform M params_r params_i gradient
    msgs

/-- The density evaluation at `var` the overload selected by `dense` performs on
the dual copy of `params_r`. -/
def templated_model.run_var (m : templated_model) (dense propto jacobian : Bool)
    (params_r : List ℚ) (params_i : List Int) (msgs : ostream_ptr) : density_run vari :=
  if dense then m.density_var_eigen propto jacobian (params_r.map leaf_var) msgs.isSome
  else m.density_var propto jacobian (params_r.map leaf_var) params_i msgs.isSome

/-- The outcome of a log-density evaluation whose density evaluation was `run`,
from the world `w2` reached after the density. -/
def propto_outcome (run : density_run vari) (w2 : World) : Res ℚ :=
  match run.result with
  | Except.error e => if e.is_std_exception then Res.thrown e (recovered w2) else Res.thrown e w2
  | Except.ok n => Res.ret n.val (recovered w2)


/-! ## Notions used by the statements on errors, messages and the sink -/

/-- The value a handle points to, if it is not null. -/
def var.value (v : var) : Option ℚ :=
  v.vi.map vari.val

/-- The Eigen entry point of a Virtual-Interface model that corresponds to a mode. -/
def model_base_interface.entry_point_eigen (m : model_base_interface)
    (propto jacobian : Bool) : List ℚ → ostream_ptr → Eff ℚ :=
  match propto, jacobian with
  | false, false => m.log_prob_eigen
  | false, true => m.log_prob_jacobian_eigen
  | true, false => m.log_prob_propto_eigen
  | true, true => m.log_prob_propto_jacobian_eigen

/-- The error policy between the outcome `entry` of the model's entry point and the
outcome `call` of an evaluator: a thrown object is thrown on unchanged and a
returned entry point makes the evaluator return; in both cases the evaluator
leaves the world the one call of the entry point left, possibly recovered. -/
def propagates {α β : Type} (entry : Res α) (call : Res β) : Prop :=
  (∀ e w1, entry = Res.thrown e w1 →
      call = Res.thrown e w1 ∨ call = Res.thrown e (recovered w1))
  ∧ (∀ a w1, entry = Res.ret a w1 →
      ∃ b, call = Res.ret b w1 ∨ call = Res.ret b (recovered w1))

/-- The error policy of the gradient evaluator on a Templated-Density model: as
`propagates`, where the evaluator returns when the entry point returns a value
whose reverse sweep does not raise. -/
def propagates_grad (entry : Res var) (call : Res (ℚ × List ℚ)) : Prop :=
  (∀ e w1, entry = Res.thrown e w1 →
      call = Res.thrown e w1 ∨ call = Res.thrown e (recovered w1))
  ∧ (∀ v w1 n adj, entry = Res.ret v w1 → v.vi = some n → n.sweep = Except.ok adj →
      ∃ b, call = Res.ret b (recovered w1))

/-- The world after the construction of a local `std::stringstream`. -/
def World.with_new_stream (w : World) : World :=
  { w with streams := Function.update w.streams w.next_stream "",
           next_stream := w.next_stream + 1 }

/-- The world after the statement `if (ss.str().length() > 0) logger.info(ss);`. -/
def World.flushed (w : World) (ss : Nat) : World :=
  if (w.streams ss).length > 0 then
    { w with logger_calls := w.logger_calls ++ [(log_level.info, w.streams ss)] }
  else w

/-- What a call yields apart from the world it leaves: the returned value or the
thrown object; nothing when the behaviour is undefined. -/
def Res.numeric {α : Type} : Res α → Option (Except exception α)
  | Res.ret a _ => some (Except.ok a)
  | Res.thrown e _ => some (Except.error e)
  | Res.undefined => none

/-- What a gradient evaluation yields on a density evaluation `run` over `len`
parameters: its value and gradient, or the object thrown by the density or by the
sweep. -/
def density_run.numeric (run : density_run vari) (len : Nat) :
    Option (Except exception (ℚ × List ℚ)) :=
  match run.result with
  | Except.error e => some (Except.error e)
  | Except.ok n =>
    match n.sweep with
    | Except.error e => some (Except.error e)
    | Except.ok adj => some (Except.ok (n.val, (List.range len).map (fun i => adj.getD i 0)))

/-- A model whose value, gradient and errors at `x` do not depend on the message
stream it is handed: for a Virtual-Interface model, the combined entry point in
mode `(true, true)` yields the same from every stream pointer and world; for a
Templated-Density model, the density at `var` yields the same whether or not
`msgs` is null. -/
def Model.msgs_insensitive (M : Model) (x grad_f : List ℚ) : Prop :=
  match M with
  | Model.derived_interface m =>
      ∀ (msgs msgs2 : ostream_ptr) (w w2 : World),
        (m.log_prob_grad_eigen x grad_f true true msgs w).numeric
          = (m.log_prob_grad_eigen x grad_f true true msgs2 w2).numeric
  | Model.templated m =>
      ∀ (b b2 : Bool),
        (m.density_var_eigen true true (x.map leaf_var) b).result
          = (m.density_var_eigen true true (x.map leaf_var) b2).result

/-- A Virtual-Interface model used as a concrete instance: every entry point writes
`text` to `msgs` (when not null) and then returns 0, or throws `e` when `outcome` is
`some e`; gradients and transformed vectors are left as they are. -/
def talking_model (text : String) (outcome : Option exception) : model_base_interface :=
  let speak : {α : Type} → α → ostream_ptr → Eff α := fun a msgs w =>
    match outcome with
    | some e => Res.thrown e (w.write msgs text)
    | none => Res.ret a (w.write msgs text)
  { num_params_r := 1
    type_name := "talking_model"
    impl_log_prob := fun _ msgs => speak 0 msgs
    impl_log_prob_eigen := fun _ msgs => speak 0 msgs
    impl_log_prob_grad := fun _ gradient _ _ msgs => speak (0, gradient) msgs
    impl_log_prob_grad_eigen := fun _ gradient _ _ msgs => speak (0, gradient) msgs
    override_log_prob_jacobian := none
    override_log_prob_jacobian_eigen := none
    override_log_prob_propto := none
    override_log_prob_propto_eigen := none
    override_log_prob_propto_jacobian := none
    override_log_prob_propto_jacobian_eigen := none
    impl_transform_inits := fun _ params_r msgs => speak params_r msgs
    impl_transform_inits_eigen := fun _ params_r msgs => speak params_r msgs
    impl_write_array := fun rng _ c _ _ msgs => speak (rng, c) msgs
    impl_write_array_eigen := fun rng _ c _ _ msgs => speak (rng, c) msgs }

/-- A Virtual-Interface model used as a concrete instance: its entry points return 1
when they are handed a message stream and 0 when `msgs` is null. -/
def msgs_sensitive_model : model_base_interface :=
  let value : ostream_ptr → ℚ := fun msgs => if msgs.isSome then 1 else 0
  { num_params_r := 1
    type_name := "msgs_sensitive_model"
    impl_log_prob := fun _ msgs => pure (value msgs)
    impl_log_prob_eigen := fun _ msgs => pure (value msgs)
    impl_log_prob_grad := fun _ gradient _ _ msgs => pure (value msgs, gradient)
    impl_log_prob_grad_eigen := fun _ gradient _ _ msgs => pure (value msgs, gradient)
    override_log_prob_jacobian := none
    override_log_prob_jacobian_eigen := none
    override_log_prob_propto := none
    override_log_prob_propto_eigen := none
    override_log_prob_propto_jacobian := none
    override_log_prob_propto_jacobian_eigen := none
    impl_transform_inits := fun _ params_r _ => pure params_r
    impl_transform_inits_eigen := fun _ params_r _ => pure params_r
    impl_write_array := fun rng _ c _ _ _ => pure (rng, c)
    impl_write_array_eigen := fun rng _ c _ _ _ => pure (rng, c) }

/-! ## The selection of a helper template by the model type -/

/-- A concrete model type `M`, as far as the selection of a helper template looks at
it: the value of the trait `std::is_base_of<stan::model::model_base_interface, M>`. -/
structure model_type where
  is_base_of_model_base_interface : Bool

/-- The two implementations behind every dispatcher. -/
inductive strategy where
  | templated_density
  | virtual_interface
deriving DecidableEq, Repr

/-- Modelled from the spec: the alias template `enable_if_derived_interface_t<M>`,
which the helper templates of `log_prob.hpp`, `log_prob_propto.hpp`, `gradient.hpp`
and `model_functional.hpp` name and whose declaration is not part of the sources at
hand; it is well formed exactly for the model types that derive from
`model_base_interface` ("specialization for derived classes of
`stan::model::model_base_interface`"). -/
def enable_if_derived_interface_t (M : model_type) : Bool :=
  M.is_base_of_model_base_interface

/-- Template selection between `template <..., typename Enable = void> struct H` and
its specialization `struct H<..., E>`: the specialization is taken when its last
argument `E` is well formed, the general template otherwise. -/
def strategy.select (enabled : Bool) : strategy :=
  if enabled then strategy.virtual_interface else strategy.templated_density

/-- The model type of a model value. -/
def Model.model_type : Model → model_type
  | Model.templated _ => { is_base_of_model_base_interface := false }
  | Model.derived_interface _ => { is_base_of_model_base_interface := true }

namespace model
namespace internal

/-- Which `LogProbHelper<propto, jacobian_adjust_transform, M>` of `log_prob.hpp` is
instantiated: the specialization is
`LogProbHelper<propto, jacobian_adjust_transform, M, enable_if_derived_interface_t<M>>`. -/
def LogProbHelper.selected (M : model_type) : strategy :=
  strategy.select (enable_if_derived_interface_t M)

/-- Which `LogProbHelper<jacobian_adjust_transform, M>` of `log_prob_propto.hpp` is
instantiated: the specialization is
`LogProbHelper<jacobian_adjust_transform, M, enable_if_derived_interface_t<M>>`. -/
def LogProbHelper.selected_propto (M : model_type) : strategy :=
  strategy.select (enable_if_derived_interface_t M)

/-- Which `Helper<propto, jacobian_adjust_transform, M>` of `log_prob_grad.hpp` is
instantiated: the specialization is `Helper<propto, jacobian_adjust_transform, M,
typename std::enable_if<std::is_base_of<stan::model::model_base_interface,
M>::value>::type>`. -/
def Helper.selected (M : model_type) : strategy :=
  strategy.select M.is_base_of_model_base_interface

/-- Which `GradientHelper<M>` of `gradient.hpp` is instantiated: the specialization
is `GradientHelper<M, enable_if_derived_interface_t<M>>`. -/
def GradientHelper.selected (M : model_type) : strategy :=
  strategy.select (enable_if_derived_interface_t M)

end internal

/-- Which `model_functional<M>` is instantiated: the specialization is
`model_functional<M, enable_if_derived_interface_t<M>>`. -/
def model_functional.selected (M : model_type) : strategy :=
  strategy.select (enable_if_derived_interface_t M)

end model

/-! ## Further concrete instances -/

/-- A Templated-Density model with one parameter, used as a concrete instance: its
density reads the first entry `x` of the vector it is handed and nothing else; the
value is `-x² / 2`, one node is pushed, the adjoint of the first entry is `-x`.  On
an empty vector, or through a null first handle, it throws
`std::domain_error`. -/
def first_entry_model : templated_model :=
  let e : exception := exception.domain_error "first_entry_model"
  let at_double : List ℚ → density_run ℚ := fun theta =>
    match theta with
    | x :: _ => { nodes := [], text := "", result := Except.ok (-(x * x) / 2) }
    | [] => { nodes := [], text := "", result := Except.error e }
  let at_var : List var → density_run vari := fun theta =>
    match theta with
    | v :: _ =>
      match v.vi with
      | some n =>
        let lp : vari := { val := -(n.val * n.val) / 2, sweep := Except.ok [-n.val] }
        { nodes := [lp], text := "", result := Except.ok lp }
      | none => { nodes := [], text := "", result := Except.error e }
    | [] => { nodes := [], text := "", result := Except.error e }
  { num_params_r := 1
    density_double := fun _ _ theta _ _ => at_double theta
    density_var := fun _ _ theta _ _ => at_var theta
    density_double_eigen := fun _ _ theta _ => at_double theta
    density_var_eigen := fun _ _ theta _ => at_var theta }

/-- A Virtual-Interface model used as a concrete instance: `log_prob` returns 1, it
overrides `log_prob_jacobian` (returns 2) and `log_prob_propto` (returns 3) on both
representations and does not override `log_prob_propto_jacobian`. -/
def two_override_model : model_base_interface :=
  { num_params_r := 1
    type_name := "two_override_model"
    impl_log_prob := fun _ _ => pure 1
    impl_log_prob_eigen := fun _ _ => pure 1
    impl_log_prob_grad := fun _ gradient _ _ _ => pure (1, gradient)
    impl_log_prob_grad_eigen := fun _ gradient _ _ _ => pure (1, gradient)
    override_log_prob_jacobian := some (fun _ _ => pure 2)
    override_log_prob_jacobian_eigen := some (fun _ _ => pure 2)
    override_log_prob_propto := some (fun _ _ => pure 3)
    override_log_prob_propto_eigen := some (fun _ _ => pure 3)
    override_log_prob_propto_jacobian := none
    override_log_prob_propto_jacobian_eigen := none
    impl_transform_inits := fun _ params_r _ => pure params_r
    impl_transform_inits_eigen := fun _ params_r _ => pure params_r
    impl_write_array := fun rng _ c _ _ _ => pure (rng, c)
    impl_write_array_eigen := fun rng _ c _ _ _ => pure (rng, c) }

/-- The size of the arena a call leaves, when its behaviour is defined. -/
def Res.arena_size {α : Type} (r : Res α) : Option Nat :=
  r.world.map (fun w => w.arena.length)

/-- Either overload of `stan::model::log_prob_propto<jacobian>`: the one on
`Eigen::VectorXd` (which takes no `params_i`) when `dense`, the one on
`std::vector<double>` otherwise. -/
def model.log_prob_propto_overload (dense jacobian_adjust_transform : Bool) (M : Model)
    (params_r : List ℚ) (params_i : List Int) (msgs : ostream_ptr) : Eff ℚ :=
  if dense then model.log_prob_propto_eigen jacobian_adjust_transform M params_r msgs
  else model.log_prob_propto jacobian_adjust_transform M params_r params_i msgs

/-! ## The binding class `py_model_base` (`python/stan/wrappers/model.cpp`) -/

namespace stan_wrappers

/-- A host-language value (`py::object`): an argument of a trampoline after its
conversion, or the value an override returns.  The development only compares
them. -/
structure py_object where
  repr : String
deriving DecidableEq, Repr

/-- An instance of a host-language class derived from the bound class `model_base`:
the methods the host class defines, by name; a method maps the list of its arguments
to the value it returns. -/
abbrev py_instance := String → Option (List py_object → py_object)

/-- The macro `PYBIND11_OVERRIDE_PURE(ret, parent, name, args...)` of pybind11 as the
trampolines use it: the override called `name` is looked up on the host object and
called with `args`, the value it returns is returned; when the host class defines no
such method the macro throws (`none`). -/
def PYBIND11_OVERRIDE_PURE (self : py_instance) (name : String) (args : List py_object) :
    Option py_object :=
  match self name with
  | some f => some (f args)
  | none => none

namespace py_model_base

/-- Trampoline `std::string model_name() override`. -/
def model_name (self : py_instance) : Option py_object :=
  PYBIND11_OVERRIDE_PURE self "model_name" []

/-- Trampoline `std::vector<std::string> model_compile_info() override`. -/
def model_compile_info (self : py_instance) : Option py_object :=
  PYBIND11_OVERRIDE_PURE self "model_compile_info" []

/-- Trampoline `void get_param_names(std::vector<std::string>& names) override`; the
name handed to the macro is `model_compile_info`. -/
def get_param_names (self : py_instance) (names : py_object) : Option py_object :=
  PYBIND11_OVERRIDE_PURE self "model_compile_info" [names]

/-- Trampoline `void get_dims(std::vector<std::vector<size_t> >& dimss) override`. -/
def get_dims (self : py_instance) (dimss : py_object) : Option py_object :=
  PYBIND11_OVERRIDE_PURE self "get_dims" [dimss]

/-- Trampoline `void constrained_param_names(param_names, include_tparams,
include_gqs) override`. -/
def constrained_param_names (self : py_instance)
    (param_names include_tparams include_gqs : py_object) : Option py_object :=
  PYBIND11_OVERRIDE_PURE self "constrained_param_names"
    [param_names, include_tparams, include_gqs]

/-- Trampoline `void unconstrained_param_names(param_names, include_tparams,
include_gqs) override`. -/
def unconstrained_param_names (self : py_instance)
    (param_names include_tparams include_gqs : py_object) : Option py_object :=
  PYBIND11_OVERRIDE_PURE self "unconstrained_param_names"
    [param_names, include_tparams, include_gqs]

/-- Trampoline `double log_prob(Eigen::VectorXd& params_r, std::ostream* msgs)
override`. -/
def log_prob (self : py_instance) (params_r msgs : py_object) : Option py_object :=
  PYBIND11_OVERRIDE_PURE self "log_prob" [params_r, msgs]

/-- Trampoline `double log_prob_jacobian(Eigen::VectorXd& params_r, std::ostream*
msgs) override`. -/
def log_prob_jacobian (self : py_instance) (params_r msgs : py_object) :
    Option py_object :=
  PYBIND11_OVERRIDE_PURE self "log_prob_jacobian" [params_r, msgs]

/-- Trampoline `double log_prob_propto(Eigen::VectorXd& params_r, std::ostream* msgs)
override`. -/
def log_prob_propto (self : py_instance) (params_r msgs : py_object) :
    Option py_object :=
  PYBIND11_OVERRIDE_PURE self "log_prob_propto" [params_r, msgs]

/-- Trampoline `double log_prob_propto_jacobian(Eigen::VectorXd& params_r,
std::ostream* msgs) override`. -/
def log_prob_propto_jacobian (self : py_instance) (params_r msgs : py_object) :
    Option py_object :=
  PYBIND11_OVERRIDE_PURE self "log_prob_propto_jacobian" [params_r, msgs]

/-- Trampoline `void transform_inits(const stan::io::var_context& context,
Eigen::VectorXd& params_r, std::ostream* msgs) override`. -/
def transform_inits (self : py_instance) (context params_r msgs : py_object) :
    Option py_object :=
  PYBIND11_OVERRIDE_PURE self "transform_inits" [context, params_r, msgs]

/-- Trampoline `void write_array(base_rng, params_r, params_constrained_r,
include_tparams, include_gqs, msgs) override`. -/
def write_array (self : py_instance)
    (base_rng params_r params_constrained_r include_tparams include_gqs msgs : py_object) :
    Option py_object :=
  PYBIND11_OVERRIDE_PURE self "write_array"
    [base_rng, params_r, params_constrained_r, include_tparams, include_gqs, msgs]

end py_model_base

/-- A host-language class used as a concrete instance: it defines `get_param_names`,
which returns the list of names it is handed, and `model_compile_info`, which returns
the text `compile info`. -/
def two_method_instance : py_instance := fun name =>
  if name = "get_param_names" then some (fun args => args.headD { repr := "" })
  else if name = "model_compile_info" then some (fun _ => { repr := "compile info" })
  else none

end stan_wrappers

/-! ## Theorems -/

/-! ### The call monad -/

/-- In the call monad `pure` is the normal return. -/
theorem Eff.pure_eq {α : Type} (a : α) : (pure a : Eff α) = Eff.ret a := rfl

/-- In the call monad `>>=` is sequencing. -/
theorem Eff.bind_eq {α β : Type} (x : Eff α) (f : α → Eff β) : x >>= f = Eff.seq x f := rfl

/-! ### The dispatchers on a Virtual-Interface model -/

/-- C1: on a model derived from `model_base_interface`, `log_prob<propto, jacobian>`
is exactly the call of the entry point selected by the two flags, on the same
`params_r`, `params_i` and `msgs`. -/
theorem log_prob_interface_selects_entry_point (propto jacobian : Bool)
    (m : model_base_interface) (params_r : List ℚ) (params_i : List Int)
    (msgs : ostream_ptr) :
    model.log_prob propto jacobian (Model.derived_interface m) params_r params_i msgs =
      (match propto, jacobian with
       | false, false => m.log_prob_i params_r params_i msgs
       | false, true => m.log_prob_jacobian_i params_r params_i msgs
       | true, false => m.log_prob_propto_i params_r params_i msgs
       | true, true => m.log_prob_propto_jacobian_i params_r params_i msgs) := by
  cases propto <;> cases jacobian <;> rfl



/-- C2: on a model derived from `model_base_interface`, both overloads of
`log_prob_grad<propto, jacobian>` are exactly the call
`model.log_prob_grad(params_r, gradient, propto, jacobian, msgs)` of the same
representation: same value, same contents of `gradient`, same effects; the flags
are passed in order and `params_i` does not occur in the result. -/
theorem log_prob_grad_interface_forwards (propto jacobian : Bool)
    (m : model_base_interface) (params_r : List ℚ) (params_i : List Int)
    (gradient : List ℚ) (msgs : ostream_ptr) :
    model.log_prob_grad propto jacobian (Model.derived_interface m) params_r params_i
        gradient msgs
      = m.log_prob_grad params_r gradient propto jacobian msgs
    ∧ model.log_prob_grad_eigen propto jacobian (Model.derived_interface m) params_r
        gradient msgs
      = m.log_prob_grad_eigen params_r gradient propto jacobian msgs := by
  exact ⟨rfl, rfl⟩

/-- C3 (as stated, refuted): on `mock_model`, in mode `(false, false)`,
`log_prob_grad` returns the value 0 while the entry point `log_prob` of the same
mode returns 1. -/
theorem log_prob_grad_mock_differs_from_entry_point :
    ((model.log_prob_grad false false (Model.derived_interface (mock_model 17)) [0, 0] []
        [0, 0] none World.empty).returned.map Prod.fst = some 0)
    ∧ (((mock_model 17).entry_point false false [0, 0] [] none World.empty).returned
        = some 1)
    ∧ (model.log_prob_grad false false (Model.derived_interface (mock_model 17)) [0, 0] []
        [0, 0] none World.empty).returned.map Prod.fst
      ≠ ((mock_model 17).entry_point false false [0, 0] [] none World.empty).returned := by
  refine ⟨rfl, rfl, ?_⟩
  intro h
  have h0 : (some (0 : ℚ)) = some 1 := h
  simp at h0

/-- C3 (amended): when the combined entry point `log_prob_grad` of the model returns,
at `p` and the given mode, the value its density entry point of that mode returns,
then `log_prob_grad<propto, jacobian>` returns the value of that density entry
point. -/
theorem log_prob_grad_value_eq_entry_point (propto jacobian : Bool)
    (m : model_base_interface) (p : List ℚ) (params_i : List Int) (gradient : List ℚ)
    (msgs : ostream_ptr) (w : World)
    (h : (m.log_prob_grad p gradient propto jacobian msgs w).returned.map Prod.fst
      = (m.entry_point propto jacobian p params_i msgs w).returned) :
    (model.log_prob_grad propto jacobian (Model.derived_interface m) p params_i gradient
        msgs w).returned.map Prod.fst
      = (m.entry_point propto jacobian p params_i msgs w).returned := by
  rw [← h]
  rfl


/-! ### `rosenbrock_model` in closed form -/

/-- Reading `v[0]` of a non-empty vector. -/
theorem subscript_zero (x : ℚ) (l : List ℚ) : subscript (x :: l) 0 = Eff.ret x := rfl

/-- Reading `v[1]` of a vector with two entries or more. -/
theorem subscript_one (x y : ℚ) (l : List ℚ) : subscript (x :: y :: l) 1 = Eff.ret y := rfl

/-- A normal return followed by a continuation. -/
theorem Eff.seq_ret {α β : Type} (a : α) (f : α → Eff β) : Eff.seq (Eff.ret a) f = f a := rfl

/-- Writing `v[0]` of a non-empty vector. -/
theorem assign_zero {α : Type} (a x : α) (l : List α) : assign (a :: l) 0 x = Eff.ret (x :: l) := by
  simp [assign, Eff.pure_eq]

/-- Writing `v[1]` of a vector with two entries or more. -/
theorem assign_one {α : Type} (a b x : α) (l : List α) :
    assign (a :: b :: l) 1 x = Eff.ret (a :: x :: l) := by
  simp [assign, Eff.pure_eq]

/-- Closed form of `rosenbrock_model::log_prob` on a flat vector starting with `x, y`. -/
theorem rosenbrock_log_prob_closed (x y : ℚ) (l : List ℚ) (msgs : ostream_ptr) :
    rosenbrock_model.log_prob (x :: y :: l) msgs
      = Eff.ret (-(100 * (y - x * x) * (y - x * x) + (1 - x) * (1 - x))) := by
  simp [rosenbrock_model.log_prob, List.range_succ, Eff.pure_eq, Eff.bind_eq, subscript_zero,
    subscript_one, Eff.seq_ret]

/-- Closed form of `rosenbrock_model::log_prob` on an Eigen vector starting with `x, y`. -/
theorem rosenbrock_log_prob_eigen_closed (x y : ℚ) (l : List ℚ) (msgs : ostream_ptr) :
    rosenbrock_model.log_prob_eigen (x :: y :: l) msgs
      = Eff.ret (-(100 * (y - x * x) * (y - x * x) + (1 - x) * (1 - x))) := by
  simp [rosenbrock_model.log_prob_eigen, List.range_succ, Eff.pure_eq, Eff.bind_eq,
    subscript_zero, subscript_one, Eff.seq_ret]

/-- Closed form of the flat `rosenbrock_model::log_prob_grad` with 2 parameters. -/
theorem rosenbrock_log_prob_grad_closed (x y : ℚ) (l g : List ℚ) (p j : Bool)
    (msgs : ostream_ptr) :
    rosenbrock_model.log_prob_grad 2 (x :: y :: l) g p j msgs
      = Eff.ret (-(100 * (y - x * x) * (y - x * x) + (1 - x) * (1 - x)),
          [-(-4 * 100 * (y - x * x) * x - 2 * (1 - x)), -(2 * 100 * (y - x * x))]) := by
  simp [rosenbrock_model.log_prob_grad, List.range_succ, Eff.pure_eq, Eff.bind_eq,
    subscript_zero, subscript_one, Eff.seq_ret, List.replicate, assign_zero, assign_one]

/-- After `gradient.resize(2)` the Eigen vector has two entries. -/
theorem eigen_resize_two (g : List ℚ) (u : Nat → ℚ) :
    ∃ a b, rosenbrock_model.eigen_resize g 2 u = [a, b] := by
  unfold rosenbrock_model.eigen_resize
  split
  · match g, ‹g.length = 2› with
    | [a, b], _ => exact ⟨a, b, rfl⟩
  · exact ⟨u 0, u 1, rfl⟩

/-- Closed form of the Eigen `rosenbrock_model::log_prob_grad` with 2 parameters. -/
theorem rosenbrock_log_prob_grad_eigen_closed (x y : ℚ) (l g : List ℚ) (u : Nat → ℚ)
    (p j : Bool) (msgs : ostream_ptr) :
    rosenbrock_model.log_prob_grad_eigen 2 u (x :: y :: l) g p j msgs
      = Eff.ret (-(100 * (y - x * x) * (y - x * x) + (1 - x) * (1 - x)),
          [-(-4 * 100 * (y - x * x) * x - 2 * (1 - x)), -(2 * 100 * (y - x * x))]) := by
  obtain ⟨a, b, hab⟩ := eigen_resize_two g u
  simp [rosenbrock_model.log_prob_grad_eigen, hab, List.range_succ, Eff.pure_eq, Eff.bind_eq,
    subscript_zero, subscript_one, Eff.seq_ret, assign_zero, assign_one]


/-- C3 (amended), instance: `rosenbrock_model` at `(1/2, 1/2)` in mode `(true, false)`
satisfies the hypothesis, and the dispatcher returns the value of `log_prob_propto`. -/
theorem log_prob_grad_value_eq_entry_point_witness :
    ((rosenbrock_model.mk 2 (fun _ => 0)).log_prob_grad [1 / 2, 1 / 2] [] true false none
        World.empty).returned.map Prod.fst
      = ((rosenbrock_model.mk 2 (fun _ => 0)).entry_point true false [1 / 2, 1 / 2] [] none
          World.empty).returned
    ∧ (model.log_prob_grad true false
        (Model.derived_interface (rosenbrock_model.mk 2 (fun _ => 0))) [1 / 2, 1 / 2] [] []
        none World.empty).returned.map Prod.fst
      = ((rosenbrock_model.mk 2 (fun _ => 0)).entry_point true false [1 / 2, 1 / 2] [] none
          World.empty).returned := by
  have h : ((rosenbrock_model.mk 2 (fun _ => 0)).log_prob_grad [1 / 2, 1 / 2] [] true false
        none World.empty).returned.map Prod.fst
      = ((rosenbrock_model.mk 2 (fun _ => 0)).entry_point true false [1 / 2, 1 / 2] [] none
          World.empty).returned := by
    show (rosenbrock_model.log_prob_grad 2 [1 / 2, 1 / 2] [] true false none
        World.empty).returned.map Prod.fst
      = (rosenbrock_model.log_prob [1 / 2, 1 / 2] none World.empty).returned
    rw [rosenbrock_log_prob_grad_closed, rosenbrock_log_prob_closed]
    simp [Eff.ret, Res.returned]
  exact ⟨h, log_prob_grad_value_eq_entry_point true false _ _ _ _ _ _ h⟩

/-- C4: for `rosenbrock_model` constructed with 2 parameters, at `(1/2, 1/2)`, both
overloads of `log_prob_grad<propto, jacobian>` return `-13/2 = -6.5` and leave the
gradient `(51, -50)`, in every mode, for every `msgs` (null or not), whatever
`gradient` held before; the world is left as it was. -/
theorem rosenbrock_log_prob_grad_at_half (propto jacobian : Bool) (u : Nat → ℚ)
    (params_i : List Int) (gradient : List ℚ) (msgs : ostream_ptr) (w : World) :
    model.log_prob_grad propto jacobian (Model.derived_interface (rosenbrock_model.mk 2 u))
        [1 / 2, 1 / 2] params_i gradient msgs w = Res.ret (-13 / 2, [51, -50]) w
    ∧ model.log_prob_grad_eigen propto jacobian
        (Model.derived_interface (rosenbrock_model.mk 2 u)) [1 / 2, 1 / 2] gradient msgs w
      = Res.ret (-13 / 2, [51, -50]) w := by
  constructor
  · show rosenbrock_model.log_prob_grad 2 [1 / 2, 1 / 2] gradient propto jacobian msgs w = _
    rw [rosenbrock_log_prob_grad_closed]
    norm_num [Eff.ret]
  · show rosenbrock_model.log_prob_grad_eigen 2 u [1 / 2, 1 / 2] gradient propto jacobian msgs w
      = _
    rw [rosenbrock_log_prob_grad_eigen_closed]
    norm_num [Eff.ret]

/-- C5: a model derived from `model_base_interface` that keeps the default bodies of
`log_prob_jacobian`, `log_prob_propto` and `log_prob_propto_jacobian` gets, from
`log_prob<propto, jacobian>` and from `log_prob_propto<jacobian>` in every mode,
exactly the call `model.log_prob(params_r, msgs)`. -/
theorem primary_only_model_all_modes (propto jacobian : Bool) (m : model_base_interface)
    (params_r : List ℚ) (params_i : List Int) (msgs : ostream_ptr)
    (hj : m.override_log_prob_jacobian = none) (hp : m.override_log_prob_propto = none)
    (hpj : m.override_log_prob_propto_jacobian = none) :
    model.log_prob propto jacobian (Model.derived_interface m) params_r params_i msgs
      = m.log_prob params_r msgs
    ∧ model.log_prob_propto jacobian (Model.derived_interface m) params_r params_i msgs
      = m.log_prob params_r msgs := by
  constructor
  · cases propto <;> cases jacobian <;>
      simp [model.log_prob, model.internal.LogProbHelper_interface.log_prob,
        model_base_interface.log_prob_i, model_base_interface.log_prob_jacobian_i,
        model_base_interface.log_prob_propto_i, model_base_interface.log_prob_propto_jacobian_i,
        model_base_interface.log_prob_jacobian, model_base_interface.log_prob_propto,
        model_base_interface.log_prob_propto_jacobian, hj, hp, hpj]
  · cases jacobian <;>
      simp [model.log_prob_propto, model.internal.LogProbHelper_interface.log_prob_propto,
        model_base_interface.log_prob_propto_i, model_base_interface.log_prob_propto_jacobian_i,
        model_base_interface.log_prob_jacobian, model_base_interface.log_prob_propto,
        model_base_interface.log_prob_propto_jacobian, hj, hp, hpj]

/-- C5, instance: `rosenbrock_model` keeps the three defaults, and at `(1/2, 1/2)`
the call `log_prob` it is sent to returns `-13/2`. -/
theorem primary_only_model_all_modes_witness :
    ((rosenbrock_model.mk 2 (fun _ => 0)).override_log_prob_jacobian = none
      ∧ (rosenbrock_model.mk 2 (fun _ => 0)).override_log_prob_propto = none
      ∧ (rosenbrock_model.mk 2 (fun _ => 0)).override_log_prob_propto_jacobian = none)
    ∧ (model.log_prob true true (Model.derived_interface (rosenbrock_model.mk 2 (fun _ => 0)))
          [1 / 2, 1 / 2] [] none
        = (rosenbrock_model.mk 2 (fun _ => 0)).log_prob [1 / 2, 1 / 2] none
      ∧ model.log_prob_propto true
          (Model.derived_interface (rosenbrock_model.mk 2 (fun _ => 0))) [1 / 2, 1 / 2] [] none
        = (rosenbrock_model.mk 2 (fun _ => 0)).log_prob [1 / 2, 1 / 2] none)
    ∧ (rosenbrock_model.mk 2 (fun _ => 0)).log_prob [1 / 2, 1 / 2] none World.empty
        = Res.ret (-13 / 2) World.empty := by
  refine ⟨⟨rfl, rfl, rfl⟩,
    primary_only_model_all_modes true true (rosenbrock_model.mk 2 (fun _ => 0)) [1 / 2, 1 / 2]
      [] none rfl rfl rfl, ?_⟩
  show rosenbrock_model.log_prob [1 / 2, 1 / 2] none World.empty = _
  rw [rosenbrock_log_prob_closed]
  norm_num [Eff.ret]

/-- C6: the constructor of `model_functional<M>` for a class derived from
`model_base_interface` always throws `std::runtime_error` with the message
"model_functional is not supported to work with '" + type name + "'", for every
model and every stream pointer, and leaves the world (streams included) as it was;
the outcome does not depend on any entry point of the model. -/
theorem model_functional_interface_ctor_throws (m : model_base_interface)
    (out : ostream_ptr) (w : World) :
    model.model_functional.ctor_interface m out w
      = Res.thrown (exception.runtime_error
          ("model_functional is not supported to work with '" ++ m.type_name ++ "'")) w :=
  rfl

/-- C7: each of the eight `math::var` overloads of `model_base_interface` throws
`std::runtime_error`, for every model, input and world; the message is
"math::var " + the name of the called method + "(" + its parameter list +
") is not implemented!". -/
theorem var_overloads_not_implemented (m : model_base_interface) (theta : List var)
    (theta_i : List Int) (msgs : ostream_ptr) (w : World) :
    m.log_prob_var theta theta_i msgs w
      = Res.thrown (exception.runtime_error
          (not_implemented_message "log_prob" flat_var_args)) w
    ∧ m.log_prob_jacobian_var theta theta_i msgs w
      = Res.thrown (exception.runtime_error
          (not_implemented_message "log_prob_jacobian" flat_var_args)) w
    ∧ m.log_prob_propto_var theta theta_i msgs w
      = Res.thrown (exception.runtime_error
          (not_implemented_message "log_prob_propto" flat_var_args)) w
    ∧ m.log_prob_propto_jacobian_var theta theta_i msgs w
      = Res.thrown (exception.runtime_error
          (not_implemented_message "log_prob_propto_jacobian" flat_var_args)) w
    ∧ m.log_prob_var_eigen theta msgs w
      = Res.thrown (exception.runtime_error
          (not_implemented_message "log_prob" eigen_var_args)) w
    ∧ m.log_prob_jacobian_var_eigen theta msgs w
      = Res.thrown (exception.runtime_error
          (not_implemented_message "log_prob_jacobian" eigen_var_args)) w
    ∧ m.log_prob_propto_var_eigen theta msgs w
      = Res.thrown (exception.runtime_error
          (not_implemented_message "log_prob_propto" eigen_var_args)) w
    ∧ m.log_prob_propto_jacobian_var_eigen theta msgs w
      = Res.thrown (exception.runtime_error
          (not_implemented_message "log_prob_propto_jacobian" eigen_var_args)) w := by
  refine ⟨?_, ?_, ?_, ?_, ?_, ?_, ?_, ?_⟩ <;>
    · show Res.thrown _ w = Res.thrown _ w
      congr 2

/-! ### One gradient evaluation on a Templated-Density model -/

open model.internal

/-- Reading the entry that follows a block of `done_p.length` entries. -/
theorem subscript_append (done_p : List ℚ) (x : ℚ) (xs : List ℚ) (w : World) :
    subscript (done_p ++ x :: xs) done_p.length w = Res.ret x w := by
  have h : (done_p ++ x :: xs).get? done_p.length = some x := by
    induction done_p with
    | nil => rfl
    | cons a l ih => simpa [List.get?] using ih
  simp only [subscript, h, Eff.pure_eq, Eff.ret]

/-- Writing the entry that follows a block of `done.length` entries. -/
theorem assign_append {α : Type} (done : List α) (r v : α) (rs : List α) (w : World) :
    assign (done ++ r :: rs) done.length v w = Res.ret (done ++ v :: rs) w := by
  simp [assign, Eff.pure_eq, Eff.ret]

/-- Invariant of the loop that fills `ad_params_r`: with `done` already written, the
remaining iterations replace `rest` by fresh independent variables and push their
nodes on the arena. -/
theorem ad_params_loop_spec (rest_p : List ℚ) :
    ∀ (done_p : List ℚ) (done rest : List var) (w : World),
      done.length = done_p.length → rest.length = rest_p.length →
      ad_params_loop (done_p ++ rest_p) rest_p.length done.length (done ++ rest) w =
        Res.ret (done ++ rest_p.map leaf_var)
          { w with arena := w.arena ++ rest_p.map vari.leaf } := by
  induction rest_p with
  | nil =>
    intro done_p done rest w _ hr
    have : rest = [] := List.length_eq_zero.mp hr
    subst this
    simp [ad_params_loop, Eff.pure_eq, Eff.ret]
  | cons x xs ih =>
    intro done_p done rest w hd hr
    cases rest with
    | nil => simp at hr
    | cons r rs =>
      have hr2 : rs.length = xs.length := by simpa using hr
      have h1 := ih (done_p ++ [x]) (done ++ [leaf_var x]) rs
        { w with arena := w.arena ++ [vari.leaf x] } (by simp [hd]) hr2
      simp only [List.append_assoc, List.singleton_append, List.length_append,
        List.length_singleton] at h1
      simp only [ad_params_loop, List.length_cons, Eff.bind_eq, Eff.seq]
      rw [hd, subscript_append]
      simp only [var.ctor]
      rw [← hd, assign_append]
      simp only []
      simp only [leaf_var] at h1 ⊢
      rw [h1]
      simp [leaf_var]

/-- On a vector of length `num_params_r` the loop yields the dual copy of `params_r`. -/
theorem ad_params_loop_full (params_r : List ℚ) (w : World) :
    ad_params_loop params_r params_r.length 0
        (List.replicate params_r.length (var.mk none)) w =
      Res.ret (params_r.map leaf_var)
        { w with arena := w.arena ++ params_r.map vari.leaf } := by
  have h := ad_params_loop_spec params_r [] [] (List.replicate params_r.length (var.mk none)) w
    rfl (by simp)
  simpa using h

/-- No handle of the dual copy is null. -/
theorem all_leaf_vars (params_r : List ℚ) :
    (params_r.map leaf_var).all (fun v => v.vi.isSome) = true := by
  simp [leaf_var]

/-- The flat `log_prob_grad_impl` on a vector of length `num_params_r`, in terms of
the density evaluation it performs. -/
theorem log_prob_grad_impl_eq (propto jac : Bool) (m : templated_model)
    (params_r : List ℚ) (params_i : List Int) (gradient : List ℚ) (msgs : ostream_ptr)
    (w : World) (h : params_r.length = m.num_params_r) :
    log_prob_grad_impl propto jac m params_r params_i gradient msgs w =
      grad_outcome (m.density_var propto jac (params_r.map leaf_var) params_i msgs.isSome)
        params_r.length
        (world_after_density w params_r
          (m.density_var propto jac (params_r.map leaf_var) params_i msgs.isSome) msgs) := by
  unfold log_prob_grad_impl Eff.try_catch_std
  simp only [Eff.bind_eq, Eff.seq, ← h, ad_params_loop_full, templated_model.log_prob_var,
    density_run.exec, grad_outcome]
  cases hres : (m.density_var propto jac (params_r.map leaf_var) params_i msgs.isSome).result with
  | error e =>
    cases hs : e.is_std_exception <;>
      simp [hs, recover_memory, Eff.raise, recovered, world_after_density, Eff.bind_eq, Eff.seq]
  | ok n =>
    cases hsw : n.sweep with
    | error e =>
      cases hs : e.is_std_exception <;>
        simp [hs, hsw, recover_memory, Eff.raise, recovered, world_after_density, Eff.bind_eq,
          Eff.seq, Eff.pure_eq, Eff.ret, var.val, var.grad]
    | ok adj =>
      simp [hsw, recover_memory, Eff.raise, recovered, world_after_density, Eff.bind_eq,
          Eff.seq, Eff.pure_eq, Eff.ret, var.val, var.grad, all_leaf_vars]

/-- The Eigen `log_prob_grad_impl` on a vector of length `num_params_r`, in terms of
the density evaluation it performs. -/
theorem log_prob_grad_impl_eigen_eq (propto jac : Bool) (m : templated_model)
    (params_r : List ℚ) (gradient : List ℚ) (msgs : ostream_ptr)
    (w : World) (h : params_r.length = m.num_params_r) :
    log_prob_grad_impl_eigen propto jac m params_r gradient msgs w =
      grad_outcome (m.density_var_eigen propto jac (params_r.map leaf_var) msgs.isSome)
        params_r.length
        (world_after_density w params_r
          (m.density_var_eigen propto jac (params_r.map leaf_var) msgs.isSome) msgs) := by
  unfold log_prob_grad_impl_eigen Eff.try_catch_std
  simp only [Eff.bind_eq, Eff.seq, ← h, ad_params_loop_full, templated_model.log_prob_var_eigen,
    density_run.exec, grad_outcome]
  cases hres : (m.density_var_eigen propto jac (params_r.map leaf_var) msgs.isSome).result with
  | error e =>
    cases hs : e.is_std_exception <;>
      simp [hs, recover_memory, Eff.raise, recovered, world_after_density, Eff.bind_eq, Eff.seq]
  | ok n =>
    cases hsw : n.sweep with
    | error e =>
      cases hs : e.is_std_exception <;>
        simp [hs, hsw, recover_memory, Eff.raise, recovered, world_after_density, Eff.bind_eq,
          Eff.seq, Eff.pure_eq, Eff.ret, var.val, var.grad]
    | ok adj =>
      simp [hsw, recover_memory, Eff.raise, recovered, world_after_density, Eff.bind_eq,
          Eff.seq, Eff.pure_eq, Eff.ret, var.val, var.grad, all_leaf_vars]

/-- Building the dual copy and evaluating the density invoke no recovery. -/
theorem world_after_density_recover_calls (w : World) (p : List ℚ) (run : density_run vari)
    (msgs : ostream_ptr) : (world_after_density w p run msgs).recover_calls = w.recover_calls := by
  cases msgs <;> rfl

/-- The arena before the recovery: the nodes of the dual copy, then those of the density. -/
theorem world_after_density_arena (w : World) (p : List ℚ) (run : density_run vari)
    (msgs : ostream_ptr) :
    (world_after_density w p run msgs).arena = w.arena ++ p.map vari.leaf ++ run.nodes := by
  cases msgs <;> rfl

/-- Number of recoveries of a gradient evaluation, by outcome. -/
theorem grad_outcome_recover_calls (run : density_run vari) (len : Nat) (w2 : World) :
    match grad_outcome run len w2 with
    | Res.ret _ w1 => w1.recover_calls = w2.recover_calls + 1
    | Res.thrown e w1 =>
        w1.recover_calls = w2.recover_calls + (if e.is_std_exception then 1 else 0)
    | Res.undefined => False := by
  unfold grad_outcome
  cases hr : run.result with
  | error e => cases hs : e.is_std_exception <;> simp [hs, recovered]
  | ok n =>
    cases hsw : n.sweep with
    | error e => cases hs : e.is_std_exception <;> simp [hs, hsw, recovered]
    | ok adj => simp [hsw, recovered]


/-- C8 (as stated, refuted): the density of `threshold_model (foreign 0)` throws, at
`-1`, an object that is not a `std::exception`; `log_prob_grad` lets it through and
the recovery operation was not invoked. -/
theorem recover_memory_skipped_on_foreign_throw :
    (model.log_prob_grad true true (Model.templated (threshold_model (exception.foreign 0)))
        [-1] [] [] none World.empty).raised = some (exception.foreign 0)
    ∧ (model.log_prob_grad true true (Model.templated (threshold_model (exception.foreign 0)))
        [-1] [] [] none World.empty).world.map World.recover_calls = some 0 := by
  have e1 := log_prob_grad_impl_eq true true (threshold_model (exception.foreign 0)) [-1] [] []
    none World.empty rfl
  have e2 : model.log_prob_grad true true (Model.templated (threshold_model (exception.foreign 0)))
        [-1] [] [] none World.empty = _ := e1
  rw [e2]
  simp [grad_outcome, threshold_model, leaf_var, vari.leaf, exception.is_std_exception, Res.raised,
    Res.world, world_after_density, World.write, World.empty]

/-- C8 (amended): on a Templated-Density model and a parameter vector of length
`num_params_r`, both overloads of `log_prob_grad<propto, jacobian>` have a defined
outcome and invoke the recovery operation exactly once when the call returns and
exactly once when the density or the sweep throws an object derived from
`std::exception`; a thrown object of another type leaves without recovery. -/
theorem recover_memory_once_per_call (propto jacobian : Bool) (m : templated_model)
    (params_r : List ℚ) (params_i : List Int) (gradient : List ℚ) (msgs : ostream_ptr)
    (w : World) (h : params_r.length = m.num_params_r) :
    (match model.log_prob_grad propto jacobian (Model.templated m) params_r params_i gradient
        msgs w with
      | Res.ret _ w1 => w1.recover_calls = w.recover_calls + 1
      | Res.thrown e w1 =>
          w1.recover_calls = w.recover_calls + (if e.is_std_exception then 1 else 0)
      | Res.undefined => False)
    ∧ (match model.log_prob_grad_eigen propto jacobian (Model.templated m) params_r gradient
        msgs w with
      | Res.ret _ w1 => w1.recover_calls = w.recover_calls + 1
      | Res.thrown e w1 =>
          w1.recover_calls = w.recover_calls + (if e.is_std_exception then 1 else 0)
      | Res.undefined => False) := by
  constructor
  · have e1 : model.log_prob_grad propto jacobian (Model.templated m) params_r params_i gradient
        msgs w = _ := log_prob_grad_impl_eq propto jacobian m params_r params_i gradient msgs w h
    rw [e1, ← world_after_density_recover_calls w params_r
      (m.density_var propto jacobian (params_r.map leaf_var) params_i msgs.isSome) msgs]
    exact grad_outcome_recover_calls _ _ _
  · have e1 : model.log_prob_grad_eigen propto jacobian (Model.templated m) params_r gradient
        msgs w = _ := log_prob_grad_impl_eigen_eq propto jacobian m params_r gradient msgs w h
    rw [e1, ← world_after_density_recover_calls w params_r
      (m.density_var_eigen propto jacobian (params_r.map leaf_var) msgs.isSome) msgs]
    exact grad_outcome_recover_calls _ _ _



/-- C8 (amended), instance: `threshold_model` throwing `std::domain_error`, at the
one-parameter vector `(1)`. -/
theorem recover_memory_once_per_call_witness :
    ([1] : List ℚ).length
        = (threshold_model (exception.domain_error "x is negative")).num_params_r
    ∧ ((match model.log_prob_grad true true
          (Model.templated (threshold_model (exception.domain_error "x is negative"))) [1] []
          [] none World.empty with
        | Res.ret _ w1 => w1.recover_calls = World.empty.recover_calls + 1
        | Res.thrown e w1 =>
            w1.recover_calls = World.empty.recover_calls + (if e.is_std_exception then 1 else 0)
        | Res.undefined => False)
      ∧ (match model.log_prob_grad_eigen true true
          (Model.templated (threshold_model (exception.domain_error "x is negative"))) [1]
          [] none World.empty with
        | Res.ret _ w1 => w1.recover_calls = World.empty.recover_calls + 1
        | Res.thrown e w1 =>
            w1.recover_calls = World.empty.recover_calls + (if e.is_std_exception then 1 else 0)
        | Res.undefined => False)) :=
  ⟨rfl, recover_memory_once_per_call true true
    (threshold_model (exception.domain_error "x is negative")) [1] [] [] none World.empty rfl⟩

/-- A gradient evaluation that returns does so from every world, with the same value
and gradient, after one recovery. -/
theorem grad_outcome_ret {run : density_run vari} {len : Nat} {wa w2 : World} {v : ℚ}
    {g : List ℚ} (h : grad_outcome run len wa = Res.ret (v, g) w2) :
    w2 = recovered wa ∧ ∀ wb, grad_outcome run len wb = Res.ret (v, g) (recovered wb) := by
  unfold grad_outcome at h ⊢
  cases hr : run.result with
  | error e =>
    simp only [hr] at h
    cases hs : e.is_std_exception <;> simp [hs] at h
  | ok n =>
    simp only [hr] at h
    cases hsw : n.sweep with
    | error e =>
      simp only [hsw] at h
      cases hs : e.is_std_exception <;> simp [hs] at h
    | ok adj =>
      simp only [hsw, Res.ret.injEq, Prod.mk.injEq] at h
      obtain ⟨⟨hv, hg⟩, hw⟩ := h
      subst hv hg hw
      exact ⟨rfl, fun _ => by simp only [hsw]⟩

/-- The world a failed gradient evaluation leaves. -/
theorem grad_outcome_thrown {run : density_run vari} {len : Nat} {wa w1 : World}
    {e : exception} (h : grad_outcome run len wa = Res.thrown e w1) :
    w1 = (if e.is_std_exception then recovered wa else wa) := by
  unfold grad_outcome at h
  cases hr : run.result with
  | error e0 =>
    simp only [hr] at h
    cases hs : e0.is_std_exception <;> simp [hs] at h <;> obtain ⟨he, hw⟩ := h <;>
      subst he hw <;> simp [hs]
  | ok n =>
    simp only [hr] at h
    cases hsw : n.sweep with
    | error e0 =>
      simp only [hsw] at h
      cases hs : e0.is_std_exception <;> simp [hs] at h <;> obtain ⟨he, hw⟩ := h <;>
        subst he hw <;> simp [hs]
    | ok adj =>
      simp [hsw] at h


/-- Either overload of `log_prob_grad` on a Templated-Density model, in terms of the
density evaluation it performs. -/
theorem log_prob_grad_overload_eq (dense propto jacobian : Bool) (m : templated_model)
    (params_r : List ℚ) (params_i : List Int) (gradient : List ℚ) (msgs : ostream_ptr)
    (w : World) (h : params_r.length = m.num_params_r) :
    model.log_prob_grad_overload dense propto jacobian (Model.templated m) params_r params_i
        gradient msgs w
      = grad_outcome (m.run_var dense propto jacobian params_r params_i msgs) params_r.length
          (world_after_density w params_r
            (m.run_var dense propto jacobian params_r params_i msgs) msgs) := by
  cases dense
  · exact log_prob_grad_impl_eq propto jacobian m params_r params_i gradient msgs w h
  · exact log_prob_grad_impl_eigen_eq propto jacobian m params_r gradient msgs w h


/-! ### `threshold_model` evaluated -/

/-- The gradient call on `threshold_model e` at `(-1)` throws `e`. -/
theorem threshold_call_neg (dense : Bool) (e : exception) (g : List ℚ) (w : World) :
    model.log_prob_grad_overload dense true true (Model.templated (threshold_model e)) [-1] []
        g none w
      = Res.thrown e (if e.is_std_exception then
          recovered { w with arena := w.arena ++ [vari.leaf (-1)] }
          else { w with arena := w.arena ++ [vari.leaf (-1)] }) := by
  rw [log_prob_grad_overload_eq dense true true (threshold_model e) [-1] [] g none w rfl]
  cases dense <;> cases hs : e.is_std_exception <;>
    simp [grad_outcome, templated_model.run_var, threshold_model, leaf_var, vari.leaf, hs,
      world_after_density, World.write]

/-- The gradient call on `threshold_model e` at `(1)` returns `-1/2` and gradient `(-1)`. -/
theorem threshold_call_pos (dense : Bool) (e : exception) (g : List ℚ) (w : World) :
    model.log_prob_grad_overload dense true true (Model.templated (threshold_model e)) [1] []
        g none w
      = Res.ret (-1 / 2, [-1]) (recovered { w with arena := w.arena ++ [vari.leaf 1] ++
          [{ val := -(1 * 1) / 2, sweep := Except.ok [-1] }] }) := by
  rw [log_prob_grad_overload_eq dense true true (threshold_model e) [1] [] g none w rfl]
  have h10 : ¬ ((1 : ℚ) < 0) := by norm_num
  cases dense <;>
    simp [grad_outcome, templated_model.run_var, threshold_model, leaf_var, vari.leaf,
      world_after_density, World.write, recovered, h10, List.range_succ]

/-! ### A failed call followed by a successful one -/

/-- C9 (as stated, refuted): on `threshold_model (foreign 0)` the call at `-1` throws
an object that is not a `std::exception`, the call at `1` succeeds, and the failed
call leaves one node on the arena. -/
theorem failed_call_leaves_nodes_on_foreign_throw :
    (model.log_prob_grad_overload false true true
        (Model.templated (threshold_model (exception.foreign 0))) [-1] [] [] none
        World.empty).raised = some (exception.foreign 0)
    ∧ (model.log_prob_grad_overload false true true
        (Model.templated (threshold_model (exception.foreign 0))) [1] [] [] none
        World.empty).returned = some (-1 / 2, [-1])
    ∧ (model.log_prob_grad_overload false true true
        (Model.templated (threshold_model (exception.foreign 0))) [-1] [] [] none
        World.empty).world.map (fun w => w.arena.length) = some 1 := by
  rw [threshold_call_neg, threshold_call_pos]
  simp [Res.raised, Res.returned, Res.world, exception.is_std_exception, World.empty]


/-- C9 (amended): on a Templated-Density model and parameter vectors of length
`num_params_r`, if the call on `p1` throws and the call on `p2` alone, from the same
world, returns `(v, g)`, then the call on `p2` made after the failed call (whatever
the gradient buffer holds) returns the same value `v` and the same gradient `g` and
ends with the same arena size; and when the thrown object derives from
`std::exception`, the failed call leaves the arena empty.  For either overload. -/
theorem failed_call_then_successful_call (dense propto jacobian : Bool) (m : templated_model) (p1 p2 : List ℚ)
    (params_i : List Int) (g1 g2 g3 : List ℚ) (msgs : ostream_ptr) (w w1 w2 : World)
    (e : exception) (v : ℚ) (g : List ℚ)
    (h1 : p1.length = m.num_params_r) (h2 : p2.length = m.num_params_r)
    (hfail : model.log_prob_grad_overload dense propto jacobian (Model.templated m) p1 params_i
      g1 msgs w = Res.thrown e w1)
    (hok : model.log_prob_grad_overload dense propto jacobian (Model.templated m) p2 params_i
      g2 msgs w = Res.ret (v, g) w2) :
    (∃ w3, model.log_prob_grad_overload dense propto jacobian (Model.templated m) p2 params_i
        g3 msgs w1 = Res.ret (v, g) w3 ∧ w3.arena.length = w2.arena.length)
    ∧ (e.is_std_exception = true → w1.arena = []) := by
  rw [log_prob_grad_overload_eq dense propto jacobian m p1 params_i g1 msgs w h1] at hfail
  rw [log_prob_grad_overload_eq dense propto jacobian m p2 params_i g2 msgs w h2] at hok
  obtain ⟨hw2, hall⟩ := grad_outcome_ret hok
  have hw1 := grad_outcome_thrown hfail
  constructor
  · refine ⟨recovered (world_after_density w1 p2
      (m.run_var dense propto jacobian p2 params_i msgs) msgs), ?_, ?_⟩
    · rw [log_prob_grad_overload_eq dense propto jacobian m p2 params_i g3 msgs w1 h2]
      exact hall _
    · rw [hw2]
      rfl
  · intro hs
    rw [hw1, hs]
    rfl

/-- C9 (amended), instance: `threshold_model` throwing `std::domain_error`, with
`p1 = (-1)` and `p2 = (1)`, from the empty world. -/
theorem failed_call_then_successful_call_witness :
    ((([-1] : List ℚ).length
          = (threshold_model (exception.domain_error "x is negative")).num_params_r)
      ∧ (([1] : List ℚ).length
          = (threshold_model (exception.domain_error "x is negative")).num_params_r))
    ∧ ((∃ w3, model.log_prob_grad_overload false true true
          (Model.templated (threshold_model (exception.domain_error "x is negative"))) [1] []
          [] none (recovered { World.empty with arena := World.empty.arena ++ [vari.leaf (-1)] })
          = Res.ret (-1 / 2, [-1]) w3
        ∧ w3.arena.length
          = (recovered { World.empty with arena := World.empty.arena ++ [vari.leaf 1] ++
              [{ val := -(1 * 1) / 2, sweep := Except.ok [-1] }] }).arena.length)
      ∧ ((exception.domain_error "x is negative").is_std_exception = true →
          (recovered { World.empty with
            arena := World.empty.arena ++ [vari.leaf (-1)] }).arena = [])) :=
  ⟨⟨rfl, rfl⟩,
    failed_call_then_successful_call false true true (threshold_model (exception.domain_error "x is negative")) [-1] [1]
      [] [] [] [] none World.empty _ _ _ _ _ rfl rfl
      (by rw [threshold_call_neg]; rfl) (threshold_call_pos false _ [] World.empty)⟩

/-! ### Sequential calls -/

/-- A gradient evaluation ends recovered, unless it lets through an object that is not a
`std::exception`. -/
theorem grad_outcome_world (run : density_run vari) (len : Nat) (wa : World) :
    (grad_outcome run len wa).world = some (recovered wa)
    ∨ ∃ e, (grad_outcome run len wa).raised = some e ∧ e.is_std_exception = false := by
  unfold grad_outcome
  cases hr : run.result with
  | error e =>
    cases hs : e.is_std_exception
    · right; exact ⟨e, by simp [hs, Res.raised], hs⟩
    · left; simp [hs, Res.world]
  | ok n =>
    cases hsw : n.sweep with
    | error e =>
      cases hs : e.is_std_exception
      · right; exact ⟨e, by simp [hs, hsw, Res.raised], hs⟩
      · left; simp [hs, hsw, Res.world]
    | ok adj => left; simp [hsw, Res.world]

/-- A call that lets no foreign object through leaves an empty arena. -/
theorem call_recovers (dense propto jacobian : Bool) (m : templated_model) (p : List ℚ)
    (params_i : List Int) (msgs : ostream_ptr) (h : p.length = m.num_params_r)
    (hstd : ∀ (g : List ℚ) (w0 : World) (e : exception),
      (model.log_prob_grad_overload dense propto jacobian (Model.templated m) p params_i g
        msgs w0).raised = some e → e.is_std_exception = true)
    (g : List ℚ) (w0 : World) :
    ∃ w1, (model.log_prob_grad_overload dense propto jacobian (Model.templated m) p params_i g
        msgs w0).world = some w1 ∧ w1.arena = [] := by
  have hs := hstd g w0
  rw [log_prob_grad_overload_eq dense propto jacobian m p params_i g msgs w0 h] at hs ⊢
  rcases grad_outcome_world (m.run_var dense propto jacobian p params_i msgs) p.length
      (world_after_density w0 p (m.run_var dense propto jacobian p params_i msgs) msgs) with
    hw | ⟨e, he, hf⟩
  · exact ⟨_, hw, rfl⟩
  · have := hs e he
    rw [hf] at this
    exact absurd this (by simp)

/-- C10 (as stated, refuted): on `threshold_model (foreign 0)` at `(-1)`, every call
throws an object that is not a `std::exception`; the arena holds 2 nodes after two
calls and 1 node after one call. -/
theorem arena_grows_on_foreign_throw :
    (after_calls (fun _ => model.log_prob_grad_overload false true true
        (Model.templated (threshold_model (exception.foreign 0))) [-1] [] [] none) 2
        World.empty).map (fun w => w.arena.length) = some 2
    ∧ (after_calls (fun _ => model.log_prob_grad_overload false true true
        (Model.templated (threshold_model (exception.foreign 0))) [-1] [] [] none) 1
        World.empty).map (fun w => w.arena.length) = some 1 := by
  simp [after_calls, threshold_call_neg, Res.world, exception.is_std_exception, World.empty]


/-- C10 (amended): on a Templated-Density model and a parameter vector of length
`num_params_r` on which no call lets an object through that is not derived from
`std::exception`, for every `N ≥ 1` the `N` sequential calls are defined and the
arena size after them equals the arena size after one call.  For either overload,
whatever the gradient buffer holds at each call. -/
theorem arena_size_after_sequential_calls (dense propto jacobian : Bool) (m : templated_model) (p : List ℚ)
    (params_i : List Int) (gs : Nat → List ℚ) (msgs : ostream_ptr) (w : World) (N : Nat)
    (hN : 1 ≤ N) (h : p.length = m.num_params_r)
    (hstd : ∀ (g : List ℚ) (w0 : World) (e : exception),
      (model.log_prob_grad_overload dense propto jacobian (Model.templated m) p params_i g
        msgs w0).raised = some e → e.is_std_exception = true) :
    ∃ wN w1,
      after_calls (fun k => model.log_prob_grad_overload dense propto jacobian
        (Model.templated m) p params_i (gs k) msgs) N w = some wN
      ∧ after_calls (fun k => model.log_prob_grad_overload dense propto jacobian
        (Model.templated m) p params_i (gs k) msgs) 1 w = some w1
      ∧ wN.arena.length = w1.arena.length := by
  have key : ∀ k, ∃ wk,
      after_calls (fun k => model.log_prob_grad_overload dense propto jacobian
        (Model.templated m) p params_i (gs k) msgs) k w = some wk
      ∧ (1 ≤ k → wk.arena = []) := by
    intro k
    induction k with
    | zero => exact ⟨w, rfl, fun h0 => absurd h0 (by decide)⟩
    | succ k ih =>
      obtain ⟨wk, hk, _⟩ := ih
      obtain ⟨w1, h1, ha⟩ := call_recovers dense propto jacobian m p params_i msgs h hstd
        (gs k) wk
      exact ⟨w1, by simp only [after_calls, hk, h1], fun _ => ha⟩
  obtain ⟨wN, hwN, haN⟩ := key N
  obtain ⟨w1, hw1, ha1⟩ := key 1
  exact ⟨wN, w1, hwN, hw1, by rw [haN hN, ha1 (le_refl 1)]⟩

/-- C10 (amended), instance: three calls on `threshold_model` throwing
`std::domain_error`, at `(-1)`, each of which fails. -/
theorem arena_size_after_sequential_calls_witness :
    (1 ≤ 3
      ∧ ([-1] : List ℚ).length
        = (threshold_model (exception.domain_error "x is negative")).num_params_r)
    ∧ ∃ wN w1,
      after_calls (fun _ => model.log_prob_grad_overload false true true
        (Model.templated (threshold_model (exception.domain_error "x is negative"))) [-1] []
        [] none) 3 World.empty = some wN
      ∧ after_calls (fun _ => model.log_prob_grad_overload false true true
        (Model.templated (threshold_model (exception.domain_error "x is negative"))) [-1] []
        [] none) 1 World.empty = some w1
      ∧ wN.arena.length = w1.arena.length :=
  ⟨⟨by decide, rfl⟩,
    arena_size_after_sequential_calls false true true
      (threshold_model (exception.domain_error "x is negative")) [-1] [] (fun _ => []) none
      World.empty 3 (by decide) rfl
      (by
        intro g w0 e he
        rw [threshold_call_neg] at he
        simp only [Res.raised, Option.some.injEq] at he
        rw [← he]
        rfl)⟩

/-! ### One log-density evaluation on a Templated-Density model -/

/-- Invariant of the loop that fills `ad_params_r` by `push_back`: `k` iterations append
the fresh independent variables of the next `k` entries and push their nodes. -/
theorem push_back_loop_spec (k : Nat) :
    ∀ (done_p rest_p : List ℚ) (done : List var) (w : World),
      done.length = done_p.length → k ≤ rest_p.length →
      push_back_loop (done_p ++ rest_p) k done.length done w =
        Res.ret (done ++ (rest_p.take k).map leaf_var)
          { w with arena := w.arena ++ (rest_p.take k).map vari.leaf } := by
  induction k with
  | zero =>
    intro done_p rest_p done w _ _
    simp [push_back_loop, Eff.pure_eq, Eff.ret]
  | succ k ih =>
    intro done_p rest_p done w hd hk
    cases rest_p with
    | nil => simp at hk
    | cons x xs =>
      have hk2 : k ≤ xs.length := by simpa using hk
      have h1 := ih (done_p ++ [x]) xs (done ++ [leaf_var x])
        { w with arena := w.arena ++ [vari.leaf x] } (by simp [hd]) hk2
      simp only [List.append_assoc, List.singleton_append, List.length_append,
        List.length_singleton] at h1
      simp only [push_back_loop, Eff.bind_eq, Eff.seq]
      rw [hd, subscript_append]
      simp only [var.ctor]
      rw [← hd]
      simp only [leaf_var] at h1 ⊢
      rw [h1]
      simp [leaf_var]

/-- On a vector with at least `n` entries the loop yields the dual copy of the first `n`. -/
theorem push_back_loop_full (params_r : List ℚ) (n : Nat) (h : n ≤ params_r.length)
    (w : World) :
    push_back_loop params_r n 0 [] w =
      Res.ret ((params_r.take n).map leaf_var)
        { w with arena := w.arena ++ (params_r.take n).map vari.leaf } := by
  have h1 := push_back_loop_spec n [] params_r [] w rfl h
  simpa using h1

/-- The flat `log_prob_propto_impl` on a vector with at least `num_params_r` entries, in
terms of the density evaluation it performs. -/
theorem log_prob_propto_impl_eq (jac : Bool) (m : templated_model)
    (params_r : List ℚ) (params_i : List Int) (msgs : ostream_ptr)
    (w : World) (h : m.num_params_r ≤ params_r.length) :
    log_prob_propto_impl jac m params_r params_i msgs w =
      propto_outcome
        (m.density_var true jac ((params_r.take m.num_params_r).map leaf_var) params_i
          msgs.isSome)
        (world_after_density w (params_r.take m.num_params_r)
          (m.density_var true jac ((params_r.take m.num_params_r).map leaf_var) params_i
            msgs.isSome) msgs) := by
  unfold log_prob_propto_impl Eff.try_catch_std
  simp only [Eff.bind_eq, Eff.seq, push_back_loop_full params_r m.num_params_r h,
    templated_model.log_prob_var, density_run.exec, propto_outcome]
  cases hres : (m.density_var true jac ((params_r.take m.num_params_r).map leaf_var) params_i
      msgs.isSome).result with
  | error e =>
    cases hs : e.is_std_exception <;>
      simp [hs, recover_memory, Eff.raise, recovered, world_after_density, Eff.bind_eq, Eff.seq]
  | ok n =>
    simp [recover_memory, Eff.raise, recovered, world_after_density, Eff.bind_eq,
      Eff.seq, Eff.pure_eq, Eff.ret, var.val]

/-- The Eigen `log_prob_propto_impl` on a vector with at least `num_params_r` entries. -/
theorem log_prob_propto_impl_eigen_eq (jac : Bool) (m : templated_model)
    (params_r : List ℚ) (msgs : ostream_ptr)
    (w : World) (h : m.num_params_r ≤ params_r.length) :
    log_prob_propto_impl_eigen jac m params_r msgs w =
      propto_outcome
        (m.density_var true jac ((params_r.take m.num_params_r).map leaf_var) []
          msgs.isSome)
        (world_after_density w (params_r.take m.num_params_r)
          (m.density_var true jac ((params_r.take m.num_params_r).map leaf_var) []
            msgs.isSome) msgs) :=
  log_prob_propto_impl_eq jac m params_r [] msgs w h


/-! ### The log-density evaluator on a Templated-Density model -/

open model

/-- Entry `i` of the dual copy of the first `n` entries has the value `params_r[i]`. -/
theorem dual_copy_entry (params_r : List ℚ) (n i : Nat) (hi : i < n) :
    (((params_r.take n).map leaf_var)[i]?).bind var.value = params_r[i]? := by
  rw [List.getElem?_map, List.getElem?_take, if_pos hi]
  cases params_r[i]? <;> rfl

/-- C16: on a Templated-Density model and a flat `params_r` with at least
`num_params_r` entries, the dual vector handed to the density has length exactly
`num_params_r` and its entry `i` has the value `params_r[i]`; whenever the call
`model.log_prob<true, jacobian>` at `var` on that vector, with the given `params_i`
and `msgs`, returns, `log_prob_propto<jacobian>` returns the primal value of what it
returned (after the recovery). -/
theorem log_prob_propto_templated_is_primal_of_dual (jacobian : Bool) (m : templated_model) (params_r : List ℚ)
    (params_i : List Int) (msgs : ostream_ptr) (w : World)
    (h : m.num_params_r ≤ params_r.length) :
    ((params_r.take m.num_params_r).map leaf_var).length = m.num_params_r
    ∧ (∀ i, i < m.num_params_r →
        (((params_r.take m.num_params_r).map leaf_var)[i]?).bind var.value = params_r[i]?)
    ∧ (∀ v w2,
        m.log_prob_var true jacobian ((params_r.take m.num_params_r).map leaf_var) params_i
            msgs { w with arena := w.arena ++ (params_r.take m.num_params_r).map vari.leaf }
          = Res.ret v w2 →
        ∃ n, v.vi = some n
          ∧ model.log_prob_propto jacobian (Model.templated m) params_r params_i msgs w
            = Res.ret n.val (recovered w2)) := by
  refine ⟨by simp [h], fun i hi => dual_copy_entry params_r _ i hi, ?_⟩
  intro v w2 hv
  have e1 : model.log_prob_propto jacobian (Model.templated m) params_r params_i msgs w = _ :=
    log_prob_propto_impl_eq jacobian m params_r params_i msgs w h
  rw [e1]
  simp only [templated_model.log_prob_var, density_run.exec, Eff.bind_eq, Eff.seq,
    Eff.pure_eq, Eff.ret] at hv
  unfold propto_outcome
  cases hres : (m.density_var true jacobian ((params_r.take m.num_params_r).map leaf_var)
      params_i msgs.isSome).result with
  | error e =>
    rw [hres] at hv
    exact absurd hv (by simp)
  | ok n =>
    simp only [hres, Res.ret.injEq] at hv
    obtain ⟨hv1, hv2⟩ := hv
    subst hv1 hv2
    exact ⟨n, rfl, rfl⟩

/-- C16, instance: `threshold_model` with the two-entry vector `(1, 7)`: one entry
is used. -/
theorem log_prob_propto_templated_is_primal_of_dual_witness :
    (threshold_model (exception.domain_error "x is negative")).num_params_r ≤ ([1, 7] : List ℚ).length
    ∧ ((([1, 7] : List ℚ).take (threshold_model (exception.domain_error "x is negative")).num_params_r).map leaf_var).length = (threshold_model (exception.domain_error "x is negative")).num_params_r
    ∧ model.log_prob_propto true (Model.templated (threshold_model (exception.domain_error "x is negative"))) [1, 7] [] none World.empty
        = Res.ret (-1 / 2) (recovered { World.empty with
            arena := [vari.leaf 1, { val := -(1 * 1) / 2, sweep := Except.ok [-1] }] }) := by
  have h := log_prob_propto_templated_is_primal_of_dual true (threshold_model (exception.domain_error "x is negative")) [1, 7] [] none World.empty
    (by decide)
  refine ⟨by decide, h.1, ?_⟩
  have h10 : ¬ ((1 : ℚ) < 0) := by norm_num
  obtain ⟨n, hn, hcall⟩ := h.2.2 (var.mk (some { val := -(1 * 1) / 2, sweep := Except.ok [-1] }))
    { World.empty with
      arena := [vari.leaf 1, { val := -(1 * 1) / 2, sweep := Except.ok [-1] }] }
    (by
      simp [templated_model.log_prob_var, density_run.exec, threshold_model, leaf_var,
        vari.leaf, h10, Eff.bind_eq, Eff.seq, Eff.pure_eq, Eff.ret, World.write, World.empty])
  simp only [Option.some.injEq] at hn
  rw [hcall, ← hn]
  norm_num
/-- C17: on a Templated-Density model, two parameter vectors with at least
`num_params_r` entries that agree on their first `num_params_r` entries give the same
outcome of `log_prob_propto<jacobian>`, from the same world, for the flat and for the
Eigen overload. -/
theorem log_prob_propto_ignores_excess_input (jacobian : Bool) (m : templated_model) (p q : List ℚ)
    (params_i : List Int) (msgs : ostream_ptr) (w : World)
    (hp : m.num_params_r ≤ p.length) (hq : m.num_params_r ≤ q.length)
    (hpq : p.take m.num_params_r = q.take m.num_params_r) :
    model.log_prob_propto jacobian (Model.templated m) p params_i msgs w
      = model.log_prob_propto jacobian (Model.templated m) q params_i msgs w
    ∧ model.log_prob_propto_eigen jacobian (Model.templated m) p msgs w
      = model.log_prob_propto_eigen jacobian (Model.templated m) q msgs w := by
  constructor
  · have e1 : model.log_prob_propto jacobian (Model.templated m) p params_i msgs w = _ :=
      log_prob_propto_impl_eq jacobian m p params_i msgs w hp
    have e2 : model.log_prob_propto jacobian (Model.templated m) q params_i msgs w = _ :=
      log_prob_propto_impl_eq jacobian m q params_i msgs w hq
    rw [e1, e2, hpq]
  · have e1 : model.log_prob_propto_eigen jacobian (Model.templated m) p msgs w = _ :=
      log_prob_propto_impl_eigen_eq jacobian m p msgs w hp
    have e2 : model.log_prob_propto_eigen jacobian (Model.templated m) q msgs w = _ :=
      log_prob_propto_impl_eigen_eq jacobian m q msgs w hq
    rw [e1, e2, hpq]

/-- C17, instance: `threshold_model` with `p = (1)` and `q = (1, 5)`. -/
theorem log_prob_propto_ignores_excess_input_witness :
    ((threshold_model (exception.domain_error "x is negative")).num_params_r
        ≤ ([1] : List ℚ).length
      ∧ (threshold_model (exception.domain_error "x is negative")).num_params_r
        ≤ ([1, 5] : List ℚ).length
      ∧ ([1] : List ℚ).take (threshold_model (exception.domain_error "x is negative")).num_params_r
        = ([1, 5] : List ℚ).take
            (threshold_model (exception.domain_error "x is negative")).num_params_r)
    ∧ (model.log_prob_propto true
          (Model.templated (threshold_model (exception.domain_error "x is negative"))) [1] []
          none World.empty
        = model.log_prob_propto true
          (Model.templated (threshold_model (exception.domain_error "x is negative"))) [1, 5] []
          none World.empty
      ∧ model.log_prob_propto_eigen true
          (Model.templated (threshold_model (exception.domain_error "x is negative"))) [1]
          none World.empty
        = model.log_prob_propto_eigen true
          (Model.templated (threshold_model (exception.domain_error "x is negative"))) [1, 5]
          none World.empty) :=
  ⟨⟨by decide, by decide, rfl⟩,
    log_prob_propto_ignores_excess_input true (threshold_model (exception.domain_error "x is negative")) [1] [1, 5] [] none
      World.empty (by decide) (by decide) rfl⟩


/-! ### The error policy of the evaluators -/

/-- An evaluator that is the entry point itself follows the error policy. -/
theorem propagates_self {α : Type} (r : Res α) : propagates r r :=
  ⟨fun _ _ h => Or.inl h, fun a _ h => ⟨a, Or.inl h⟩⟩

/-- The density call at `var` of the flat overloads, from the world that holds the dual copy. -/
theorem log_prob_var_call (m : templated_model) (propto jac : Bool) (p : List ℚ)
    (params_i : List Int) (msgs : ostream_ptr) (w : World) :
    m.log_prob_var propto jac (p.map leaf_var) params_i msgs
        { w with arena := w.arena ++ p.map vari.leaf }
      = (match (m.density_var propto jac (p.map leaf_var) params_i msgs.isSome).result with
        | Except.error e => Res.thrown e (world_after_density w p
            (m.density_var propto jac (p.map leaf_var) params_i msgs.isSome) msgs)
        | Except.ok n => Res.ret (var.mk (some n)) (world_after_density w p
            (m.density_var propto jac (p.map leaf_var) params_i msgs.isSome) msgs)) := by
  simp only [templated_model.log_prob_var, density_run.exec, Eff.bind_eq, Eff.seq,
    Eff.pure_eq, Eff.ret, world_after_density]
  cases (m.density_var propto jac (p.map leaf_var) params_i msgs.isSome).result <;> rfl

/-- The density call at `var` of the Eigen gradient overload. -/
theorem log_prob_var_eigen_call (m : templated_model) (propto jac : Bool) (p : List ℚ)
    (msgs : ostream_ptr) (w : World) :
    m.log_prob_var_eigen propto jac (p.map leaf_var) msgs
        { w with arena := w.arena ++ p.map vari.leaf }
      = (match (m.density_var_eigen propto jac (p.map leaf_var) msgs.isSome).result with
        | Except.error e => Res.thrown e (world_after_density w p
            (m.density_var_eigen propto jac (p.map leaf_var) msgs.isSome) msgs)
        | Except.ok n => Res.ret (var.mk (some n)) (world_after_density w p
            (m.density_var_eigen propto jac (p.map leaf_var) msgs.isSome) msgs)) := by
  simp only [templated_model.log_prob_var_eigen, density_run.exec, Eff.bind_eq, Eff.seq,
    Eff.pure_eq, Eff.ret, world_after_density]
  cases (m.density_var_eigen propto jac (p.map leaf_var) msgs.isSome).result <;> rfl

/-- The log-density evaluator follows the error policy. -/
theorem propagates_propto (run : density_run vari) (w2 : World) :
    propagates
      (match run.result with
        | Except.error e => Res.thrown e w2
        | Except.ok n => Res.ret (var.mk (some n)) w2)
      (propto_outcome run w2) := by
  unfold propto_outcome propagates
  cases hr : run.result with
  | error e0 =>
    refine ⟨?_, ?_⟩
    · intro e w1 h
      simp only [Res.thrown.injEq] at h
      obtain ⟨he, hw⟩ := h
      subst he hw
      cases hs : e0.is_std_exception <;> simp [hs]
    · intro a w1 h
      simp at h
  | ok n =>
    refine ⟨?_, ?_⟩
    · intro e w1 h
      simp at h
    · intro a w1 h
      simp only [Res.ret.injEq] at h
      obtain ⟨_, hw⟩ := h
      subst hw
      exact ⟨n.val, Or.inr rfl⟩

/-- The gradient evaluator follows the error policy. -/
theorem propagates_grad_outcome (run : density_run vari) (len : Nat) (w2 : World) :
    propagates_grad
      (match run.result with
        | Except.error e => Res.thrown e w2
        | Except.ok n => Res.ret (var.mk (some n)) w2)
      (grad_outcome run len w2) := by
  unfold grad_outcome propagates_grad
  cases hr : run.result with
  | error e0 =>
    refine ⟨?_, ?_⟩
    · intro e w1 h
      simp only [Res.thrown.injEq] at h
      obtain ⟨he, hw⟩ := h
      subst he hw
      cases hs : e0.is_std_exception <;> simp [hs]
    · intro v w1 n adj h
      simp at h
  | ok n0 =>
    refine ⟨?_, ?_⟩
    · intro e w1 h
      simp at h
    · intro v w1 n adj h hv hsw
      simp only [Res.ret.injEq] at h
      obtain ⟨h1, hw⟩ := h
      subst h1 hw
      simp only [Option.some.injEq] at hv
      subst hv
      simp only [hsw]
      exact ⟨_, rfl⟩



/-- C11 (as stated, refuted): `first_entry_model` has one parameter.  On the flat
vector `(1, 7)` the density at `var`, called on the two-entry dual vector the
gradient evaluator builds, returns and its sweep does not raise, yet
`log_prob_grad<true, true>` does not return: its behaviour is undefined, so the error
policy does not hold there.  On the empty vector, which is too short,
`log_prob_propto` and `log_prob_grad` are undefined before the density is called. -/
theorem error_policy_fails_on_ill_sized_input :
    first_entry_model.num_params_r = 1
    ∧ ad_params_loop [1, 7] first_entry_model.num_params_r 0
        (List.replicate ([1, 7] : List ℚ).length (var.mk none)) World.empty
        = Res.ret [leaf_var 1, var.mk none] { World.empty with arena := [vari.leaf 1] }
    ∧ (∃ n adj,
        (first_entry_model.density_var true true [leaf_var 1, var.mk none] [] false).result
          = Except.ok n
        ∧ n.sweep = Except.ok adj)
    ∧ model.log_prob_grad true true (Model.templated first_entry_model) [1, 7] [] [] none
        World.empty = Res.undefined
    ∧ ¬ propagates_grad
        (first_entry_model.log_prob_var true true [leaf_var 1, var.mk none] [] none
          { World.empty with arena := [vari.leaf 1] })
        (model.log_prob_grad true true (Model.templated first_entry_model) [1, 7] [] [] none
          World.empty)
    ∧ model.log_prob_propto true (Model.templated first_entry_model) [] [] none World.empty
        = Res.undefined
    ∧ model.log_prob_grad true true (Model.templated first_entry_model) [] [] [] none
        World.empty = Res.undefined := by
  have hu : model.log_prob_grad true true (Model.templated first_entry_model) [1, 7] [] []
      none World.empty = Res.undefined := rfl
  refine ⟨rfl, rfl, ⟨_, _, rfl, rfl⟩, hu, ?_, rfl, rfl⟩
  intro h
  obtain ⟨b, hb⟩ := h.2 _ _ _ _ rfl rfl rfl
  rw [hu] at hb
  cases hb

/-- C11 (amended): for a Virtual-Interface model, `log_prob`, `log_prob_propto` and
`log_prob_grad` (each overload, each mode) follow the error policy against the
selected entry point; for a Templated-Density model so do `log_prob`, `log_prob_propto`
(on vectors with at least `num_params_r` entries) and `log_prob_grad` (on vectors of
length `num_params_r`) against the density call at the scalar type they use.  The
policy: an object thrown by the entry point is thrown on as it is, no value being
returned; when the entry point returns (and, for the gradient, the sweep does not
raise) the evaluator returns; and the world left is the one the single call of the
entry point left, possibly recovered. -/
theorem error_policy_propagates_unchanged (propto jacobian : Bool) (mv : model_base_interface) (mt : templated_model)
    (params_r : List ℚ) (params_i : List Int) (gradient : List ℚ) (msgs : ostream_ptr)
    (w : World) :
    (propagates (mv.entry_point propto jacobian params_r params_i msgs w)
        (model.log_prob propto jacobian (Model.derived_interface mv) params_r params_i msgs w)
      ∧ propagates (mv.entry_point true jacobian params_r params_i msgs w)
        (model.log_prob_propto jacobian (Model.derived_interface mv) params_r params_i msgs w)
      ∧ propagates (mv.entry_point_eigen true jacobian params_r msgs w)
        (model.log_prob_propto_eigen jacobian (Model.derived_interface mv) params_r msgs w)
      ∧ propagates (mv.log_prob_grad params_r gradient propto jacobian msgs w)
        (model.log_prob_grad propto jacobian (Model.derived_interface mv) params_r params_i
          gradient msgs w)
      ∧ propagates (mv.log_prob_grad_eigen params_r gradient propto jacobian msgs w)
        (model.log_prob_grad_eigen propto jacobian (Model.derived_interface mv) params_r
          gradient msgs w))
    ∧ propagates (mt.log_prob_double propto jacobian params_r params_i msgs w)
        (model.log_prob propto jacobian (Model.templated mt) params_r params_i msgs w)
    ∧ (mt.num_params_r ≤ params_r.length →
        propagates
          (mt.log_prob_var true jacobian ((params_r.take mt.num_params_r).map leaf_var)
            params_i msgs
            { w with arena := w.arena ++ (params_r.take mt.num_params_r).map vari.leaf })
          (model.log_prob_propto jacobian (Model.templated mt) params_r params_i msgs w)
        ∧ propagates
          (mt.log_prob_var true jacobian ((params_r.take mt.num_params_r).map leaf_var) []
            msgs { w with arena := w.arena ++ (params_r.take mt.num_params_r).map vari.leaf })
          (model.log_prob_propto_eigen jacobian (Model.templated mt) params_r msgs w))
    ∧ (params_r.length = mt.num_params_r →
        propagates_grad
          (mt.log_prob_var propto jacobian (params_r.map leaf_var) params_i msgs
            { w with arena := w.arena ++ params_r.map vari.leaf })
          (model.log_prob_grad propto jacobian (Model.templated mt) params_r params_i gradient
            msgs w)
        ∧ propagates_grad
          (mt.log_prob_var_eigen propto jacobian (params_r.map leaf_var) msgs
            { w with arena := w.arena ++ params_r.map vari.leaf })
          (model.log_prob_grad_eigen propto jacobian (Model.templated mt) params_r gradient
            msgs w)) := by
  refine ⟨⟨?_, ?_, ?_, propagates_self _, propagates_self _⟩, propagates_self _, ?_, ?_⟩
  · have e : model.log_prob propto jacobian (Model.derived_interface mv) params_r params_i msgs
        = mv.entry_point propto jacobian params_r params_i msgs := by
      cases propto <;> cases jacobian <;> rfl
    rw [e]
    exact propagates_self _
  · have e : model.log_prob_propto jacobian (Model.derived_interface mv) params_r params_i msgs
        = mv.entry_point true jacobian params_r params_i msgs := by
      cases jacobian <;> rfl
    rw [e]
    exact propagates_self _
  · have e : model.log_prob_propto_eigen jacobian (Model.derived_interface mv) params_r msgs
        = mv.entry_point_eigen true jacobian params_r msgs := by
      cases jacobian <;> rfl
    rw [e]
    exact propagates_self _
  · intro h
    constructor
    · have e1 : model.log_prob_propto jacobian (Model.templated mt) params_r params_i msgs w
          = _ := log_prob_propto_impl_eq jacobian mt params_r params_i msgs w h
      rw [e1, log_prob_var_call]
      exact propagates_propto _ _
    · have e1 : model.log_prob_propto_eigen jacobian (Model.templated mt) params_r msgs w
          = _ := log_prob_propto_impl_eigen_eq jacobian mt params_r msgs w h
      rw [e1, log_prob_var_call]
      exact propagates_propto _ _
  · intro h
    constructor
    · have e1 : model.log_prob_grad propto jacobian (Model.templated mt) params_r params_i
          gradient msgs w = _ :=
        log_prob_grad_impl_eq propto jacobian mt params_r params_i gradient msgs w h
      rw [e1, log_prob_var_call]
      exact propagates_grad_outcome _ _ _
    · have e1 : model.log_prob_grad_eigen propto jacobian (Model.templated mt) params_r
          gradient msgs w = _ :=
        log_prob_grad_impl_eigen_eq propto jacobian mt params_r gradient msgs w h
      rw [e1, log_prob_var_eigen_call]
      exact propagates_grad_outcome _ _ _

/-- C11 (amended), instance: `threshold_model` at `(-1)`, where the density throws
`std::domain_error`. -/
theorem error_policy_propagates_unchanged_witness :
    ((threshold_model (exception.domain_error "x is negative")).num_params_r ≤ ([-1] : List ℚ).length
      ∧ ([-1] : List ℚ).length = (threshold_model (exception.domain_error "x is negative")).num_params_r)
    ∧ (propagates
        ((threshold_model (exception.domain_error "x is negative")).log_prob_var true true ((([-1] : List ℚ).take (threshold_model (exception.domain_error "x is negative")).num_params_r).map leaf_var)
          [] none
          { World.empty with arena := World.empty.arena
              ++ (([-1] : List ℚ).take (threshold_model (exception.domain_error "x is negative")).num_params_r).map vari.leaf })
        (model.log_prob_propto true (Model.templated (threshold_model (exception.domain_error "x is negative"))) [-1] [] none World.empty)
      ∧ propagates
        ((threshold_model (exception.domain_error "x is negative")).log_prob_var true true ((([-1] : List ℚ).take (threshold_model (exception.domain_error "x is negative")).num_params_r).map leaf_var)
          [] none
          { World.empty with arena := World.empty.arena
              ++ (([-1] : List ℚ).take (threshold_model (exception.domain_error "x is negative")).num_params_r).map vari.leaf })
        (model.log_prob_propto_eigen true (Model.templated (threshold_model (exception.domain_error "x is negative"))) [-1] none World.empty))
    ∧ (propagates_grad
        ((threshold_model (exception.domain_error "x is negative")).log_prob_var true true (([-1] : List ℚ).map leaf_var) [] none
          { World.empty with arena := World.empty.arena ++ ([-1] : List ℚ).map vari.leaf })
        (model.log_prob_grad true true (Model.templated (threshold_model (exception.domain_error "x is negative"))) [-1] [] [] none World.empty)
      ∧ propagates_grad
        ((threshold_model (exception.domain_error "x is negative")).log_prob_var_eigen true true (([-1] : List ℚ).map leaf_var) none
          { World.empty with arena := World.empty.arena ++ ([-1] : List ℚ).map vari.leaf })
        (model.log_prob_grad_eigen true true (Model.templated (threshold_model (exception.domain_error "x is negative"))) [-1] [] none
          World.empty)) :=
  ⟨⟨by decide, rfl⟩,
    (error_policy_propagates_unchanged true true (mock_model 17) (threshold_model (exception.domain_error "x is negative")) [-1] [] [] none
      World.empty).2.2.1 (by decide),
    (error_policy_propagates_unchanged true true (mock_model 17) (threshold_model (exception.domain_error "x is negative")) [-1] [] [] none
      World.empty).2.2.2 rfl⟩

/-! ### `gradient` with a logger -/

/-- The statement `if (ss.str().length() > 0) logger.info(ss);` followed by `k`. -/
theorem flush_eq (ss : Nat) {α : Type} (k : Eff α) (w : World) :
    (do
      if (← stringstream.str ss).length > 0 then
        logger.info ss
      k : Eff α) w = k (w.flushed ss) := by
  simp only [Eff.bind_eq, Eff.seq, stringstream.str, World.flushed]
  by_cases h : (w.streams ss).length > 0
  · simp [h, logger.info, Eff.seq]
  · simp [h, Eff.pure_eq, Eff.ret, Eff.seq]

/-- The try block of the logger overloads, its handler and the flush that follows it. -/
theorem try_flush_eq (ss : Nat) (body : Eff (ℚ × List ℚ)) (w0 : World) :
    (do
      let r ← Eff.try_catch_std body
        (fun e => do
          if (← stringstream.str ss).length > 0 then
            logger.info ss
          Eff.raise e)
      if (← stringstream.str ss).length > 0 then
        logger.info ss
      pure r : Eff (ℚ × List ℚ)) w0
    = (match body w0 with
      | Res.ret a w1 => Res.ret a (w1.flushed ss)
      | Res.thrown e w1 =>
          if e.is_std_exception then Res.thrown e (w1.flushed ss) else Res.thrown e w1
      | Res.undefined => Res.undefined) := by
  rw [Eff.bind_eq]
  unfold Eff.seq Eff.try_catch_std
  cases hb : body w0 with
  | ret a w1 =>
    simp only []
    rw [flush_eq]
    rfl
  | thrown e w1 =>
    cases hs : e.is_std_exception
    · simp [hs]
    · simp only [hs, if_true]
      rw [flush_eq]
      rfl
  | undefined => rfl

/-- The logger overload of `gradient` in terms of the overload with a message stream,
called on a new stream. -/
theorem gradient_logger_eq (M : Model) (x grad_f : List ℚ) (w : World) :
    model.gradient_logger M x grad_f w
      = (match model.gradient M x grad_f (some w.next_stream) w.with_new_stream with
        | Res.ret a w1 => Res.ret a (w1.flushed w.next_stream)
        | Res.thrown e w1 =>
            if e.is_std_exception then Res.thrown e (w1.flushed w.next_stream)
            else Res.thrown e w1
        | Res.undefined => Res.undefined) := by
  cases M with
  | templated m =>
    show gradient_impl_logger m x grad_f w = _
    unfold gradient_impl_logger
    rw [Eff.bind_eq]
    unfold Eff.seq
    simp only [stringstream.ctor]
    rw [try_flush_eq]
    rfl
  | derived_interface m =>
    show GradientHelper_interface.gradient_logger m x grad_f w = _
    unfold GradientHelper_interface.gradient_logger
    rw [Eff.bind_eq]
    unfold Eff.seq
    simp only [stringstream.ctor]
    rw [try_flush_eq]
    rfl


/-- C12: when the evaluation, run on the new capture stream, returns `a` and leaves
the world `w1`, `gradient(model, x, f, grad_f, logger)` returns `a`, and the calls
on the logger are those present in `w1` followed by exactly one `info` call with the
captured text when that text is non-empty, and by no call at all when it is empty;
streams and arena are as the evaluation left them.  For either strategy. -/
theorem gradient_logger_flushes_on_success (M : Model) (x grad_f : List ℚ) (w w1 : World) (a : ℚ × List ℚ)
    (h : model.gradient M x grad_f (some w.next_stream) w.with_new_stream = Res.ret a w1) :
    ∃ w2, model.gradient_logger M x grad_f w = Res.ret a w2
      ∧ w2.logger_calls = w1.logger_calls ++
          (if (w1.streams w.next_stream).length > 0
            then [(log_level.info, w1.streams w.next_stream)] else [])
      ∧ w2.streams = w1.streams ∧ w2.arena = w1.arena := by
  refine ⟨w1.flushed w.next_stream, ?_, ?_, ?_, ?_⟩
  · rw [gradient_logger_eq, h]
  all_goals
    unfold World.flushed
    by_cases hl : (w1.streams w.next_stream).length > 0 <;> simp [hl]

/-- C12, instance: `talking_model "hello"`, which returns: one `info` call with
"hello". -/
theorem gradient_logger_flushes_on_success_witness :
    model.gradient (Model.derived_interface (talking_model "hello" none)) [0] []
        (some World.empty.next_stream) World.empty.with_new_stream
      = Res.ret (0, []) (World.empty.with_new_stream.write (some 0) "hello")
    ∧ ∃ w2, model.gradient_logger (Model.derived_interface (talking_model "hello" none)) [0] []
          World.empty = Res.ret (0, []) w2
      ∧ w2.logger_calls = [(log_level.info, "hello")] := by
  obtain ⟨w2, h1, h2, _, _⟩ := gradient_logger_flushes_on_success
    (Model.derived_interface (talking_model "hello" none)) [0] [] World.empty
    (World.empty.with_new_stream.write (some 0) "hello") (0, []) rfl
  refine ⟨rfl, w2, h1, ?_⟩
  rw [h2]
  simp [World.write, World.with_new_stream, World.empty]
  decide

/-- The overload of `gradient` with a message stream on `talking_model`. -/
theorem talking_gradient (text : String) (outcome : Option exception) (x g : List ℚ)
    (msgs : ostream_ptr) (w : World) :
    model.gradient (Model.derived_interface (talking_model text outcome)) x g msgs w
      = (match outcome with
        | some e => Res.thrown e (w.write msgs text)
        | none => Res.ret (0, g) (w.write msgs text)) := rfl

/-- C13 (as stated, refuted): `talking_model "warning"` throwing an object that is not
a `std::exception`: the logger overload of `gradient` lets the object through, the
capture stream holds "warning", and no call was made on the logger. -/
theorem gradient_logger_drops_text_on_foreign_throw :
    (model.gradient_logger
        (Model.derived_interface (talking_model "warning" (some (exception.foreign 0)))) [0] []
        World.empty).raised = some (exception.foreign 0)
    ∧ (model.gradient_logger
        (Model.derived_interface (talking_model "warning" (some (exception.foreign 0)))) [0] []
        World.empty).world.map (fun w => w.streams 0) = some "warning"
    ∧ (model.gradient_logger
        (Model.derived_interface (talking_model "warning" (some (exception.foreign 0)))) [0] []
        World.empty).world.map World.logger_calls = some [] := by
  rw [gradient_logger_eq, talking_gradient]
  simp [exception.is_std_exception, Res.raised, Res.world, World.write, World.with_new_stream,
    World.empty]

/-- C13 (amended): when the evaluation, run on the new capture stream, throws an
object `e` derived from `std::exception` and leaves the world `w1`,
`gradient(model, x, f, grad_f, logger)` throws the same `e`, after exactly one `info`
call with the captured text when that text is non-empty and no call when it is
empty.  For either strategy. -/
theorem gradient_logger_flushes_before_rethrow (M : Model) (x grad_f : List ℚ) (w w1 : World) (e : exception)
    (h : model.gradient M x grad_f (some w.next_stream) w.with_new_stream = Res.thrown e w1)
    (hs : e.is_std_exception = true) :
    ∃ w2, model.gradient_logger M x grad_f w = Res.thrown e w2
      ∧ w2.logger_calls = w1.logger_calls ++
          (if (w1.streams w.next_stream).length > 0
            then [(log_level.info, w1.streams w.next_stream)] else [])
      ∧ w2.streams = w1.streams ∧ w2.arena = w1.arena := by
  refine ⟨w1.flushed w.next_stream, ?_, ?_, ?_, ?_⟩
  · rw [gradient_logger_eq, h]
    simp [hs]
  all_goals
    unfold World.flushed
    by_cases hl : (w1.streams w.next_stream).length > 0 <;> simp [hl]

/-- C13 (amended), instance: `talking_model "warning"` throwing `std::domain_error`. -/
theorem gradient_logger_flushes_before_rethrow_witness :
    (model.gradient
        (Model.derived_interface (talking_model "warning" (some (exception.domain_error "bad"))))
        [0] [] (some World.empty.next_stream) World.empty.with_new_stream
      = Res.thrown (exception.domain_error "bad")
          (World.empty.with_new_stream.write (some 0) "warning")
      ∧ (exception.domain_error "bad").is_std_exception = true)
    ∧ ∃ w2, model.gradient_logger
          (Model.derived_interface (talking_model "warning" (some (exception.domain_error "bad"))))
          [0] [] World.empty = Res.thrown (exception.domain_error "bad") w2
      ∧ w2.logger_calls = [(log_level.info, "warning")] := by
  obtain ⟨w2, h1, h2, _, _⟩ := gradient_logger_flushes_before_rethrow
    (Model.derived_interface (talking_model "warning" (some (exception.domain_error "bad"))))
    [0] [] World.empty (World.empty.with_new_stream.write (some 0) "warning")
    (exception.domain_error "bad") rfl rfl
  refine ⟨⟨rfl, rfl⟩, w2, h1, ?_⟩
  rw [h2]
  simp [World.write, World.with_new_stream, World.empty]
  decide

/-! ### `gradient` with and without a sink -/

/-- The dual copy built by `stan::math::gradient`. -/
theorem var_ctor_all_eq (x : List ℚ) :
    ∀ w : World, var.ctor_all x w
      = Res.ret (x.map leaf_var) { w with arena := w.arena ++ x.map vari.leaf } := by
  induction x with
  | nil => intro w; simp [var.ctor_all, Eff.pure_eq, Eff.ret]
  | cons a l ih =>
    intro w
    simp only [var.ctor_all, Eff.bind_eq, Eff.seq, var.ctor, ih, Eff.pure_eq, Eff.ret]
    simp [leaf_var]

/-- What `gradient_impl` yields, in terms of the density evaluation it performs. -/
theorem gradient_impl_numeric (m : templated_model) (x grad_f : List ℚ) (msgs : ostream_ptr)
    (w : World) :
    (gradient_impl m x grad_f msgs w).numeric
      = (m.density_var_eigen true true (x.map leaf_var) msgs.isSome).numeric x.length := by
  unfold gradient_impl math.gradient density_run.numeric
  simp only [Eff.bind_eq, Eff.seq, model_functional.ctor, Eff.pure_eq, Eff.ret,
    model_functional.apply, templated_model.log_prob_eigen, var_ctor_all_eq,
    templated_model.log_prob_var_eigen, density_run.exec]
  cases hres : (m.density_var_eigen true true (x.map leaf_var) msgs.isSome).result with
  | error e => simp [Res.numeric]
  | ok n =>
    cases hsw : n.sweep with
    | error e => simp [Res.numeric, var.val, var.grad, hsw, Eff.raise, Eff.pure_eq, Eff.ret]
    | ok adj =>
      simp [Res.numeric, var.val, var.grad, hsw, Eff.pure_eq, Eff.ret, all_leaf_vars]

/-- The logger overload yields what the evaluation on the capture stream yields. -/
theorem gradient_logger_numeric (M : Model) (x grad_f : List ℚ) (w : World) :
    (model.gradient_logger M x grad_f w).numeric
      = (model.gradient M x grad_f (some w.next_stream) w.with_new_stream).numeric := by
  rw [gradient_logger_eq]
  cases model.gradient M x grad_f (some w.next_stream) w.with_new_stream with
  | ret a w1 => rfl
  | thrown e w1 => cases hs : e.is_std_exception <;> simp [hs, Res.numeric]
  | undefined => rfl

/-- C14 (as stated, refuted): on `msgs_sensitive_model`, `gradient` with a logger
returns the value 1 and `gradient` with a null `msgs` returns the value 0. -/
theorem gradient_sink_changes_value_of_sensitive_model :
    (model.gradient_logger (Model.derived_interface msgs_sensitive_model) [0] []
        World.empty).returned = some (1, [])
    ∧ (model.gradient (Model.derived_interface msgs_sensitive_model) [0] [] none
        World.empty).returned = some (0, []) := by
  constructor
  · rw [gradient_logger_eq]
    rfl
  · rfl

/-- C14 (amended): for a model whose value, gradient and errors at `x` do not depend
on the message stream it is handed, `gradient` with a logger and `gradient` with a
null `msgs` yield the same: the same `f` and `grad_f`, or the same thrown object, or
both are undefined.  For either strategy. -/
theorem gradient_sink_does_not_change_numbers (M : Model) (x grad_f : List ℚ) (w : World) (h : M.msgs_insensitive x grad_f) :
    (model.gradient_logger M x grad_f w).numeric
      = (model.gradient M x grad_f none w).numeric := by
  rw [gradient_logger_numeric]
  cases M with
  | templated m =>
    show (gradient_impl m x grad_f _ _).numeric = (gradient_impl m x grad_f none w).numeric
    rw [gradient_impl_numeric, gradient_impl_numeric]
    unfold density_run.numeric
    rw [h (some w.next_stream).isSome (none : ostream_ptr).isSome]
  | derived_interface m =>
    exact h (some w.next_stream) none w.with_new_stream w

/-- C14 (amended), instance: `rosenbrock_model` with 2 parameters at `(1/2, 1/2)`. -/
theorem gradient_sink_does_not_change_numbers_witness :
    (Model.derived_interface (rosenbrock_model.mk 2 (fun _ => 0))).msgs_insensitive
        [1 / 2, 1 / 2] []
    ∧ (model.gradient_logger (Model.derived_interface (rosenbrock_model.mk 2 (fun _ => 0)))
          [1 / 2, 1 / 2] [] World.empty).numeric
        = (model.gradient (Model.derived_interface (rosenbrock_model.mk 2 (fun _ => 0)))
          [1 / 2, 1 / 2] [] none World.empty).numeric := by
  have h : (Model.derived_interface (rosenbrock_model.mk 2 (fun _ => 0))).msgs_insensitive
      [1 / 2, 1 / 2] [] := by
    intro msgs msgs2 w w2
    show (rosenbrock_model.log_prob_grad_eigen 2 _ [1 / 2, 1 / 2] [] true true msgs w).numeric
      = (rosenbrock_model.log_prob_grad_eigen 2 _ [1 / 2, 1 / 2] [] true true msgs2 w2).numeric
    rw [rosenbrock_log_prob_grad_eigen_closed, rosenbrock_log_prob_grad_eigen_closed]
    rfl
  exact ⟨h, gradient_sink_does_not_change_numbers _ _ _ World.empty h⟩


/-! ### The functional adapter, the Rosenbrock gradient, the parameter counts -/

/-- C15: for every Templated-Density model `m`, stream `o`, scalar type `T` and vector
`x`, constructing `model_functional(m, o)` succeeds and leaves the world as it is, and
applying it to `x` is exactly the call `m.log_prob<true, true, T>(x, o)`. -/
theorem model_functional_apply_is_density_true_true (m : templated_model) (o : ostream_ptr) (T : scalar_type) (x : List T.carrier) :
    (∀ w, model.model_functional.ctor m o w = Res.ret { model := m, o := o } w)
    ∧ (do
        let functional ← model.model_functional.ctor m o
        functional.apply T x : Eff T.carrier)
      = m.log_prob_eigen true true T x o :=
  ⟨fun _ => rfl, rfl⟩

/-- Derivative in `x` of the Rosenbrock log density, over the reals. -/
theorem rosenbrock_dx (X Y : ℝ) :
    HasDerivAt (fun t : ℝ => -(100 * (Y - t ^ 2) ^ 2 + (1 - t) ^ 2))
      (-(-4 * 100 * (Y - X * X) * X - 2 * (1 - X))) X := by
  have h1 : HasDerivAt (fun t : ℝ => Y - t ^ 2) (-(2 * X)) X := by
    simpa using (hasDerivAt_pow 2 X).const_sub Y
  have h2 : HasDerivAt (fun t : ℝ => 1 - t) (-1) X := by
    simpa using (hasDerivAt_id X).const_sub 1
  have h3 := (((h1.pow 2).const_mul 100).add (h2.pow 2)).neg
  convert h3 using 1
  simp
  ring

/-- Derivative in `y` of the Rosenbrock log density, over the reals. -/
theorem rosenbrock_dy (X Y : ℝ) :
    HasDerivAt (fun t : ℝ => -(100 * (t - X ^ 2) ^ 2 + (1 - X) ^ 2))
      (-(2 * 100 * (Y - X * X))) Y := by
  have h1 : HasDerivAt (fun t : ℝ => t - X ^ 2) 1 Y := by
    simpa using (hasDerivAt_id Y).sub_const (X ^ 2)
  have h3 := (((h1.pow 2).const_mul 100).add_const ((1 - X) ^ 2)).neg
  convert h3 using 1
  simp
  ring

/-- C18: the expressions `rosenbrock_model::log_prob_grad` evaluates for `g[0]` and
`g[1]` are, at all real `X`, `Y`, the derivatives in `x` and in `y` of
`-(100 (y - x²)² + (1 - x)²)`; and at every point `(x, y)` a vector can hold, in every
mode and for both overloads, `log_prob_grad` returns the value `f` that `log_prob`
returns, which is that density, and writes the gradient `(g0, g1)` with
`g0 = ∂f/∂x` and `g1 = ∂f/∂y`, in parameter order. -/
theorem rosenbrock_gradient_is_exact_derivative (propto jacobian : Bool) (x y : ℚ) (u : Nat → ℚ) (params_i : List Int)
    (gradient : List ℚ) (msgs : ostream_ptr) (w : World) :
    (∀ X Y : ℝ,
      HasDerivAt (fun t : ℝ => -(100 * (Y - t ^ 2) ^ 2 + (1 - t) ^ 2))
        (-(-4 * 100 * (Y - X * X) * X - 2 * (1 - X))) X
      ∧ HasDerivAt (fun t : ℝ => -(100 * (t - X ^ 2) ^ 2 + (1 - X) ^ 2))
        (-(2 * 100 * (Y - X * X))) Y)
    ∧ ∃ f g0 g1 : ℚ,
      model.log_prob_grad propto jacobian (Model.derived_interface (rosenbrock_model.mk 2 u))
          [x, y] params_i gradient msgs w = Res.ret (f, [g0, g1]) w
      ∧ model.log_prob_grad_eigen propto jacobian
          (Model.derived_interface (rosenbrock_model.mk 2 u)) [x, y] gradient msgs w
        = Res.ret (f, [g0, g1]) w
      ∧ (rosenbrock_model.mk 2 u).log_prob [x, y] msgs w = Res.ret f w
      ∧ (f : ℝ) = -(100 * ((y : ℝ) - (x : ℝ) ^ 2) ^ 2 + (1 - (x : ℝ)) ^ 2)
      ∧ HasDerivAt (fun t : ℝ => -(100 * ((y : ℝ) - t ^ 2) ^ 2 + (1 - t) ^ 2)) (g0 : ℝ) (x : ℝ)
      ∧ HasDerivAt (fun t : ℝ => -(100 * (t - (x : ℝ) ^ 2) ^ 2 + (1 - (x : ℝ)) ^ 2)) (g1 : ℝ)
          (y : ℝ) := by
  refine ⟨fun X Y => ⟨rosenbrock_dx X Y, rosenbrock_dy X Y⟩,
    -(100 * (y - x * x) * (y - x * x) + (1 - x) * (1 - x)),
    -(-4 * 100 * (y - x * x) * x - 2 * (1 - x)), -(2 * 100 * (y - x * x)), ?_, ?_, ?_, ?_, ?_, ?_⟩
  · show rosenbrock_model.log_prob_grad 2 [x, y] gradient propto jacobian msgs w = _
    rw [rosenbrock_log_prob_grad_closed]
    rfl
  · show rosenbrock_model.log_prob_grad_eigen 2 u [x, y] gradient propto jacobian msgs w = _
    rw [rosenbrock_log_prob_grad_eigen_closed]
    rfl
  · show rosenbrock_model.log_prob [x, y] msgs w = _
    rw [rosenbrock_log_prob_closed]
    rfl
  · push_cast
    ring
  · have h := rosenbrock_dx (x : ℝ) (y : ℝ)
    convert h using 1
    push_cast
    ring
  · have h := rosenbrock_dy (x : ℝ) (y : ℝ)
    convert h using 1
    push_cast
    ring

/-- C19: a model constructed with `model_base_interface(n)` reports
`num_params_r() = n` and `num_params_i() = 0`. -/
theorem model_base_interface_param_counts (n : Nat) (m : model_base_interface) (h : m.num_params_r = n) :
    m.base.num_params_r = n ∧ m.base.num_params_i = 0 :=
  ⟨h, rfl⟩

/-- C19, instance: `mock_model` constructed with 17. -/
theorem model_base_interface_param_counts_witness :
    (mock_model 17).num_params_r = 17
    ∧ (mock_model 17).base.num_params_r = 17 ∧ (mock_model 17).base.num_params_i = 0 :=
  ⟨rfl, model_base_interface_param_counts 17 (mock_model 17) rfl⟩

/-- C20: each overload of `model_base_interface` that takes `params_i` (`log_prob`,
`log_prob_jacobian`, `log_prob_propto`, `log_prob_propto_jacobian`, `transform_inits`,
`write_array`) is exactly the corresponding overload without `params_i`, so two
`params_i` vectors give the same; through them `mock_model` returns 1, 2, 3, 4. -/
theorem params_i_overloads_ignore_params_i (m : model_base_interface) (params_r : List ℚ) (params_i params_i2 : List Int)
    (msgs : ostream_ptr) (context : var_context) (rng : ecuyer1988)
    (params_r_constrained : List ℚ) (include_tparams include_gqs : Bool) :
    (m.log_prob_i params_r params_i msgs = m.log_prob params_r msgs
      ∧ m.log_prob_jacobian_i params_r params_i msgs = m.log_prob_jacobian params_r msgs
      ∧ m.log_prob_propto_i params_r params_i msgs = m.log_prob_propto params_r msgs
      ∧ m.log_prob_propto_jacobian_i params_r params_i msgs
        = m.log_prob_propto_jacobian params_r msgs
      ∧ m.transform_inits_i context params_i params_r msgs
        = m.transform_inits context params_r msgs
      ∧ m.write_array_i rng params_r params_i params_r_constrained include_tparams include_gqs
          msgs
        = m.write_array rng params_r params_r_constrained include_tparams include_gqs msgs)
    ∧ (m.log_prob_i params_r params_i msgs = m.log_prob_i params_r params_i2 msgs
      ∧ m.log_prob_jacobian_i params_r params_i msgs
        = m.log_prob_jacobian_i params_r params_i2 msgs
      ∧ m.log_prob_propto_i params_r params_i msgs
        = m.log_prob_propto_i params_r params_i2 msgs
      ∧ m.log_prob_propto_jacobian_i params_r params_i msgs
        = m.log_prob_propto_jacobian_i params_r params_i2 msgs
      ∧ m.transform_inits_i context params_i params_r msgs
        = m.transform_inits_i context params_i2 params_r msgs
      ∧ m.write_array_i rng params_r params_i params_r_constrained include_tparams include_gqs
          msgs
        = m.write_array_i rng params_r params_i2 params_r_constrained include_tparams
          include_gqs msgs)
    ∧ ((mock_model 17).log_prob_i params_r params_i msgs = Eff.ret 1
      ∧ (mock_model 17).log_prob_jacobian_i params_r params_i msgs = Eff.ret 2
      ∧ (mock_model 17).log_prob_propto_i params_r params_i msgs = Eff.ret 3
      ∧ (mock_model 17).log_prob_propto_jacobian_i params_r params_i msgs = Eff.ret 4) :=
  ⟨⟨rfl, rfl, rfl, rfl, rfl, rfl⟩, ⟨rfl, rfl, rfl, rfl, rfl, rfl⟩, ⟨rfl, rfl, rfl, rfl⟩⟩

/-! ### The proportional log-density evaluator on a Virtual-Interface model -/

/-- C21: on a model derived from `model_base_interface`, `log_prob_propto<jacobian>`
is exactly the call of `log_prob_propto_jacobian` when `jacobian` is true and of
`log_prob_propto` when it is false, on the entry point of the representation of the
argument (flat with `params_i`, or Eigen), with the same `params_r` and `msgs`. -/
theorem log_prob_propto_interface_selects_entry_point (m : model_base_interface)
    (params_r : List ℚ) (params_i : List Int) (msgs : ostream_ptr) :
    (model.log_prob_propto true (Model.derived_interface m) params_r params_i msgs
        = m.log_prob_propto_jacobian_i params_r params_i msgs
      ∧ model.log_prob_propto false (Model.derived_interface m) params_r params_i msgs
        = m.log_prob_propto_i params_r params_i msgs)
    ∧ (model.log_prob_propto_eigen true (Model.derived_interface m) params_r msgs
        = m.log_prob_propto_jacobian_eigen params_r msgs
      ∧ model.log_prob_propto_eigen false (Model.derived_interface m) params_r msgs
        = m.log_prob_propto_eigen params_r msgs)
    ∧ (m.log_prob_propto_jacobian_i params_r params_i msgs
        = m.log_prob_propto_jacobian params_r msgs
      ∧ m.log_prob_propto_i params_r params_i msgs = m.log_prob_propto params_r msgs) :=
  ⟨⟨rfl, rfl⟩, ⟨rfl, rfl⟩, ⟨rfl, rfl⟩⟩

/-- C22: on a model derived from `model_base_interface`, each of `log_prob`,
`log_prob_propto` and `log_prob_grad` (flat and Eigen) run from a world `w` is the
run of the model's own entry point from `w` with the caller's `msgs`; so, when the
entry point returns `a` and leaves the world `w1`, the dispatcher returns `a` and
leaves `w1`: the arena, the count of recovery operations, the streams and the stream
addresses are the ones the entry point left. -/
theorem interface_path_leaves_world_of_entry_point (m : model_base_interface)
    (propto jacobian : Bool) (params_r gradient : List ℚ) (params_i : List Int)
    (msgs : ostream_ptr) (w : World) :
    (model.log_prob propto jacobian (Model.derived_interface m) params_r params_i msgs w
        = m.entry_point propto jacobian params_r params_i msgs w
      ∧ model.log_prob_propto jacobian (Model.derived_interface m) params_r params_i msgs w
        = m.entry_point true jacobian params_r params_i msgs w
      ∧ model.log_prob_propto_eigen jacobian (Model.derived_interface m) params_r msgs w
        = m.entry_point_eigen true jacobian params_r msgs w
      ∧ model.log_prob_grad propto jacobian (Model.derived_interface m) params_r params_i
          gradient msgs w
        = m.log_prob_grad params_r gradient propto jacobian msgs w
      ∧ model.log_prob_grad_eigen propto jacobian (Model.derived_interface m) params_r
          gradient msgs w
        = m.log_prob_grad_eigen params_r gradient propto jacobian msgs w)
    ∧ (∀ a w1, m.entry_point propto jacobian params_r params_i msgs w = Res.ret a w1 →
        ∃ w2, model.log_prob propto jacobian (Model.derived_interface m) params_r params_i
            msgs w = Res.ret a w2
          ∧ w2.arena = w1.arena ∧ w2.recover_calls = w1.recover_calls
          ∧ w2.streams = w1.streams ∧ w2.next_stream = w1.next_stream)
    ∧ (∀ a w1, m.entry_point true jacobian params_r params_i msgs w = Res.ret a w1 →
        ∃ w2, model.log_prob_propto jacobian (Model.derived_interface m) params_r params_i
            msgs w = Res.ret a w2
          ∧ w2.arena = w1.arena ∧ w2.recover_calls = w1.recover_calls
          ∧ w2.streams = w1.streams ∧ w2.next_stream = w1.next_stream)
    ∧ (∀ a w1, m.entry_point_eigen true jacobian params_r msgs w = Res.ret a w1 →
        ∃ w2, model.log_prob_propto_eigen jacobian (Model.derived_interface m) params_r
            msgs w = Res.ret a w2
          ∧ w2.arena = w1.arena ∧ w2.recover_calls = w1.recover_calls
          ∧ w2.streams = w1.streams ∧ w2.next_stream = w1.next_stream)
    ∧ (∀ a w1, m.log_prob_grad params_r gradient propto jacobian msgs w = Res.ret a w1 →
        ∃ w2, model.log_prob_grad propto jacobian (Model.derived_interface m) params_r
            params_i gradient msgs w = Res.ret a w2
          ∧ w2.arena = w1.arena ∧ w2.recover_calls = w1.recover_calls
          ∧ w2.streams = w1.streams ∧ w2.next_stream = w1.next_stream)
    ∧ (∀ a w1,
        m.log_prob_grad_eigen params_r gradient propto jacobian msgs w = Res.ret a w1 →
        ∃ w2, model.log_prob_grad_eigen propto jacobian (Model.derived_interface m) params_r
            gradient msgs w = Res.ret a w2
          ∧ w2.arena = w1.arena ∧ w2.recover_calls = w1.recover_calls
          ∧ w2.streams = w1.streams ∧ w2.next_stream = w1.next_stream) := by
  have h1 : model.log_prob propto jacobian (Model.derived_interface m) params_r params_i
      msgs w = m.entry_point propto jacobian params_r params_i msgs w := by
    cases propto <;> cases jacobian <;> rfl
  have h2 : model.log_prob_propto jacobian (Model.derived_interface m) params_r params_i
      msgs w = m.entry_point true jacobian params_r params_i msgs w := by
    cases jacobian <;> rfl
  have h3 : model.log_prob_propto_eigen jacobian (Model.derived_interface m) params_r
      msgs w = m.entry_point_eigen true jacobian params_r msgs w := by
    cases jacobian <;> rfl
  refine ⟨⟨h1, h2, h3, rfl, rfl⟩, ?_, ?_, ?_, ?_, ?_⟩
  · intro a w1 h
    exact ⟨w1, h1.trans h, rfl, rfl, rfl, rfl⟩
  · intro a w1 h
    exact ⟨w1, h2.trans h, rfl, rfl, rfl, rfl⟩
  · intro a w1 h
    exact ⟨w1, h3.trans h, rfl, rfl, rfl, rfl⟩
  · intro a w1 h
    exact ⟨w1, h, rfl, rfl, rfl, rfl⟩
  · intro a w1 h
    exact ⟨w1, h, rfl, rfl, rfl, rfl⟩

/-- C22, instance: `talking_model` returns 0 after it wrote to the caller's stream 3;
through `log_prob` the arena of the caller (one node) is left as it was, no recovery
operation was counted and the text is in stream 3. -/
theorem interface_path_leaves_world_of_entry_point_witness :
    ∃ w2, model.log_prob false false (Model.derived_interface (talking_model "hello" none))
        [1] [] (some 3) { World.empty with arena := [vari.leaf 5] } = Res.ret 0 w2
      ∧ w2.arena
        = ({ World.empty with arena := [vari.leaf 5] } : World).arena
      ∧ w2.recover_calls = 0
      ∧ w2.streams 3 = "hello" := by
  obtain ⟨w2, h, ha, hr, hs, _⟩ :=
    (interface_path_leaves_world_of_entry_point (talking_model "hello" none) false false [1] []
      [] (some 3) { World.empty with arena := [vari.leaf 5] }).2.1 0
      (({ World.empty with arena := [vari.leaf 5] } : World).write (some 3) "hello") rfl
  refine ⟨w2, h, ha, hr, ?_⟩
  rw [hs]
  simp [World.write, World.empty]

/-! ### The selection of the implementation -/

/-- C23: for every model type, the helper templates behind `log_prob`,
`log_prob_propto`, `log_prob_grad`, `gradient` and `model_functional` select the same
implementation, the Virtual-Interface one exactly when the type derives from
`model_base_interface` and the Templated-Density one otherwise; the selection is a
function of the model type.  On a model value, each dispatcher runs the
implementation selected for its type. -/
theorem strategy_selected_by_model_type (T : model_type) :
    (LogProbHelper.selected T = Helper.selected T
      ∧ LogProbHelper.selected_propto T = Helper.selected T
      ∧ GradientHelper.selected T = Helper.selected T
      ∧ model_functional.selected T = Helper.selected T)
    ∧ (Helper.selected T = strategy.virtual_interface
        ↔ T.is_base_of_model_base_interface = true)
    ∧ (Helper.selected T = strategy.templated_density
        ↔ T.is_base_of_model_base_interface = false)
    ∧ (∀ m : model_base_interface,
        Helper.selected (Model.derived_interface m).model_type = strategy.virtual_interface
        ∧ (∀ p j params_r params_i msgs,
            model.log_prob p j (Model.derived_interface m) params_r params_i msgs
              = LogProbHelper_interface.log_prob p j m params_r params_i msgs)
        ∧ (∀ j params_r params_i msgs,
            model.log_prob_propto j (Model.derived_interface m) params_r params_i msgs
              = LogProbHelper_interface.log_prob_propto j m params_r params_i msgs)
        ∧ (∀ p j params_r params_i gradient msgs,
            model.log_prob_grad p j (Model.derived_interface m) params_r params_i gradient
                msgs
              = Helper_interface.log_prob_grad p j m params_r params_i gradient msgs)
        ∧ (∀ x grad_f msgs,
            model.gradient (Model.derived_interface m) x grad_f msgs
              = GradientHelper_interface.gradient m x grad_f msgs))
    ∧ (∀ m : templated_model,
        Helper.selected (Model.templated m).model_type = strategy.templated_density
        ∧ (∀ p j params_r params_i msgs,
            model.log_prob p j (Model.templated m) params_r params_i msgs
              = LogProbHelper.log_prob p j m params_r params_i msgs)
        ∧ (∀ j params_r params_i msgs,
            model.log_prob_propto j (Model.templated m) params_r params_i msgs
              = LogProbHelper.log_prob_propto j m params_r params_i msgs)
        ∧ (∀ p j params_r params_i gradient msgs,
            model.log_prob_grad p j (Model.templated m) params_r params_i gradient msgs
              = Helper.log_prob_grad p j m params_r params_i gradient msgs)
        ∧ (∀ x grad_f msgs,
            model.gradient (Model.templated m) x grad_f msgs
              = GradientHelper.gradient m x grad_f msgs)) := by
  refine ⟨⟨rfl, rfl, rfl, rfl⟩, ?_, ?_, ?_, ?_⟩
  · cases T with
    | mk b => cases b <;> simp [Helper.selected, strategy.select]
  · cases T with
    | mk b => cases b <;> simp [Helper.selected, strategy.select]
  · intro m
    exact ⟨rfl, fun _ _ _ _ _ => rfl, fun _ _ _ _ => rfl, fun _ _ _ _ _ _ => rfl,
      fun _ _ _ => rfl⟩
  · intro m
    exact ⟨rfl, fun _ _ _ _ _ => rfl, fun _ _ _ _ => rfl, fun _ _ _ _ _ _ => rfl,
      fun _ _ _ => rfl⟩

/-! ### The gradient buffer -/

/-- On a Templated-Density model and a flat parameter vector of length
`num_params_r`, the value `log_prob_grad<true, jacobian>` returns is the value
`log_prob_propto<jacobian>` returns. -/
theorem log_prob_grad_value_eq_log_prob_propto (jacobian : Bool) (m : templated_model)
    (params_r : List ℚ) (params_i : List Int) (gradient : List ℚ) (msgs : ostream_ptr)
    (w w1 : World) (v : ℚ) (g : List ℚ) (h : params_r.length = m.num_params_r)
    (hret : model.log_prob_grad true jacobian (Model.templated m) params_r params_i gradient
      msgs w = Res.ret (v, g) w1) :
    model.log_prob_propto jacobian (Model.templated m) params_r params_i msgs w
      = Res.ret v w1 := by
  have hg : model.log_prob_grad true jacobian (Model.templated m) params_r params_i gradient
      msgs w = log_prob_grad_impl true jacobian m params_r params_i gradient msgs w := rfl
  have hp : model.log_prob_propto jacobian (Model.templated m) params_r params_i msgs w
      = log_prob_propto_impl jacobian m params_r params_i msgs w := rfl
  rw [hg, log_prob_grad_impl_eq true jacobian m params_r params_i gradient msgs w h] at hret
  rw [hp, log_prob_propto_impl_eq jacobian m params_r params_i msgs w (le_of_eq h.symm),
    ← h, List.take_length]
  cases hr : (m.density_var true jacobian (params_r.map leaf_var) params_i msgs.isSome).result
    with
  | error e =>
    exfalso
    cases hs : e.is_std_exception <;> simp [grad_outcome, hr, hs] at hret
  | ok n =>
    cases hsw : n.sweep with
    | error e =>
      exfalso
      cases hs : e.is_std_exception <;> simp [grad_outcome, hr, hsw, hs] at hret
    | ok adj =>
      simp only [grad_outcome, hr, hsw, Res.ret.injEq, Prod.mk.injEq] at hret
      obtain ⟨⟨hv, _⟩, hw⟩ := hret
      simp only [propto_outcome, hr, hv, hw]

/-- C25 (code evaluated at the failing input): `first_entry_model` has one parameter
and reads the first entry only.  On the flat vector `(1, 7)`,
`log_prob_propto<true>` returns `-1/2`, whereas `log_prob_grad<true, true>` hands the
density a dual vector of two entries whose second handle is null and the reverse
sweep reads an adjoint through it: its behaviour is undefined and it returns no
value. -/
theorem log_prob_grad_undefined_on_excess_input :
    first_entry_model.num_params_r = 1
    ∧ (model.log_prob_propto true (Model.templated first_entry_model) [1, 7] [] none
        World.empty).returned = some (-1 / 2)
    ∧ model.log_prob_grad true true (Model.templated first_entry_model) [1, 7] [] [] none
        World.empty = Res.undefined
    ∧ (model.log_prob_grad true true (Model.templated first_entry_model) [1, 7] [] [] none
        World.empty).returned = none := by
  have hp : model.log_prob_propto true (Model.templated first_entry_model) [1, 7] [] none
      World.empty = log_prob_propto_impl true first_entry_model [1, 7] [] none World.empty :=
    rfl
  have hu : model.log_prob_grad true true (Model.templated first_entry_model) [1, 7] [] []
      none World.empty = Res.undefined := rfl
  refine ⟨rfl, ?_, hu, by rw [hu]; rfl⟩
  rw [hp, log_prob_propto_impl_eq true first_entry_model [1, 7] [] none World.empty
    (by decide)]
  simp [propto_outcome, first_entry_model, leaf_var, vari.leaf, Res.returned]

/-! ### The arena after a call -/

/-- The proportional evaluator on a Templated-Density model (either overload) from
any world: its outcome in terms of the density evaluation. -/
theorem log_prob_propto_overload_eq (dense jacobian : Bool) (m : templated_model)
    (params_r : List ℚ) (params_i : List Int) (msgs : ostream_ptr) (w : World)
    (h : m.num_params_r ≤ params_r.length) :
    ∃ run, model.log_prob_propto_overload dense jacobian (Model.templated m) params_r
        params_i msgs w
      = propto_outcome run
          (world_after_density w (params_r.take m.num_params_r) run msgs) := by
  cases dense
  · exact ⟨_, log_prob_propto_impl_eq jacobian m params_r params_i msgs w h⟩
  · exact ⟨_, log_prob_propto_impl_eigen_eq jacobian m params_r msgs w h⟩

/-- C26 (as stated, refuted): from an arena that holds one node, the successful calls
of `log_prob_grad` and of `log_prob_propto` on `threshold_model` at `(1)` leave an
arena of size 0, not 1. -/
theorem arena_size_not_restored_from_nonempty_arena :
    ({ World.empty with arena := [vari.leaf 5] } : World).arena.length = 1
    ∧ (model.log_prob_grad_overload false true true
        (Model.templated (threshold_model (exception.domain_error "negative"))) [1] [] []
        none { World.empty with arena := [vari.leaf 5] }).returned = some (-1 / 2, [-1])
    ∧ (model.log_prob_grad_overload false true true
        (Model.templated (threshold_model (exception.domain_error "negative"))) [1] [] []
        none { World.empty with arena := [vari.leaf 5] }).arena_size = some 0
    ∧ (model.log_prob_propto_overload false true
        (Model.templated (threshold_model (exception.domain_error "negative"))) [1] []
        none { World.empty with arena := [vari.leaf 5] }).returned = some (-1 / 2)
    ∧ (model.log_prob_propto_overload false true
        (Model.templated (threshold_model (exception.domain_error "negative"))) [1] []
        none { World.empty with arena := [vari.leaf 5] }).arena_size = some 0 := by
  have hp : model.log_prob_propto_overload false true
      (Model.templated (threshold_model (exception.domain_error "negative"))) [1] []
      none { World.empty with arena := [vari.leaf 5] }
      = log_prob_propto_impl true (threshold_model (exception.domain_error "negative")) [1]
          [] none { World.empty with arena := [vari.leaf 5] } := rfl
  have h10 : ¬ ((1 : ℚ) < 0) := by norm_num
  refine ⟨rfl, ?_, ?_, ?_, ?_⟩
  · rw [threshold_call_pos]; rfl
  · rw [threshold_call_pos]; rfl
  · rw [hp, log_prob_propto_impl_eq true _ [1] [] none _ (by decide)]
    simp [propto_outcome, threshold_model, leaf_var, vari.leaf, Res.returned, h10]
  · rw [hp, log_prob_propto_impl_eq true _ [1] [] none _ (by decide)]
    simp [propto_outcome, threshold_model, leaf_var, vari.leaf, Res.arena_size, Res.world,
      recovered, h10]

/-- C26 (amended): on a Templated-Density model and from any initial arena, a call
of `log_prob_grad` (either overload) on a parameter vector of length `num_params_r`
that does not let an object through that is not derived from `std::exception` is
defined and leaves the arena empty, and so does a call of `log_prob_propto` (either
overload) on a parameter vector with at least `num_params_r` entries; hence the
arena size after such a call equals the size before it when the arena was empty
before.  Each of the two calls is taken on its own. -/
theorem arena_empty_after_call (dense propto jacobian : Bool) (m : templated_model)
    (p : List ℚ) (params_i : List Int) (gradient : List ℚ) (msgs : ostream_ptr) (w : World) :
    (p.length = m.num_params_r →
      (∀ e : exception,
        (model.log_prob_grad_overload dense propto jacobian (Model.templated m) p params_i
          gradient msgs w).raised = some e → e.is_std_exception = true) →
      (model.log_prob_grad_overload dense propto jacobian (Model.templated m) p params_i
          gradient msgs w).arena_size = some 0
      ∧ (w.arena = [] →
          (model.log_prob_grad_overload dense propto jacobian (Model.templated m) p params_i
            gradient msgs w).arena_size = some w.arena.length))
    ∧ (m.num_params_r ≤ p.length →
      (∀ e : exception,
        (model.log_prob_propto_overload dense jacobian (Model.templated m) p params_i
          msgs w).raised = some e → e.is_std_exception = true) →
      (model.log_prob_propto_overload dense jacobian (Model.templated m) p params_i
          msgs w).arena_size = some 0
      ∧ (w.arena = [] →
          (model.log_prob_propto_overload dense jacobian (Model.templated m) p params_i
            msgs w).arena_size = some w.arena.length)) := by
  constructor
  · intro h hstd_grad
    have hg : (model.log_prob_grad_overload dense propto jacobian (Model.templated m) p
        params_i gradient msgs w).arena_size = some 0 := by
      rw [log_prob_grad_overload_eq dense propto jacobian m p params_i gradient msgs w h]
        at hstd_grad ⊢
      rcases grad_outcome_world (m.run_var dense propto jacobian p params_i msgs) p.length
        (world_after_density w p (m.run_var dense propto jacobian p params_i msgs) msgs)
        with hw | ⟨e, he, hf⟩
      · simp [Res.arena_size, hw, recovered]
      · rw [hstd_grad e he] at hf
        exact absurd hf (by decide)
    refine ⟨hg, ?_⟩
    intro hw
    rw [hg, hw]
    rfl
  · intro h hstd_propto
    have hpp : (model.log_prob_propto_overload dense jacobian (Model.templated m) p params_i
        msgs w).arena_size = some 0 := by
      obtain ⟨run, hrun⟩ := log_prob_propto_overload_eq dense jacobian m p params_i msgs w h
      rw [hrun] at hstd_propto ⊢
      cases hr : run.result with
      | error e =>
        cases hs : e.is_std_exception with
        | true => simp [propto_outcome, hr, hs, Res.arena_size, Res.world, recovered]
        | false =>
          have := hstd_propto e (by simp [propto_outcome, hr, hs, Res.raised])
          rw [hs] at this
          exact absurd this (by decide)
      | ok n => simp [propto_outcome, hr, Res.arena_size, Res.world, recovered]
    refine ⟨hpp, ?_⟩
    intro hw
    rw [hpp, hw]
    rfl

/-- C26 (amended), instance: `threshold_model` throwing `std::domain_error`.  At
`(-1)`, where the calls fail, from the empty arena the arena size is 0 after
`log_prob_grad` and after `log_prob_propto`, as before them; at `(1, 7)`, which has
an excess entry, from an arena holding one node `log_prob_propto` returns and leaves
the arena empty. -/
theorem arena_empty_after_call_witness :
    (model.log_prob_grad_overload false true true
        (Model.templated (threshold_model (exception.domain_error "negative"))) [-1] [] []
        none World.empty).raised = some (exception.domain_error "negative")
    ∧ (model.log_prob_grad_overload false true true
        (Model.templated (threshold_model (exception.domain_error "negative"))) [-1] [] []
        none World.empty).arena_size = some World.empty.arena.length
    ∧ (model.log_prob_propto_overload false true
        (Model.templated (threshold_model (exception.domain_error "negative"))) [-1] []
        none World.empty).arena_size = some World.empty.arena.length
    ∧ (model.log_prob_propto_overload false true
        (Model.templated (threshold_model (exception.domain_error "negative"))) [1, 7] []
        none { World.empty with arena := [vari.leaf 5] }).returned = some (-1 / 2)
    ∧ (model.log_prob_propto_overload false true
        (Model.templated (threshold_model (exception.domain_error "negative"))) [1, 7] []
        none { World.empty with arena := [vari.leaf 5] }).arena_size = some 0 := by
  have hraise : model.log_prob_grad_overload false true true
      (Model.templated (threshold_model (exception.domain_error "negative"))) [-1] [] []
      none World.empty
      = Res.thrown (exception.domain_error "negative")
          (recovered { World.empty with arena := World.empty.arena ++ [vari.leaf (-1)] }) :=
    threshold_call_neg false (exception.domain_error "negative") [] World.empty
  have hp : model.log_prob_propto_overload false true
      (Model.templated (threshold_model (exception.domain_error "negative"))) [-1] []
      none World.empty
      = Res.thrown (exception.domain_error "negative")
          (recovered { World.empty with arena := World.empty.arena ++ [vari.leaf (-1)] }) := by
    have hp0 : model.log_prob_propto_overload false true
        (Model.templated (threshold_model (exception.domain_error "negative"))) [-1] []
        none World.empty
        = log_prob_propto_impl true (threshold_model (exception.domain_error "negative"))
            [-1] [] none World.empty := rfl
    rw [hp0, log_prob_propto_impl_eq true _ [-1] [] none _ (by decide)]
    simp [propto_outcome, threshold_model, leaf_var, vari.leaf, world_after_density,
      World.write, exception.is_std_exception, recovered]
  have h10 : ¬ ((1 : ℚ) < 0) := by norm_num
  have hlong : (model.log_prob_propto_overload false true
      (Model.templated (threshold_model (exception.domain_error "negative"))) [1, 7] []
      none { World.empty with arena := [vari.leaf 5] }).returned = some (-1 / 2) := by
    have hp0 : model.log_prob_propto_overload false true
        (Model.templated (threshold_model (exception.domain_error "negative"))) [1, 7] []
        none { World.empty with arena := [vari.leaf 5] }
        = log_prob_propto_impl true (threshold_model (exception.domain_error "negative"))
            [1, 7] [] none { World.empty with arena := [vari.leaf 5] } := rfl
    rw [hp0, log_prob_propto_impl_eq true _ [1, 7] [] none _ (by decide)]
    simp [propto_outcome, threshold_model, leaf_var, vari.leaf, Res.returned, h10]
  have key := arena_empty_after_call false true true
    (threshold_model (exception.domain_error "negative")) [-1] [] [] none World.empty
  have keylong := arena_empty_after_call false true true
    (threshold_model (exception.domain_error "negative")) [1, 7] [] [] none
    { World.empty with arena := [vari.leaf 5] }
  refine ⟨by rw [hraise]; rfl, ?_, ?_, hlong, ?_⟩
  · refine (key.1 rfl ?_).2 rfl
    intro e he
    rw [hraise] at he
    simp only [Res.raised, Option.some.injEq] at he
    subst he
    rfl
  · refine (key.2 (by decide) ?_).2 rfl
    intro e he
    rw [hp] at he
    simp only [Res.raised, Option.some.injEq] at he
    subst he
    rfl
  · refine (keylong.2 (by decide) ?_).1
    intro e he
    cases hres : model.log_prob_propto_overload false true
        (Model.templated (threshold_model (exception.domain_error "negative"))) [1, 7] []
        none { World.empty with arena := [vari.leaf 5] } with
    | ret a w1 => rw [hres] at he; simp [Res.raised] at he
    | thrown e1 w1 => rw [hres] at hlong; simp [Res.returned] at hlong
    | undefined => rw [hres] at he; simp [Res.raised] at he

/-! ### Default delegation of `model_base_interface` -/

/-- C27: on both representations, a model that does not override `log_prob_jacobian`
gets `log_prob_jacobian = log_prob`, one that does not override `log_prob_propto`
gets `log_prob_propto = log_prob`, and one that does not override
`log_prob_propto_jacobian` gets `log_prob_propto_jacobian = log_prob_jacobian` (the
virtual call, hence its override of `log_prob_jacobian` when it has one), for every
`p` and `msgs`. -/
theorem default_delegation (m : model_base_interface) (p : List ℚ) (msgs : ostream_ptr) :
    (m.override_log_prob_jacobian = none →
        m.log_prob_jacobian p msgs = m.log_prob p msgs)
    ∧ (m.override_log_prob_propto = none →
        m.log_prob_propto p msgs = m.log_prob p msgs)
    ∧ (m.override_log_prob_propto_jacobian = none →
        m.log_prob_propto_jacobian p msgs = m.log_prob_jacobian p msgs)
    ∧ (m.override_log_prob_jacobian_eigen = none →
        m.log_prob_jacobian_eigen p msgs = m.log_prob_eigen p msgs)
    ∧ (m.override_log_prob_propto_eigen = none →
        m.log_prob_propto_eigen p msgs = m.log_prob_eigen p msgs)
    ∧ (m.override_log_prob_propto_jacobian_eigen = none →
        m.log_prob_propto_jacobian_eigen p msgs = m.log_prob_jacobian_eigen p msgs)
    ∧ (∀ f, m.override_log_prob_propto_jacobian = none →
        m.override_log_prob_jacobian = some f →
        m.log_prob_propto_jacobian p msgs = f p msgs)
    ∧ (∀ f, m.override_log_prob_propto_jacobian_eigen = none →
        m.override_log_prob_jacobian_eigen = some f →
        m.log_prob_propto_jacobian_eigen p msgs = f p msgs) := by
  refine ⟨?_, ?_, ?_, ?_, ?_, ?_, ?_, ?_⟩
  · intro h; simp [model_base_interface.log_prob_jacobian, h]
  · intro h; simp [model_base_interface.log_prob_propto, h]
  · intro h; simp [model_base_interface.log_prob_propto_jacobian, h]
  · intro h; simp [model_base_interface.log_prob_jacobian_eigen, h]
  · intro h; simp [model_base_interface.log_prob_propto_eigen, h]
  · intro h; simp [model_base_interface.log_prob_propto_jacobian_eigen, h]
  · intro f h hf
    simp [model_base_interface.log_prob_propto_jacobian,
      model_base_interface.log_prob_jacobian, h, hf]
  · intro f h hf
    simp [model_base_interface.log_prob_propto_jacobian_eigen,
      model_base_interface.log_prob_jacobian_eigen, h, hf]

/-- C27, instances: `rosenbrock_model` overrides none of the three, so its
`log_prob_jacobian` and `log_prob_propto` are its `log_prob`; `two_override_model`
overrides `log_prob_jacobian` (2) and `log_prob_propto` (3) only, and its
`log_prob_propto_jacobian` returns 2 on both representations. -/
theorem default_delegation_witness :
    (rosenbrock_model.mk 2 (fun _ => 0)).log_prob_jacobian [1, 2] none
        = (rosenbrock_model.mk 2 (fun _ => 0)).log_prob [1, 2] none
    ∧ (rosenbrock_model.mk 2 (fun _ => 0)).log_prob_propto [1, 2] none
        = (rosenbrock_model.mk 2 (fun _ => 0)).log_prob [1, 2] none
    ∧ two_override_model.log_prob_propto_jacobian [1] none = Eff.ret 2
    ∧ two_override_model.log_prob_propto_jacobian_eigen [1] none = Eff.ret 2
    ∧ two_override_model.log_prob_propto [1] none = Eff.ret 3 :=
  ⟨(default_delegation (rosenbrock_model.mk 2 (fun _ => 0)) [1, 2] none).1 rfl,
   (default_delegation (rosenbrock_model.mk 2 (fun _ => 0)) [1, 2] none).2.1 rfl,
   (default_delegation two_override_model [1] none).2.2.2.2.2.2.1 _ rfl rfl,
   (default_delegation two_override_model [1] none).2.2.2.2.2.2.2 _ rfl rfl,
   rfl⟩

/-! ### `rosenbrock_model`: value of the combined entry point -/

/-- C28: for `rosenbrock_model` on two parameters, every 2-element vector `(x, y)`
and every `(propto, jacobian)`, `log_prob_grad<propto, jacobian>` on the flat and on
the Eigen representation returns the value `-(100 (y - x²)² + (1 - x)²)`, and
`log_prob<propto, jacobian>` and the Eigen density entry point of the mode return the
same value. -/
theorem rosenbrock_log_prob_grad_value_eq_log_prob (x y : ℚ) (propto jacobian : Bool)
    (u : Nat → ℚ) (params_i : List Int) (gradient : List ℚ) (msgs : ostream_ptr)
    (w : World) :
    ((model.log_prob_grad propto jacobian
          (Model.derived_interface (rosenbrock_model.mk 2 u)) [x, y] params_i gradient msgs
          w).returned.map Prod.fst
        = some (-(100 * (y - x * x) * (y - x * x) + (1 - x) * (1 - x)))
      ∧ (model.log_prob propto jacobian
          (Model.derived_interface (rosenbrock_model.mk 2 u)) [x, y] params_i msgs
          w).returned
        = some (-(100 * (y - x * x) * (y - x * x) + (1 - x) * (1 - x))))
    ∧ ((model.log_prob_grad_eigen propto jacobian
          (Model.derived_interface (rosenbrock_model.mk 2 u)) [x, y] gradient msgs
          w).returned.map Prod.fst
        = some (-(100 * (y - x * x) * (y - x * x) + (1 - x) * (1 - x)))
      ∧ ((rosenbrock_model.mk 2 u).entry_point_eigen propto jacobian [x, y] msgs
          w).returned
        = some (-(100 * (y - x * x) * (y - x * x) + (1 - x) * (1 - x)))) := by
  have hg : model.log_prob_grad propto jacobian
      (Model.derived_interface (rosenbrock_model.mk 2 u)) [x, y] params_i gradient msgs
      = rosenbrock_model.log_prob_grad 2 [x, y] gradient propto jacobian msgs := rfl
  have hge : model.log_prob_grad_eigen propto jacobian
      (Model.derived_interface (rosenbrock_model.mk 2 u)) [x, y] gradient msgs
      = rosenbrock_model.log_prob_grad_eigen 2 u [x, y] gradient propto jacobian msgs := rfl
  have hl : model.log_prob propto jacobian
      (Model.derived_interface (rosenbrock_model.mk 2 u)) [x, y] params_i msgs
      = rosenbrock_model.log_prob [x, y] msgs := by
    cases propto <;> cases jacobian <;> rfl
  have hle : (rosenbrock_model.mk 2 u).entry_point_eigen propto jacobian [x, y] msgs
      = rosenbrock_model.log_prob_eigen [x, y] msgs := by
    cases propto <;> cases jacobian <;> rfl
  rw [hg, hge, hl, hle, rosenbrock_log_prob_grad_closed, rosenbrock_log_prob_grad_eigen_closed,
    rosenbrock_log_prob_closed, rosenbrock_log_prob_eigen_closed]
  exact ⟨⟨rfl, rfl⟩, ⟨rfl, rfl⟩⟩

/-! ### The gradient functional on a Virtual-Interface model -/

/-- C29: on a model derived from `model_base_interface`, `gradient(model, x, f,
grad_f, msgs)` is exactly the call `model.log_prob_grad(x, grad_f, true, true, msgs)`
of the Eigen entry point: `f` and `grad_f` are what that call returned and wrote.  No
`model_functional` is constructed; the constructor of `model_functional` on such a
model would throw, whereas `gradient` returns whenever the entry point does. -/
theorem gradient_interface_calls_log_prob_grad (m : model_base_interface)
    (x grad_f : List ℚ) (msgs : ostream_ptr) :
    model.gradient (Model.derived_interface m) x grad_f msgs
        = m.log_prob_grad_eigen x grad_f true true msgs
    ∧ (∀ w, (model_functional.ctor_interface m msgs w).raised
        = some (exception.runtime_error
            ("model_functional is not supported to work with '" ++ m.type_name ++ "'")))
    ∧ (∀ w a w1, m.log_prob_grad_eigen x grad_f true true msgs w = Res.ret a w1 →
        model.gradient (Model.derived_interface m) x grad_f msgs w = Res.ret a w1) :=
  ⟨rfl, fun _ => rfl, fun _ _ _ h => h⟩

/-- C29, instance: on `rosenbrock_model` at `(1/2, 1/2)`, `gradient` returns the value
`-13/2` and the gradient `(51, -50)` written by the entry point. -/
theorem gradient_interface_calls_log_prob_grad_witness :
    model.gradient (Model.derived_interface (rosenbrock_model.mk 2 (fun _ => 0)))
        [1 / 2, 1 / 2] [] none World.empty
      = Res.ret (-13 / 2, [51, -50]) World.empty := by
  refine (gradient_interface_calls_log_prob_grad (rosenbrock_model.mk 2 (fun _ => 0))
    [1 / 2, 1 / 2] [] none).2.2 World.empty _ _ ?_
  show rosenbrock_model.log_prob_grad_eigen 2 _ [1 / 2, 1 / 2] [] true true none World.empty
    = _
  rw [rosenbrock_log_prob_grad_eigen_closed]
  simp only [Eff.ret]
  norm_num

/-! ### The trampolines of `py_model_base` -/

/-- C30: eleven of the twelve trampolines of `py_model_base` call the host override
of their own name with their own arguments in order; the trampoline
`get_param_names` calls the host override named `model_compile_info` with `names`.
On a host class that defines both, `get_param_names(names)` yields what
`model_compile_info` returns, not what `get_param_names` returns. -/
theorem py_model_base_trampoline_names (self : stan_wrappers.py_instance)
    (a b c d e f : stan_wrappers.py_object) :
    (stan_wrappers.py_model_base.model_name self
        = stan_wrappers.PYBIND11_OVERRIDE_PURE self "model_name" []
      ∧ stan_wrappers.py_model_base.model_compile_info self
        = stan_wrappers.PYBIND11_OVERRIDE_PURE self "model_compile_info" []
      ∧ stan_wrappers.py_model_base.get_dims self a
        = stan_wrappers.PYBIND11_OVERRIDE_PURE self "get_dims" [a]
      ∧ stan_wrappers.py_model_base.constrained_param_names self a b c
        = stan_wrappers.PYBIND11_OVERRIDE_PURE self "constrained_param_names" [a, b, c]
      ∧ stan_wrappers.py_model_base.unconstrained_param_names self a b c
        = stan_wrappers.PYBIND11_OVERRIDE_PURE self "unconstrained_param_names" [a, b, c]
      ∧ stan_wrappers.py_model_base.log_prob self a b
        = stan_wrappers.PYBIND11_OVERRIDE_PURE self "log_prob" [a, b]
      ∧ stan_wrappers.py_model_base.log_prob_jacobian self a b
        = stan_wrappers.PYBIND11_OVERRIDE_PURE self "log_prob_jacobian" [a, b]
      ∧ stan_wrappers.py_model_base.log_prob_propto self a b
        = stan_wrappers.PYBIND11_OVERRIDE_PURE self "log_prob_propto" [a, b]
      ∧ stan_wrappers.py_model_base.log_prob_propto_jacobian self a b
        = stan_wrappers.PYBIND11_OVERRIDE_PURE self "log_prob_propto_jacobian" [a, b]
      ∧ stan_wrappers.py_model_base.transform_inits self a b c
        = stan_wrappers.PYBIND11_OVERRIDE_PURE self "transform_inits" [a, b, c]
      ∧ stan_wrappers.py_model_base.write_array self a b c d e f
        = stan_wrappers.PYBIND11_OVERRIDE_PURE self "write_array" [a, b, c, d, e, f])
    ∧ stan_wrappers.py_model_base.get_param_names self a
        = stan_wrappers.PYBIND11_OVERRIDE_PURE self "model_compile_info" [a]
    ∧ stan_wrappers.PYBIND11_OVERRIDE_PURE stan_wrappers.two_method_instance
          "get_param_names" [a] = some a
    ∧ stan_wrappers.py_model_base.get_param_names stan_wrappers.two_method_instance a
        = some { repr := "compile info" } :=
  ⟨⟨rfl, rfl, rfl, rfl, rfl, rfl, rfl, rfl, rfl, rfl, rfl⟩, rfl,
   by simp [stan_wrappers.PYBIND11_OVERRIDE_PURE, stan_wrappers.two_method_instance],
   by simp [stan_wrappers.py_model_base.get_param_names,
     stan_wrappers.PYBIND11_OVERRIDE_PURE, stan_wrappers.two_method_instance]⟩

end stan
